import Mathlib

/-!
# Pet clinic backend: ownership, registration and login

A shallow embedding of the HTTP handlers of the pet clinic service
(`handlers/*.go`, `middleware/middleware.go`, `models/models.go`,
`database/database.go`, `utils/response.go`).

* The relational store is four lists of rows; the constraints of
  `createTables` that decide an insert (UNIQUE email, the foreign keys,
  ON DELETE CASCADE) are part of the model.
* Every handler is a function from the request and the world before the
  call to the response and the world after it.  The world carries the
  tables, the files on disk and the sequence of statements issued so far.
* What the process cannot decide from its inputs is read from `Env`:
  driver errors, file-system errors, the value a SERIAL column yields, the
  clock, bcrypt and the token signature; `Config` holds the configuration,
  `filepath.Join` and the token verification.
* Go `int` is 64 bit; ids are `Int` and `Atoi` clamps to that range.
* Server-side logging (`utils.LogMessage`) has no effect on the response or
  on the store and is not represented.
-/

namespace PetClinic

/-! ## models/models.go -/

/-- Go struct `models.Pet`; also the shape of a `pets` row. -/
structure Pet where
  ID : Int
  Name : String
  Species : String
  Breed : String
  OwnerID : Int
  MedicalHistory : String
deriving DecidableEq, Repr

/-- Go struct `models.Appointment`; `Date` is a `time.Time`, counted in
nanoseconds from the zero time, so that `Date.IsZero()` is `Date = 0`. -/
structure Appointment where
  ID : Int
  PetID : Int
  Date : Int
  Reason : String
  Status : String
deriving DecidableEq, Repr

/-- Go struct `models.MedicalRecord`; also the shape of a `medical_records` row. -/
structure MedicalRecord where
  ID : Int
  PetID : Int
  FileName : String
  FilePath : String
  FileType : String
deriving DecidableEq, Repr

/-- Go struct `models.User`: the body of a registration request. -/
structure User where
  Email : String
  Password : String
  Name : String
  Contact : String
  Role : String
deriving DecidableEq, Repr

/-- Go struct `models.LoginRequest`. -/
structure LoginRequest where
  Email : String
  Password : String
deriving DecidableEq, Repr

/-- Go struct `models.Claims`: the three custom fields and the two registered
claims the login handler fills in, both in whole seconds since the Unix epoch. -/
structure Claims where
  UserID : Int
  Email : String
  Role : String
  ExpiresAt : Int
  IssuedAt : Int
deriving DecidableEq, Repr

/-! ## database/database.go -/

/-- A row of table `owners` (without `created_at`, which no handler reads). -/
structure OwnerRow where
  id : Int
  name : String
  contact : String
  email : String
  password : String
  role : String
deriving DecidableEq, Repr

/-- The four tables of `createTables`. -/
structure Store where
  owners : List OwnerRow
  pets : List Pet
  appointments : List Appointment
  medical_records : List MedicalRecord
deriving DecidableEq, Repr

/-- One observable step of a handler: a statement sent to the database or a
call into the file system. -/
inductive Event where
  | sql (stmt : String)
  | fs (op : String) (path : String)
deriving DecidableEq, Repr

/-- A file on disk: its path and its content. -/
structure File where
  path : String
  content : String
deriving DecidableEq, Repr

/-- Everything a handler can read or change. -/
structure World where
  db : Store
  files : List File
  trace : List Event
deriving DecidableEq, Repr

/-- What a handler call reads from outside the program.
`dbErr stmt` says that statement `stmt` fails with a driver error (lost
connection, a column length or range limit); `fsErr op` the same for a
file-system call; `serial` is the id the SERIAL column yields for an insert;
`now k` is the k-th reading of `time.Now()` in nanoseconds since the Unix
epoch.  The last three fields are bcrypt and the token signature. -/
structure Env where
  dbErr : String → Bool
  fsErr : String → Bool
  serial : Int
  now : Nat → Int
  GenerateFromPassword : String → Option String
  CompareHashAndPassword : String → String → Bool
  SignedString : Claims → Option String

/-! ## HTTP requests and responses -/

/-- The parts of `*http.Request` the handlers read: the header map and the
route variables of `mux.Vars`. The decoded body is a separate argument of the
handlers that read one. -/
structure Request where
  header : List (String × String)
  vars : List (String × String)
deriving DecidableEq, Repr

/-- The payload handed to `RespondWithJSON`, or the file served by a download. -/
inductive Payload where
  /-- Object `map[string]string{"error": msg}` -/
  | error (msg : String)
  /-- Object `map[string]string{"message": msg}` -/
  | message (msg : String)
  | pet (p : Pet)
  | appointment (a : Appointment)
  /-- JSON array of pets of `GetPetsHandler` -/
  | pets (ps : List Pet)
  /-- JSON array of appointments of `GetAppointmentsHandler` -/
  | appointments (apts : List Appointment)
  /-- Object with keys `message`, `id`, `file_name` of an upload -/
  | uploaded (msg : String) (id : Int) (file_name : String)
  /-- JSON array of medical records of `GetMedicalRecordsHandler` -/
  | records (ms : List MedicalRecord)
  /-- Plain text written by `net/http` itself (`http.Error`), or no body when empty -/
  | text (msg : String)
  /-- Status 206 of `http.ServeFile`: the byte ranges of the file that were asked for -/
  | partialContent (filename : String)
  /-- Object with keys `message`, `user_id`, `role` of a registration -/
  | registered (msg : String) (user_id : Int) (role : String)
  /-- Object with keys `token`, `role`, `name`, `user_id` of a login -/
  | login (token : String) (role : String) (name : String) (user_id : Int)
  /-- File served by `http.ServeFile` with `Content-Disposition: attachment; filename=` -/
  | file (filename : String) (content : String)
deriving DecidableEq, Repr

/-- What the handler wrote to the `http.ResponseWriter`. -/
structure Response where
  code : Nat
  payload : Payload
deriving DecidableEq, Repr

def StatusOK : Nat := 200
def StatusCreated : Nat := 201
def StatusBadRequest : Nat := 400
def StatusUnauthorized : Nat := 401
def StatusForbidden : Nat := 403
def StatusNotFound : Nat := 404
def StatusInternalServerError : Nat := 500

/-- Function `utils.RespondWithJSON`. -/
def RespondWithJSON (code : Nat) (payload : Payload) : Response :=
  ⟨code, payload⟩

/-- Function `utils.RespondWithError`. -/
def RespondWithError (code : Nat) (message : String) : Response :=
  RespondWithJSON code (Payload.error message)

/-- Method `http.Header.Get`: the first value stored under the key, `""` when absent. -/
def headerGet (h : List (String × String)) (key : String) : String :=
  match h.find? (fun kv => kv.1 == key) with
  | some kv => kv.2
  | none => ""

/-- Lookup `mux.Vars(r)[key]`: `""` when the route has no such variable. -/
def Request.var (r : Request) (key : String) : String :=
  match r.vars.find? (fun kv => kv.1 == key) with
  | some kv => kv.2
  | none => ""

/-! ## strconv.Atoi -/

def maxInt : Int := 9223372036854775807
def minInt : Int := -9223372036854775808

def maxUint64 : Nat := 18446744073709551615

/-- The two errors of package `strconv`. -/
inductive NumError where
  | ErrSyntax
  | ErrRange
deriving DecidableEq, Repr

/-- The digit loop of `strconv.ParseUint(s, 10, 64)`: the bytes are read from the
left; a byte that is no digit is a syntax error, and a value that leaves 64 bits
ends the loop with a range error before any later byte is looked at. -/
def parseUintLoop : List Char → Nat → Except NumError Nat
  | [], n => Except.ok n
  | c :: cs, n =>
    if ¬ c.isDigit then Except.error NumError.ErrSyntax
    else if n * 10 + (c.toNat - 48) > maxUint64 then Except.error NumError.ErrRange
    else parseUintLoop cs (n * 10 + (c.toNat - 48))

/-- Function `strconv.ParseUint(s, 10, 64)`: the empty string is a syntax error. -/
def ParseUint (cs : List Char) : Except NumError Nat :=
  match cs with
  | [] => Except.error NumError.ErrSyntax
  | _ :: _ => parseUintLoop cs 0

/-- Function `strconv.Atoi` for a 64-bit `int` (`ParseInt(s, 10, 0)`; the fast
path for short strings gives the same results): the value and whether
`err != nil`. A syntax error yields 0, a range error the nearest bound. -/
def Atoi (s : String) : Int × Bool :=
  let cs := s.toList
  let neg := cs.head? == some '-'
  let ds := if cs.head? == some '-' || cs.head? == some '+' then cs.tail else cs
  match ParseUint ds with
  | Except.error NumError.ErrSyntax => (0, true)
  | Except.error NumError.ErrRange => if neg then (minInt, true) else (maxInt, true)
  | Except.ok un =>
    let v : Int := if neg then -(un : Int) else (un : Int)
    if v > maxInt then (maxInt, true)
    else if v < minInt then (minInt, true)
    else (v, false)

/-! ## middleware/middleware.go -/

/-- Function `middleware.GetUserIDFromRequest`: the error of `Atoi` is dropped. -/
def GetUserIDFromRequest (r : Request) : Int :=
  (Atoi (headerGet r.header "X-User-ID")).1

/-- Function `middleware.GetUserRoleFromRequest`. -/
def GetUserRoleFromRequest (r : Request) : String :=
  headerGet r.header "X-User-Role"

/-! ## The statements the handlers send -/

/-- Record that a statement was sent. -/
def World.stmt (w : World) (s : String) : World :=
  { w with trace := w.trace ++ [Event.sql s] }

/-- Record a call into the file system. -/
def World.fsCall (w : World) (op path : String) : World :=
  { w with trace := w.trace ++ [Event.fs op path] }

def sqlPetOwner : String := "SELECT owner_id FROM pets WHERE id = $1"
def sqlPetByID : String :=
  "SELECT id, name, species, breed, owner_id, medical_history FROM pets WHERE id = $1"
def sqlInsertPet : String :=
  "INSERT INTO pets (name, species, breed, owner_id, medical_history) VALUES ($1, $2, $3, $4, $5) RETURNING id"
def sqlUpdatePet : String :=
  "UPDATE pets SET name=$1, species=$2, breed=$3, medical_history=$4 WHERE id=$5"
def sqlDeletePet : String := "DELETE FROM pets WHERE id = $1"

/-- Call `QueryRow(sqlPetByID, petID).Scan(...)`: the row, or `none` when `err != nil`. -/
def queryPetByID (env : Env) (petID : Int) (w : World) : Option Pet × World :=
  (if env.dbErr sqlPetByID then none else w.db.pets.find? (fun p => p.ID = petID),
   w.stmt sqlPetByID)

/-- Call `QueryRow(sqlPetOwner, petID).Scan(&ownerID)`: the owner, or `none` when `err != nil`. -/
def queryPetOwner (env : Env) (petID : Int) (w : World) : Option Int × World :=
  (if env.dbErr sqlPetOwner then none
   else (w.db.pets.find? (fun p => p.ID = petID)).map Pet.OwnerID,
   w.stmt sqlPetOwner)

/-- Call `QueryRow(sqlInsertPet, ...).Scan(&id)`: the insert is refused when
`owner_id` references no `owners` row; the new row takes the SERIAL value. -/
def insertPet (env : Env) (pet : Pet) (w : World) : Option Int × World :=
  let w1 := w.stmt sqlInsertPet
  if env.dbErr sqlInsertPet then (none, w1)
  else if w.db.owners.any (fun o => o.id = pet.OwnerID) then
    (some env.serial,
     { w1 with db := { w1.db with pets := w1.db.pets ++ [{ pet with ID := env.serial }] } })
  else (none, w1)

/-- Call `Exec(sqlUpdatePet, ...)`: `none` on error, else the number of rows affected.
`owner_id` is not among the assigned columns. -/
def execUpdatePet (env : Env) (pet : Pet) (petID : Int) (w : World) : Option Nat × World :=
  let w1 := w.stmt sqlUpdatePet
  if env.dbErr sqlUpdatePet then (none, w1)
  else
    (some (w.db.pets.countP (fun p => p.ID = petID)),
     { w1 with db := { w1.db with pets := w1.db.pets.map (fun p =>
        if p.ID = petID then
          { p with Name := pet.Name, Species := pet.Species, Breed := pet.Breed,
                   MedicalHistory := pet.MedicalHistory }
        else p) } })

/-- Call `Exec(sqlDeletePet, petID)`: the rows of `appointments` and
`medical_records` that reference a deleted pet go with it (ON DELETE CASCADE). -/
def execDeletePet (env : Env) (petID : Int) (w : World) : Option Nat × World :=
  let w1 := w.stmt sqlDeletePet
  if env.dbErr sqlDeletePet then (none, w1)
  else
    let deleted := w.db.pets.filter (fun p => p.ID = petID)
    (some deleted.length,
     { w1 with db := { w1.db with
        pets := w1.db.pets.filter (fun p => ¬ p.ID = petID),
        appointments := w1.db.appointments.filter
          (fun a => ¬ deleted.any (fun p => p.ID = a.PetID)),
        medical_records := w1.db.medical_records.filter
          (fun m => ¬ deleted.any (fun p => p.ID = m.PetID)) } })

/-! ## handlers/pet_handler.go -/

/-- Function `handlers.CreatePetHandler`; `body` is the outcome of
`json.NewDecoder(r.Body).Decode(&pet)`, `none` when it returns an error. -/
def CreatePetHandler (env : Env) (r : Request) (body : Option Pet) (w : World) :
    Response × World :=
  match body with
  | none => (RespondWithError StatusBadRequest "Invalid request", w)
  | some pet =>
    if pet.Name = "" ∨ pet.Species = "" then
      (RespondWithError StatusBadRequest "Name and species are required", w)
    else
      let userID := GetUserIDFromRequest r
      let role := GetUserRoleFromRequest r
      if role ≠ "staff" then
        let pet := { pet with OwnerID := userID }
        match insertPet env pet w with
        | (none, w1) => (RespondWithError StatusInternalServerError "Failed to create pet", w1)
        | (some id, w1) => (RespondWithJSON StatusCreated (Payload.pet { pet with ID := id }), w1)
      else if pet.OwnerID = 0 then
        (RespondWithError StatusBadRequest "Owner ID is required", w)
      else
        match insertPet env pet w with
        | (none, w1) => (RespondWithError StatusInternalServerError "Failed to create pet", w1)
        | (some id, w1) => (RespondWithJSON StatusCreated (Payload.pet { pet with ID := id }), w1)

/-- Function `handlers.GetPetByIDHandler`. -/
def GetPetByIDHandler (env : Env) (r : Request) (w : World) : Response × World :=
  let petID := (Atoi (r.var "id")).1
  let userID := GetUserIDFromRequest r
  let role := GetUserRoleFromRequest r
  match queryPetByID env petID w with
  | (none, w1) => (RespondWithError StatusNotFound "Pet not found", w1)
  | (some pet, w1) =>
    if role ≠ "staff" ∧ pet.OwnerID ≠ userID then
      (RespondWithError StatusForbidden "Access denied", w1)
    else (RespondWithJSON StatusOK (Payload.pet pet), w1)

/-- The tail of `UpdatePetHandler` after the ownership check. -/
def updatePetExec (env : Env) (pet : Pet) (petID : Int) (w : World) : Response × World :=
  match execUpdatePet env pet petID w with
  | (none, w1) => (RespondWithError StatusInternalServerError "Failed to update pet", w1)
  | (some rowsAffected, w1) =>
    if rowsAffected = 0 then (RespondWithError StatusNotFound "Pet not found", w1)
    else (RespondWithJSON StatusOK (Payload.message "Pet updated successfully"), w1)

/-- Function `handlers.UpdatePetHandler`. -/
def UpdatePetHandler (env : Env) (r : Request) (body : Option Pet) (w : World) :
    Response × World :=
  let petID := (Atoi (r.var "id")).1
  match body with
  | none => (RespondWithError StatusBadRequest "Invalid request", w)
  | some pet =>
    let userID := GetUserIDFromRequest r
    let role := GetUserRoleFromRequest r
    if role ≠ "staff" then
      match queryPetOwner env petID w with
      | (none, w1) => (RespondWithError StatusNotFound "Pet not found", w1)
      | (some ownerID, w1) =>
        if ownerID ≠ userID then (RespondWithError StatusForbidden "Access denied", w1)
        else updatePetExec env pet petID w1
    else updatePetExec env pet petID w

/-- The tail of `DeletePetHandler` after the ownership check. -/
def deletePetExec (env : Env) (petID : Int) (w : World) : Response × World :=
  match execDeletePet env petID w with
  | (none, w1) => (RespondWithError StatusInternalServerError "Failed to delete pet", w1)
  | (some rowsAffected, w1) =>
    if rowsAffected = 0 then (RespondWithError StatusNotFound "Pet not found", w1)
    else (RespondWithJSON StatusOK (Payload.message "Pet deleted successfully"), w1)

/-- Function `handlers.DeletePetHandler`. -/
def DeletePetHandler (env : Env) (r : Request) (w : World) : Response × World :=
  let petID := (Atoi (r.var "id")).1
  let userID := GetUserIDFromRequest r
  let role := GetUserRoleFromRequest r
  if role ≠ "staff" then
    match queryPetOwner env petID w with
    | (none, w1) => (RespondWithError StatusNotFound "Pet not found", w1)
    | (some ownerID, w1) =>
      if ownerID ≠ userID then (RespondWithError StatusForbidden "Access denied", w1)
      else deletePetExec env petID w1
  else deletePetExec env petID w

/-! ## handlers/appointment_handler.go -/

def sqlInsertAppointment : String :=
  "INSERT INTO appointments (pet_id, date, reason, status) VALUES ($1, $2, $3, $4) RETURNING id"
def sqlAppointmentByID : String :=
  "SELECT a.id, a.pet_id, a.date, a.reason, a.status, p.owner_id FROM appointments a JOIN pets p ON a.pet_id = p.id WHERE a.id = $1"
def sqlAppointmentOwner : String :=
  "SELECT p.owner_id FROM appointments a JOIN pets p ON a.pet_id = p.id WHERE a.id = $1"
def sqlUpdateAppointment : String :=
  "UPDATE appointments SET date=$1, reason=$2, status=$3 WHERE id=$4"
def sqlDeleteAppointment : String := "DELETE FROM appointments WHERE id = $1"

/-- The rows of `appointments a JOIN pets p ON a.pet_id = p.id`. -/
def joinAppointmentsPets (db : Store) : List (Appointment × Pet) :=
  db.appointments.flatMap (fun a =>
    (db.pets.filter (fun p => a.PetID = p.ID)).map (fun p => (a, p)))

/-- Call `QueryRow(sqlAppointmentByID, aptID).Scan(...)`: the appointment and the
owner of its pet, `none` when `err != nil`. -/
def queryAppointmentByID (env : Env) (aptID : Int) (w : World) :
    Option (Appointment × Int) × World :=
  (if env.dbErr sqlAppointmentByID then none
   else ((joinAppointmentsPets w.db).find? (fun ap => ap.1.ID = aptID)).map
      (fun ap => (ap.1, ap.2.OwnerID)),
   w.stmt sqlAppointmentByID)

/-- Call `QueryRow(sqlAppointmentOwner, aptID).Scan(&ownerID)`. -/
def queryAppointmentOwner (env : Env) (aptID : Int) (w : World) : Option Int × World :=
  (if env.dbErr sqlAppointmentOwner then none
   else ((joinAppointmentsPets w.db).find? (fun ap => ap.1.ID = aptID)).map
      (fun ap => ap.2.OwnerID),
   w.stmt sqlAppointmentOwner)

/-- Call `QueryRow(sqlInsertAppointment, ...).Scan(&id)`: the insert is refused
when `pet_id` references no `pets` row. -/
def insertAppointment (env : Env) (a : Appointment) (w : World) : Option Int × World :=
  let w1 := w.stmt sqlInsertAppointment
  if env.dbErr sqlInsertAppointment then (none, w1)
  else if w.db.pets.any (fun p => p.ID = a.PetID) then
    (some env.serial,
     { w1 with db := { w1.db with
        appointments := w1.db.appointments ++ [{ a with ID := env.serial }] } })
  else (none, w1)

/-- Call `Exec(sqlUpdateAppointment, ...)`: `pet_id` is not among the assigned columns. -/
def execUpdateAppointment (env : Env) (a : Appointment) (aptID : Int) (w : World) :
    Option Nat × World :=
  let w1 := w.stmt sqlUpdateAppointment
  if env.dbErr sqlUpdateAppointment then (none, w1)
  else
    (some (w.db.appointments.countP (fun x => x.ID = aptID)),
     { w1 with db := { w1.db with appointments := w1.db.appointments.map (fun x =>
        if x.ID = aptID then
          { x with Date := a.Date, Reason := a.Reason, Status := a.Status }
        else x) } })

/-- Call `Exec(sqlDeleteAppointment, aptID)`. -/
def execDeleteAppointment (env : Env) (aptID : Int) (w : World) : Option Nat × World :=
  let w1 := w.stmt sqlDeleteAppointment
  if env.dbErr sqlDeleteAppointment then (none, w1)
  else
    (some (w.db.appointments.countP (fun x => x.ID = aptID)),
     { w1 with db := { w1.db with
        appointments := w1.db.appointments.filter (fun x => ¬ x.ID = aptID) } })

/-- The tail of `CreateAppointmentHandler` after the ownership check. -/
def createAppointmentExec (env : Env) (appointment : Appointment) (w : World) :
    Response × World :=
  let appointment :=
    if appointment.Status = "" then { appointment with Status := "scheduled" } else appointment
  match insertAppointment env appointment w with
  | (none, w1) =>
    (RespondWithError StatusInternalServerError "Failed to create appointment", w1)
  | (some id, w1) =>
    (RespondWithJSON StatusCreated (Payload.appointment { appointment with ID := id }), w1)

/-- Function `handlers.CreateAppointmentHandler`. -/
def CreateAppointmentHandler (env : Env) (r : Request) (body : Option Appointment)
    (w : World) : Response × World :=
  match body with
  | none => (RespondWithError StatusBadRequest "Invalid request", w)
  | some appointment =>
    if appointment.PetID = 0 ∨ appointment.Date = 0 then
      (RespondWithError StatusBadRequest "Pet ID and date are required", w)
    else
      let userID := GetUserIDFromRequest r
      let role := GetUserRoleFromRequest r
      if role ≠ "staff" then
        match queryPetOwner env appointment.PetID w with
        | (none, w1) => (RespondWithError StatusNotFound "Pet not found", w1)
        | (some ownerID, w1) =>
          if ownerID ≠ userID then
            (RespondWithError StatusForbidden "Access denied - you don\x27t own this pet", w1)
          else createAppointmentExec env appointment w1
      else createAppointmentExec env appointment w

/-- Function `handlers.GetAppointmentByIDHandler`. -/
def GetAppointmentByIDHandler (env : Env) (r : Request) (w : World) : Response × World :=
  let aptID := (Atoi (r.var "id")).1
  let userID := GetUserIDFromRequest r
  let role := GetUserRoleFromRequest r
  match queryAppointmentByID env aptID w with
  | (none, w1) => (RespondWithError StatusNotFound "Appointment not found", w1)
  | (some (appointment, ownerID), w1) =>
    if role ≠ "staff" ∧ ownerID ≠ userID then
      (RespondWithError StatusForbidden "Access denied", w1)
    else (RespondWithJSON StatusOK (Payload.appointment appointment), w1)

/-- The tail of `UpdateAppointmentHandler` after the ownership check. -/
def updateAppointmentExec (env : Env) (appointment : Appointment) (aptID : Int) (w : World) :
    Response × World :=
  match execUpdateAppointment env appointment aptID w with
  | (none, w1) =>
    (RespondWithError StatusInternalServerError "Failed to update appointment", w1)
  | (some rowsAffected, w1) =>
    if rowsAffected = 0 then (RespondWithError StatusNotFound "Appointment not found", w1)
    else (RespondWithJSON StatusOK (Payload.message "Appointment updated successfully"), w1)

/-- Function `handlers.UpdateAppointmentHandler`. -/
def UpdateAppointmentHandler (env : Env) (r : Request) (body : Option Appointment)
    (w : World) : Response × World :=
  let aptID := (Atoi (r.var "id")).1
  match body with
  | none => (RespondWithError StatusBadRequest "Invalid request", w)
  | some appointment =>
    let userID := GetUserIDFromRequest r
    let role := GetUserRoleFromRequest r
    if role ≠ "staff" then
      match queryAppointmentOwner env aptID w with
      | (none, w1) => (RespondWithError StatusNotFound "Appointment not found", w1)
      | (some ownerID, w1) =>
        if ownerID ≠ userID then (RespondWithError StatusForbidden "Access denied", w1)
        else updateAppointmentExec env appointment aptID w1
    else updateAppointmentExec env appointment aptID w

/-- The tail of `DeleteAppointmentHandler` after the ownership check. -/
def deleteAppointmentExec (env : Env) (aptID : Int) (w : World) : Response × World :=
  match execDeleteAppointment env aptID w with
  | (none, w1) =>
    (RespondWithError StatusInternalServerError "Failed to delete appointment", w1)
  | (some rowsAffected, w1) =>
    if rowsAffected = 0 then (RespondWithError StatusNotFound "Appointment not found", w1)
    else (RespondWithJSON StatusOK (Payload.message "Appointment deleted successfully"), w1)

/-- Function `handlers.DeleteAppointmentHandler`. -/
def DeleteAppointmentHandler (env : Env) (r : Request) (w : World) : Response × World :=
  let aptID := (Atoi (r.var "id")).1
  let userID := GetUserIDFromRequest r
  let role := GetUserRoleFromRequest r
  if role ≠ "staff" then
    match queryAppointmentOwner env aptID w with
    | (none, w1) => (RespondWithError StatusNotFound "Appointment not found", w1)
    | (some ownerID, w1) =>
      if ownerID ≠ userID then (RespondWithError StatusForbidden "Access denied", w1)
      else deleteAppointmentExec env aptID w1
  else deleteAppointmentExec env aptID w

/-! ## handlers/file_handler.go -/

def sqlRecordForDownload : String :=
  "SELECT mr.file_path, mr.file_name, mr.pet_id, p.owner_id FROM medical_records mr JOIN pets p ON mr.pet_id = p.id WHERE mr.id = $1"
def sqlRecordForDelete : String :=
  "SELECT mr.file_path, p.owner_id FROM medical_records mr JOIN pets p ON mr.pet_id = p.id WHERE mr.id = $1"
def sqlDeleteRecord : String := "DELETE FROM medical_records WHERE id = $1"

/-- The rows of `medical_records mr JOIN pets p ON mr.pet_id = p.id`. -/
def joinRecordsPets (db : Store) : List (MedicalRecord × Pet) :=
  db.medical_records.flatMap (fun m =>
    (db.pets.filter (fun p => m.PetID = p.ID)).map (fun p => (m, p)))

/-- Call `QueryRow(sqlRecordForDownload, recordID).Scan(...)`: the record and the
owner of its pet, `none` when `err != nil`. -/
def queryRecordForDownload (env : Env) (recordID : Int) (w : World) :
    Option (MedicalRecord × Int) × World :=
  (if env.dbErr sqlRecordForDownload then none
   else ((joinRecordsPets w.db).find? (fun mp => mp.1.ID = recordID)).map
      (fun mp => (mp.1, mp.2.OwnerID)),
   w.stmt sqlRecordForDownload)

/-- Call `QueryRow(sqlRecordForDelete, recordID).Scan(&filepath, &ownerID)`. -/
def queryRecordForDelete (env : Env) (recordID : Int) (w : World) :
    Option (String × Int) × World :=
  (if env.dbErr sqlRecordForDelete then none
   else ((joinRecordsPets w.db).find? (fun mp => mp.1.ID = recordID)).map
      (fun mp => (mp.1.FilePath, mp.2.OwnerID)),
   w.stmt sqlRecordForDelete)

/-- Call `Exec(sqlDeleteRecord, recordID)`. -/
def execDeleteRecord (env : Env) (recordID : Int) (w : World) : Option Nat × World :=
  let w1 := w.stmt sqlDeleteRecord
  if env.dbErr sqlDeleteRecord then (none, w1)
  else
    (some (w.db.medical_records.countP (fun m => m.ID = recordID)),
     { w1 with db := { w1.db with
        medical_records := w1.db.medical_records.filter (fun m => ¬ m.ID = recordID) } })

/-- Call `os.Stat(path)` followed by `os.IsNotExist(err)`: whether the path is
reported absent. A `Stat` that fails for another reason (`fsErr "Stat"`, for
instance a directory that may not be searched) is not `IsNotExist`. -/
def statNotExist (env : Env) (path : String) (w : World) : Bool × World :=
  (if env.fsErr "Stat" then false else ! w.files.any (fun f => f.path = path),
   w.fsCall "Stat" path)

/-- Call `os.Remove(path)`: whether `err != nil`; the file is gone when it is nil. -/
def osRemove (env : Env) (path : String) (w : World) : Bool × World :=
  let w1 := w.fsCall "Remove" path
  if env.fsErr "Remove" ∨ ¬ w.files.any (fun f => f.path = path) then (true, w1)
  else (false, { w1 with files := w1.files.filter (fun f => ¬ f.path = path) })

def StatusPartialContent : Nat := 206
def StatusNotModified : Nat := 304
def StatusPreconditionFailed : Nat := 412
def StatusRequestedRangeNotSatisfiable : Nat := 416

/-- Whether the request carries one of the headers `http.ServeFile` acts on
(preconditions and byte ranges). -/
def conditionalRequest (r : Request) : Bool :=
  ["If-Match", "If-Unmodified-Since", "If-None-Match", "If-Modified-Since", "Range",
    "If-Range"].any (fun key => ! (headerGet r.header key == ""))

/-- Call `http.ServeFile(w, r, path)` of `net/http`, for the route of the download
(its path has no `..` element and does not end in `/index.html`) and a path
that names a regular file when it names anything. Opening the file may fail:
for lack of permission (`fsErr "Open: permission denied"`) the answer is 403,
for a missing file 404, for any other error (`fsErr "Open"`) 500. An opened
file is served whole with 200, unless the request carries precondition or
range headers, in which case `fsErr` says which of 304, 412, 416 and 206 is
the outcome, if any. -/
def ServeFile (env : Env) (r : Request) (filename path : String) (w : World) :
    Response × World :=
  let w1 := w.fsCall "ServeFile" path
  if env.fsErr "Open: permission denied" then (⟨StatusForbidden, Payload.text "403 Forbidden"⟩, w1)
  else
    match w.files.find? (fun f => f.path = path) with
    | none => (⟨StatusNotFound, Payload.text "404 page not found"⟩, w1)
    | some f =>
      if env.fsErr "Open" then
        (⟨StatusInternalServerError, Payload.text "500 Internal Server Error"⟩, w1)
      else if conditionalRequest r ∧ env.fsErr "serveContent: 304" then
        (⟨StatusNotModified, Payload.text ""⟩, w1)
      else if conditionalRequest r ∧ env.fsErr "serveContent: 412" then
        (⟨StatusPreconditionFailed, Payload.text ""⟩, w1)
      else if conditionalRequest r ∧ env.fsErr "serveContent: 416" then
        (⟨StatusRequestedRangeNotSatisfiable, Payload.text "invalid range"⟩, w1)
      else if conditionalRequest r ∧ env.fsErr "serveContent: 206" then
        (⟨StatusPartialContent, Payload.partialContent filename⟩, w1)
      else (⟨StatusOK, Payload.file filename f.content⟩, w1)

/-- Function `handlers.DownloadMedicalRecordHandler`. -/
def DownloadMedicalRecordHandler (env : Env) (r : Request) (w : World) : Response × World :=
  let recordID := (Atoi (r.var "id")).1
  let userID := GetUserIDFromRequest r
  let role := GetUserRoleFromRequest r
  match queryRecordForDownload env recordID w with
  | (none, w1) => (RespondWithError StatusNotFound "Record not found", w1)
  | (some (record, ownerID), w1) =>
    if role ≠ "staff" ∧ ownerID ≠ userID then
      (RespondWithError StatusForbidden "Access denied", w1)
    else
      match statNotExist env record.FilePath w1 with
      | (true, w2) => (RespondWithError StatusNotFound "File not found", w2)
      | (false, w2) => ServeFile env r record.FileName record.FilePath w2

def sqlRecordsByPet : String :=
  "SELECT id, pet_id, file_name, file_path, file_type FROM medical_records WHERE pet_id = $1 ORDER BY uploaded_at DESC"

/-- Call `Query(sqlRecordsByPet, petID)` and the scan loop. A table is held in
the order of its inserts and `uploaded_at` is the time of the insert, so
`ORDER BY uploaded_at DESC` is the reverse of that order. -/
def queryRecordsByPet (env : Env) (petID : Int) (w : World) :
    Option (List MedicalRecord) × World :=
  (if env.dbErr sqlRecordsByPet then none
   else some (w.db.medical_records.filter (fun m => m.PetID = petID)).reverse,
   w.stmt sqlRecordsByPet)

/-- The tail of `GetMedicalRecordsHandler` after the ownership check. -/
def getRecordsExec (env : Env) (petID : Int) (w : World) : Response × World :=
  match queryRecordsByPet env petID w with
  | (none, w1) => (RespondWithError StatusInternalServerError "Failed to fetch records", w1)
  | (some records, w1) => (RespondWithJSON StatusOK (Payload.records records), w1)

/-- Function `handlers.GetMedicalRecordsHandler`. -/
def GetMedicalRecordsHandler (env : Env) (r : Request) (w : World) : Response × World :=
  let petID := (Atoi (r.var "pet_id")).1
  let userID := GetUserIDFromRequest r
  let role := GetUserRoleFromRequest r
  if role ≠ "staff" then
    match queryPetOwner env petID w with
    | (none, w1) => (RespondWithError StatusNotFound "Pet not found", w1)
    | (some ownerID, w1) =>
      if ownerID ≠ userID then (RespondWithError StatusForbidden "Access denied", w1)
      else getRecordsExec env petID w1
  else getRecordsExec env petID w

/-- Function `handlers.DeleteMedicalRecordHandler`. -/
def DeleteMedicalRecordHandler (env : Env) (r : Request) (w : World) : Response × World :=
  let recordID := (Atoi (r.var "id")).1
  let userID := GetUserIDFromRequest r
  let role := GetUserRoleFromRequest r
  match queryRecordForDelete env recordID w with
  | (none, w1) => (RespondWithError StatusNotFound "Record not found", w1)
  | (some (filepath, ownerID), w1) =>
    if role ≠ "staff" ∧ ownerID ≠ userID then
      (RespondWithError StatusForbidden "Access denied", w1)
    else
      match execDeleteRecord env recordID w1 with
      | (none, w2) =>
        (RespondWithError StatusInternalServerError "Failed to delete record", w2)
      | (some rowsAffected, w2) =>
        if rowsAffected = 0 then (RespondWithError StatusNotFound "Record not found", w2)
        else
          (RespondWithJSON StatusOK (Payload.message "Medical record deleted successfully"),
           (osRemove env filepath w2).2)

/-! ## handlers/auth_handler.go -/

def sqlInsertOwner : String :=
  "INSERT INTO owners (name, contact, email, password, role) VALUES ($1, $2, $3, $4, $5) RETURNING id"
def sqlOwnerByEmail : String := "SELECT id, password, role, name FROM owners WHERE email = $1"

/-- Call `QueryRow(sqlInsertOwner, ...).Scan(&id)`: the insert is refused when the
email is already stored (UNIQUE). -/
def insertOwner (env : Env) (row : OwnerRow) (w : World) : Option Int × World :=
  let w1 := w.stmt sqlInsertOwner
  if env.dbErr sqlInsertOwner then (none, w1)
  else if w.db.owners.any (fun o => o.email = row.email) then (none, w1)
  else
    (some env.serial,
     { w1 with db := { w1.db with owners := w1.db.owners ++ [{ row with id := env.serial }] } })

/-- Call `QueryRow(sqlOwnerByEmail, email).Scan(&id, &hashedPassword, &role, &name)`. -/
def queryOwnerByEmail (env : Env) (email : String) (w : World) : Option OwnerRow × World :=
  (if env.dbErr sqlOwnerByEmail then none else w.db.owners.find? (fun o => o.email = email),
   w.stmt sqlOwnerByEmail)

/-- Function `handlers.RegisterHandler`; `body` is the outcome of decoding the
request body into `models.User`. -/
def RegisterHandler (env : Env) (body : Option User) (w : World) : Response × World :=
  match body with
  | none => (RespondWithError StatusBadRequest "Invalid request", w)
  | some user =>
    if user.Email = "" ∨ user.Password = "" ∨ user.Name = "" then
      (RespondWithError StatusBadRequest "Email, password, and name are required", w)
    else
      let user := if user.Role = "" then { user with Role := "owner" } else user
      if user.Role ≠ "owner" ∧ user.Role ≠ "staff" then
        (RespondWithError StatusBadRequest
          "Invalid role. Must be \x27owner\x27 or \x27staff\x27", w)
      else
        match env.GenerateFromPassword user.Password with
        | none => (RespondWithError StatusInternalServerError "Registration failed", w)
        | some hashedPassword =>
          match insertOwner env
              ⟨0, user.Name, user.Contact, user.Email, hashedPassword, user.Role⟩ w with
          | (none, w1) =>
            (RespondWithError StatusInternalServerError
              "Registration failed - email may already exist", w1)
          | (some id, w1) =>
            (RespondWithJSON StatusCreated
              (Payload.registered "User registered successfully" id user.Role), w1)

/-- One second and one hour of `time.Duration`, in nanoseconds. -/
def Second : Int := 1000000000
def Hour : Int := 3600 * Second

/-- Function `jwt.NewNumericDate`: the instant truncated to `jwt.TimePrecision`
(one second), as the whole seconds the token encodes. -/
def NewNumericDate (t : Int) : Int := t / Second

/-- The claims `LoginHandler` hands to `jwt.NewWithClaims`: `time.Now()` is read
once for `ExpiresAt` and once more for `IssuedAt`. -/
def loginClaims (env : Env) (id : Int) (email role : String) : Claims :=
  { UserID := id
    Email := email
    Role := role
    ExpiresAt := NewNumericDate (env.now 0 + 24 * Hour)
    IssuedAt := NewNumericDate (env.now 1) }

/-- Function `handlers.LoginHandler`; `body` is the outcome of decoding the
request body into `models.LoginRequest`. -/
def LoginHandler (env : Env) (body : Option LoginRequest) (w : World) : Response × World :=
  match body with
  | none => (RespondWithError StatusBadRequest "Invalid request", w)
  | some credentials =>
    if credentials.Email = "" ∨ credentials.Password = "" then
      (RespondWithError StatusBadRequest "Email and password are required", w)
    else
      match queryOwnerByEmail env credentials.Email w with
      | (none, w1) => (RespondWithError StatusUnauthorized "Invalid credentials", w1)
      | (some row, w1) =>
        if ¬ env.CompareHashAndPassword row.password credentials.Password then
          (RespondWithError StatusUnauthorized "Invalid credentials", w1)
        else
          match env.SignedString (loginClaims env row.id credentials.Email row.role) with
          | none => (RespondWithError StatusInternalServerError "Token generation failed", w1)
          | some tokenString =>
            (RespondWithJSON StatusOK (Payload.login tokenString row.role row.name row.id), w1)

/-! ## strconv.Itoa -/

/-- The decimal digits of `n`, most significant first; `fuel` bounds the number
of digits and `n + 1` is always enough. -/
def digitsOf : Nat → Nat → List Char
  | 0, _ => []
  | fuel + 1, n =>
    if n < 10 then [Char.ofNat (48 + n)]
    else digitsOf fuel (n / 10) ++ [Char.ofNat (48 + n % 10)]

def natDigits (n : Nat) : List Char := digitsOf (n + 1) n

/-- The characters of the decimal form of an integer: a minus sign for a
negative number, then the digits of its absolute value. -/
def itoaChars (n : Int) : List Char :=
  if n < 0 then '-' :: natDigits n.natAbs else natDigits n.natAbs

/-- Function `strconv.Itoa`, also the verb `%d` of `fmt.Sprintf`. -/
def Itoa (n : Int) : String := String.mk (itoaChars n)

/-! ## middleware/middleware.go: AuthMiddleware -/

/-- Method `http.Header.Set`: the value replaces every value stored under the
key. Keys are held in canonical form, as `net/http` stores and looks them up. -/
def headerSet (h : List (String × String)) (key value : String) : List (String × String) :=
  h.filter (fun kv => ! (kv.1 == key)) ++ [(key, value)]

/-- Function `strings.TrimPrefix`: `s` without the leading `pre`, or `s` itself
when it does not start with `pre`. -/
def TrimPrefix (s pre : String) : String :=
  if pre.toList.isPrefixOf s.toList then String.mk (s.toList.drop pre.toList.length) else s

/-- Process configuration of `config.go` together with the two library calls
that depend on it: `Join` is `filepath.Join` and `ParseWithClaims` is
`jwt.ParseWithClaims` under `JWTSecret`, giving the claims of a token that
verifies (signature and expiry) and `none` otherwise. -/
structure Config where
  UploadDir : String
  MaxUploadSize : Int
  Join : String → String → String
  ParseWithClaims : String → Option Claims

/-- The request `AuthMiddleware` hands to the wrapped handler: the three
`r.Header.Set` calls with the verified claims. -/
def withIdentity (r : Request) (claims : Claims) : Request :=
  { r with header :=
      headerSet (headerSet (headerSet r.header "X-User-ID" (Itoa claims.UserID))
        "X-User-Role" claims.Role) "X-User-Email" claims.Email }

/-- Function `middleware.AuthMiddleware` applied to the handler `next`. -/
def AuthMiddleware (cfg : Config) (next : Request → World → Response × World)
    (r : Request) (w : World) : Response × World :=
  let authHeader := headerGet r.header "Authorization"
  if authHeader = "" then
    (RespondWithError StatusUnauthorized "Missing authorization token", w)
  else
    let tokenString := TrimPrefix authHeader "Bearer "
    match cfg.ParseWithClaims tokenString with
    | none => (RespondWithError StatusUnauthorized "Invalid token", w)
    | some claims => next (withIdentity r claims) w

/-! ## The list handlers -/

def sqlPetsAll : String :=
  "SELECT id, name, species, breed, owner_id, medical_history FROM pets ORDER BY id"
def sqlPetsByOwner : String :=
  "SELECT id, name, species, breed, owner_id, medical_history FROM pets WHERE owner_id = $1 ORDER BY id"
def sqlAppointmentsAll : String :=
  "SELECT id, pet_id, date, reason, status FROM appointments ORDER BY date DESC"
def sqlAppointmentsByOwner : String :=
  "SELECT a.id, a.pet_id, a.date, a.reason, a.status FROM appointments a JOIN pets p ON a.pet_id = p.id WHERE p.owner_id = $1 ORDER BY a.date DESC"

/-- Clause `ORDER BY id`. -/
def orderByID (ps : List Pet) : List Pet :=
  ps.insertionSort (fun a b => a.ID ≤ b.ID)

/-- Clause `ORDER BY date DESC`; rows with equal dates keep their table order. -/
def orderByDateDesc (apts : List Appointment) : List Appointment :=
  apts.insertionSort (fun a b => b.Date ≤ a.Date)

/-- Call `Query(sqlPetsAll)` and the scan loop: the rows, `none` when `err != nil`. -/
def queryPetsAll (env : Env) (w : World) : Option (List Pet) × World :=
  (if env.dbErr sqlPetsAll then none else some (orderByID w.db.pets), w.stmt sqlPetsAll)

/-- Call `Query(sqlPetsByOwner, userID)` and the scan loop. -/
def queryPetsByOwner (env : Env) (userID : Int) (w : World) : Option (List Pet) × World :=
  (if env.dbErr sqlPetsByOwner then none
   else some (orderByID (w.db.pets.filter (fun p => p.OwnerID = userID))),
   w.stmt sqlPetsByOwner)

/-- Call `Query(sqlAppointmentsAll)` and the scan loop. -/
def queryAppointmentsAll (env : Env) (w : World) : Option (List Appointment) × World :=
  (if env.dbErr sqlAppointmentsAll then none else some (orderByDateDesc w.db.appointments),
   w.stmt sqlAppointmentsAll)

/-- Call `Query(sqlAppointmentsByOwner, userID)` and the scan loop. -/
def queryAppointmentsByOwner (env : Env) (userID : Int) (w : World) :
    Option (List Appointment) × World :=
  (if env.dbErr sqlAppointmentsByOwner then none
   else some (orderByDateDesc
     (((joinAppointmentsPets w.db).filter (fun ap => ap.2.OwnerID = userID)).map Prod.fst)),
   w.stmt sqlAppointmentsByOwner)

/-- Function `handlers.GetPetsHandler`. -/
def GetPetsHandler (env : Env) (r : Request) (w : World) : Response × World :=
  let userID := GetUserIDFromRequest r
  let role := GetUserRoleFromRequest r
  match (if role = "staff" then queryPetsAll env w else queryPetsByOwner env userID w) with
  | (none, w1) => (RespondWithError StatusInternalServerError "Failed to fetch pets", w1)
  | (some pets, w1) => (RespondWithJSON StatusOK (Payload.pets pets), w1)

/-- Function `handlers.GetAppointmentsHandler`. -/
def GetAppointmentsHandler (env : Env) (r : Request) (w : World) : Response × World :=
  let userID := GetUserIDFromRequest r
  let role := GetUserRoleFromRequest r
  match (if role = "staff" then queryAppointmentsAll env w
         else queryAppointmentsByOwner env userID w) with
  | (none, w1) =>
    (RespondWithError StatusInternalServerError "Failed to fetch appointments", w1)
  | (some appointments, w1) =>
    (RespondWithJSON StatusOK (Payload.appointments appointments), w1)

/-! ## handlers/file_handler.go: upload, and the tail of delete -/

/-- Type `multipart.FileHeader` of the part `file`, with the bytes of the part:
`ContentType` is `header.Header.Get("Content-Type")`. -/
structure FileHeader where
  Filename : String
  ContentType : String
  content : String
deriving DecidableEq, Repr

/-- The part of a parsed multipart form the upload reads: `r.FormValue("pet_id")`
(`""` when absent) and `r.FormFile("file")`, `none` when it returns an error. -/
structure MultipartForm where
  pet_id : String
  file : Option FileHeader
deriving DecidableEq, Repr

def StatusRequestEntityTooLarge : Nat := 413

def sqlInsertRecord : String :=
  "INSERT INTO medical_records (pet_id, file_name, file_path, file_type) VALUES ($1, $2, $3, $4) RETURNING id"

/-- Method `time.Time.Unix`: whole seconds since the Unix epoch. -/
def Unix (t : Int) : Int := t / Second

/-- The stored file name, `fmt.Sprintf("%d_%d_%s", petID, timestamp, header.Filename)`. -/
def uploadFilename (petID timestamp : Int) (name : String) : String :=
  Itoa petID ++ "_" ++ Itoa timestamp ++ "_" ++ name

/-- Call `os.MkdirAll(dir, os.ModePerm)`: whether `err != nil`. Directories are
not files of the model. -/
def osMkdirAll (env : Env) (dir : String) (w : World) : Bool × World :=
  (env.fsErr "MkdirAll", w.fsCall "MkdirAll" dir)

/-- Call `os.Create(path)`: whether `err != nil`; on success the path holds an
empty file, an earlier file at the path being truncated. -/
def osCreate (env : Env) (path : String) (w : World) : Bool × World :=
  let w1 := w.fsCall "Create" path
  if env.fsErr "Create" then (true, w1)
  else (false, { w1 with files := w1.files.filter (fun f => ¬ f.path = path) ++ [⟨path, ""⟩] })

/-- Call `io.Copy(dst, file)`: whether `err != nil`; on success the file at the
path holds the uploaded bytes, on failure it stays as created. -/
def ioCopy (env : Env) (path content : String) (w : World) : Bool × World :=
  let w1 := w.fsCall "Copy" path
  if env.fsErr "Copy" then (true, w1)
  else (false, { w1 with files := w1.files.map (fun f =>
    if f.path = path then { f with content := content } else f) })

/-- Call `QueryRow(sqlInsertRecord, ...).Scan(&id)`: the insert is refused when
`pet_id` references no `pets` row. -/
def insertRecord (env : Env) (m : MedicalRecord) (w : World) : Option Int × World :=
  let w1 := w.stmt sqlInsertRecord
  if env.dbErr sqlInsertRecord then (none, w1)
  else if w.db.pets.any (fun p => p.ID = m.PetID) then
    (some env.serial,
     { w1 with db := { w1.db with
        medical_records := w1.db.medical_records ++ [{ m with ID := env.serial }] } })
  else (none, w1)

/-- The tail of `UploadMedicalRecordHandler` from `r.FormFile("file")` on. -/
def uploadStore (env : Env) (cfg : Config) (petID : Int) (file : Option FileHeader)
    (w : World) : Response × World :=
  match file with
  | none => (RespondWithError StatusBadRequest "File is required", w)
  | some header =>
    match osMkdirAll env cfg.UploadDir w with
    | (true, w1) =>
      (RespondWithError StatusInternalServerError "Failed to create upload directory", w1)
    | (false, w1) =>
      let timestamp := Unix (env.now 0)
      let filename := uploadFilename petID timestamp header.Filename
      let filepath := cfg.Join cfg.UploadDir filename
      match osCreate env filepath w1 with
      | (true, w2) => (RespondWithError StatusInternalServerError "Failed to save file", w2)
      | (false, w2) =>
        match ioCopy env filepath header.content w2 with
        | (true, w3) => (RespondWithError StatusInternalServerError "Failed to save file", w3)
        | (false, w3) =>
          match insertRecord env
              ⟨0, petID, header.Filename, filepath, header.ContentType⟩ w3 with
          | (none, w4) =>
            (RespondWithError StatusInternalServerError "Failed to save record",
             (osRemove env filepath w4).2)
          | (some id, w4) =>
            (RespondWithJSON StatusCreated
              (Payload.uploaded "File uploaded successfully" id header.Filename), w4)

/-- Method `r.ParseMultipartForm(maxMemory)` of `net/http`. `body` is what the
multipart reader makes of the request body, `none` when it returns an error (a
body that is no multipart message, or form values, not files, beyond what may
be held in memory). `maxMemory` bounds the bytes of the file parts that are
held in memory; a file part beyond it is kept in a temporary file and parsed
all the same, so the argument is no bound on the size of an upload. -/
def ParseMultipartForm (maxMemory : Int) (body : Option MultipartForm) :
    Option MultipartForm :=
  match body with
  | none => none
  | some form =>
    match form.file with
    | none => some form
    | some header =>
      -- the part fits into the memory budget and is held in memory
      if (header.content.utf8ByteSize : Int) ≤ maxMemory then some form
      -- the part is larger: its bytes go to a temporary file, the form is the same
      else some form

/-- Function `handlers.UploadMedicalRecordHandler`; `form` is the multipart body
of the request as handed to `r.ParseMultipartForm(config.MaxUploadSize)`. -/
def UploadMedicalRecordHandler (env : Env) (cfg : Config) (r : Request)
    (form : Option MultipartForm) (w : World) : Response × World :=
  match ParseMultipartForm cfg.MaxUploadSize form with
  | none => (RespondWithError StatusBadRequest "File too large", w)
  | some form =>
    let petID := Atoi form.pet_id
    if petID.2 ∨ petID.1 = 0 then
      (RespondWithError StatusBadRequest "Valid pet_id is required", w)
    else
      let userID := GetUserIDFromRequest r
      let role := GetUserRoleFromRequest r
      if role ≠ "staff" then
        match queryPetOwner env petID.1 w with
        | (none, w1) => (RespondWithError StatusNotFound "Pet not found", w1)
        | (some ownerID, w1) =>
          if ownerID ≠ userID then (RespondWithError StatusForbidden "Access denied", w1)
          else uploadStore env cfg petID.1 form.file w1
      else uploadStore env cfg petID.1 form.file w

/-- The tail of `DeleteMedicalRecordHandler` after the ownership check: the row
delete, then `os.Remove`, whose error is logged and dropped. -/
def deleteRecordExec (env : Env) (recordID : Int) (filepath : String) (w : World) :
    Response × World :=
  match execDeleteRecord env recordID w with
  | (none, w2) =>
    (RespondWithError StatusInternalServerError "Failed to delete record", w2)
  | (some rowsAffected, w2) =>
    if rowsAffected = 0 then (RespondWithError StatusNotFound "Record not found", w2)
    else
      (RespondWithJSON StatusOK (Payload.message "Medical record deleted successfully"),
       (osRemove env filepath w2).2)

/-! ## Well-formed stores -/

/-- Primary keys: no two rows of a table share an id. -/
def Store.WF (db : Store) : Prop :=
  (db.pets.map Pet.ID).Nodup ∧
  (db.appointments.map Appointment.ID).Nodup ∧
  (db.medical_records.map MedicalRecord.ID).Nodup

instance (db : Store) : Decidable db.WF := by
  unfold Store.WF; infer_instance

/-- The condition under which the ownership check refuses a caller: the role
is not staff and the resolved owner is not the caller. -/
def Denied (r : Request) (ownerID : Int) : Prop :=
  GetUserRoleFromRequest r ≠ "staff" ∧ ownerID ≠ GetUserIDFromRequest r

instance (r : Request) (ownerID : Int) : Decidable (Denied r ownerID) := by
  unfold Denied; infer_instance

/-- The store answers every lookup of an ownership check (no driver error). -/
def Env.LookupsAnswer (env : Env) : Prop :=
  env.dbErr sqlPetByID = false ∧ env.dbErr sqlPetOwner = false ∧
  env.dbErr sqlAppointmentByID = false ∧ env.dbErr sqlAppointmentOwner = false ∧
  env.dbErr sqlRecordForDownload = false ∧ env.dbErr sqlRecordForDelete = false

instance (env : Env) : Decidable env.LookupsAnswer := by
  unfold Env.LookupsAnswer; infer_instance

/-- The tables and the files of two worlds agree (the trace may differ). -/
def World.SameData (w1 w2 : World) : Prop :=
  w1.db = w2.db ∧ w1.files = w2.files

instance (w1 w2 : World) : Decidable (w1.SameData w2) := by
  unfold World.SameData; infer_instance

/-! ## Outcomes of a registration -/

/-- The registration was answered 201 with `role`, and exactly one `owners` row,
carrying `role` and the hash of the password, was appended. -/
def RegisteredAs (env : Env) (user : User) (role : String) (w : World)
    (res : Response × World) : Prop :=
  res.1 = ⟨StatusCreated, Payload.registered "User registered successfully" env.serial role⟩ ∧
  ∃ h, env.GenerateFromPassword user.Password = some h ∧
    res.2.db.owners =
      w.db.owners ++ [⟨env.serial, user.Name, user.Contact, user.Email, h, role⟩]

/-- The registration was answered with an error object under `code` and the
tables are as they were. -/
def RefusedWith (code : Nat) (w : World) (res : Response × World) : Prop :=
  res.1.code = code ∧ (∃ msg, res.1.payload = Payload.error msg) ∧ res.2.db = w.db

/-! ## A small clinic used to evaluate the handlers -/

/-- An environment without failures: every statement and file call succeeds,
the clock stands still, bcrypt and the signature are tagged copies of their input. -/
def calmEnv : Env :=
  { dbErr := fun _ => false
    fsErr := fun _ => false
    serial := 100
    now := fun _ => 1700000000000000000
    GenerateFromPassword := fun pw => some ("hash:" ++ pw)
    CompareHashAndPassword := fun h pw => h == "hash:" ++ pw
    SignedString := fun c => some ("jwt:" ++ toString c.UserID ++ ":" ++ c.Email ++ ":" ++
      c.Role ++ ":" ++ toString c.ExpiresAt ++ ":" ++ toString c.IssuedAt) }

/-- The calm environment with a running clock: the first reading of `time.Now()`
is the last nanosecond of a second, the next one the start of the following second. -/
def tickEnv : Env :=
  { calmEnv with now := fun k => if k = 0 then 1699999999999999999 else 1700000000000000000 }

def ann : OwnerRow := ⟨1, "Ann", "555-0101", "ann@x.com", "hash:pw-ann", "owner"⟩
def bob : OwnerRow := ⟨2, "Bob", "555-0102", "bob@x.com", "hash:pw-bob", "owner"⟩
def sam : OwnerRow := ⟨3, "Sam", "555-0103", "sam@x.com", "hash:pw-sam", "staff"⟩
def rex : Pet := ⟨7, "Rex", "dog", "collie", 1, ""⟩
def checkup : Appointment := ⟨4, 7, 63800000000000000000, "checkup", "scheduled"⟩
def xray : MedicalRecord := ⟨9, 7, "xray.pdf", "uploads/7_1700000000_xray.pdf", "application/pdf"⟩

/-- Ann owns Rex, Rex has one appointment and one record on disk; Bob owns
nothing and Sam is staff. -/
def clinic : World :=
  { db := { owners := [ann, bob, sam], pets := [rex], appointments := [checkup],
            medical_records := [xray] }
    files := [⟨"uploads/7_1700000000_xray.pdf", "%PDF-1.4"⟩]
    trace := [] }

/-- The upload directory, a `filepath.Join` for clean operands, and a verifier
that knows one token of Ann and one of Sam. -/
def site : Config :=
  { UploadDir := "uploads"
    MaxUploadSize := 10485760
    Join := fun dir name => dir ++ "/" ++ name
    ParseWithClaims := fun tok =>
      if tok = "tok-ann" then some ⟨1, "ann@x.com", "owner", 1700086400, 1700000000⟩
      else if tok = "tok-sam" then some ⟨3, "sam@x.com", "staff", 1700086400, 1700000000⟩
      else none }

/-- The site with an upload limit of 8 bytes. -/
def tightSite : Config := { site with MaxUploadSize := 8 }

/-- A file part of 26 bytes. -/
def scan : FileHeader := ⟨"scan.pdf", "application/pdf", "%PDF-1.4 twenty-six bytes"⟩

/-- A handler that records its call in the trace and echoes the identity headers
it was given. -/
def echoIdentity (r : Request) (w : World) : Response × World :=
  (RespondWithJSON StatusOK
    (Payload.message (headerGet r.header "X-User-ID" ++ "/" ++ headerGet r.header "X-User-Role")),
   w.stmt "echo")

/-- A request behind the auth middleware: the two identity headers and the route id. -/
def requestOf (userID role id : String) : Request :=
  { header := [("X-User-ID", userID), ("X-User-Role", role)], vars := [("id", id)] }

/-! ## Lookups in a store with primary keys -/

theorem find?_unique {α : Type} (l : List α) (q : α → Bool) (x : α)
    (hx : x ∈ l) (hq : q x = true) (huniq : ∀ y ∈ l, q y = true → y = x) :
    l.find? q = some x := by
  cases h : l.find? q with
  | none =>
    rw [List.find?_eq_none] at h
    exact absurd hq (h x hx)
  | some y =>
    rw [huniq y (List.mem_of_find?_eq_some h) (List.find?_some h)]

theorem find?_key {α : Type} (l : List α) (key : α → Int) (x : α)
    (hnd : (l.map key).Nodup) (hx : x ∈ l) :
    l.find? (fun y => decide (key y = key x)) = some x := by
  apply find?_unique l _ x hx (by simp)
  intro y hy hq
  exact List.inj_on_of_nodup_map hnd hy hx (by simpa using hq)

theorem find?_pet (db : Store) (hwf : db.WF) (p : Pet) (hp : p ∈ db.pets) :
    db.pets.find? (fun y => decide (y.ID = p.ID)) = some p :=
  find?_key db.pets Pet.ID p hwf.1 hp

theorem find?_joinAppointmentsPets (db : Store) (hwf : db.WF) (a : Appointment) (p : Pet)
    (ha : a ∈ db.appointments) (hp : p ∈ db.pets) (hap : a.PetID = p.ID) :
    (joinAppointmentsPets db).find? (fun ap => decide (ap.1.ID = a.ID)) = some (a, p) := by
  apply find?_unique _ _ (a, p)
  · simp only [joinAppointmentsPets, List.mem_flatMap, List.mem_map, List.mem_filter]
    exact ⟨a, ha, p, ⟨hp, by simp [hap]⟩, rfl⟩
  · simp
  · rintro ⟨a', p'⟩ hmem hq
    simp only [joinAppointmentsPets, List.mem_flatMap, List.mem_map, List.mem_filter] at hmem
    obtain ⟨a'', ha'', p'', ⟨hp'', hk⟩, heq⟩ := hmem
    simp only [Prod.mk.injEq] at heq
    obtain ⟨rfl, rfl⟩ := heq
    have haa : a'' = a := List.inj_on_of_nodup_map hwf.2.1 ha'' ha (by simpa using hq)
    subst haa
    have hpp : p'' = p :=
      List.inj_on_of_nodup_map hwf.1 hp'' hp (by rw [← hap]; exact (of_decide_eq_true hk).symm)
    rw [hpp]

theorem find?_joinRecordsPets (db : Store) (hwf : db.WF) (m : MedicalRecord) (p : Pet)
    (hm : m ∈ db.medical_records) (hp : p ∈ db.pets) (hmp : m.PetID = p.ID) :
    (joinRecordsPets db).find? (fun mp => decide (mp.1.ID = m.ID)) = some (m, p) := by
  apply find?_unique _ _ (m, p)
  · simp only [joinRecordsPets, List.mem_flatMap, List.mem_map, List.mem_filter]
    exact ⟨m, hm, p, ⟨hp, by simp [hmp]⟩, rfl⟩
  · simp
  · rintro ⟨m', p'⟩ hmem hq
    simp only [joinRecordsPets, List.mem_flatMap, List.mem_map, List.mem_filter] at hmem
    obtain ⟨m'', hm'', p'', ⟨hp'', hk⟩, heq⟩ := hmem
    simp only [Prod.mk.injEq] at heq
    obtain ⟨rfl, rfl⟩ := heq
    have hmm : m'' = m := List.inj_on_of_nodup_map hwf.2.2 hm'' hm (by simpa using hq)
    subst hmm
    have hpp : p'' = p :=
      List.inj_on_of_nodup_map hwf.1 hp'' hp (by rw [← hmp]; exact (of_decide_eq_true hk).symm)
    rw [hpp]

/-! ## The ownership check, handler by handler -/

theorem updatePetExec_not_forbidden (env : Env) (pet : Pet) (petID : Int) (w : World) :
    (updatePetExec env pet petID w).1.code ≠ StatusForbidden := by
  unfold updatePetExec execUpdatePet
  repeat' split
  all_goals simp [RespondWithError, RespondWithJSON, StatusForbidden, StatusOK, StatusNotFound,
    StatusInternalServerError]

theorem deletePetExec_not_forbidden (env : Env) (petID : Int) (w : World) :
    (deletePetExec env petID w).1.code ≠ StatusForbidden := by
  unfold deletePetExec execDeletePet
  repeat' split
  all_goals simp [RespondWithError, RespondWithJSON, StatusForbidden, StatusOK, StatusNotFound,
    StatusInternalServerError]

theorem updateAppointmentExec_not_forbidden (env : Env) (a : Appointment) (aptID : Int)
    (w : World) : (updateAppointmentExec env a aptID w).1.code ≠ StatusForbidden := by
  unfold updateAppointmentExec execUpdateAppointment
  repeat' split
  all_goals simp [RespondWithError, RespondWithJSON, StatusForbidden, StatusOK, StatusNotFound,
    StatusInternalServerError]

theorem deleteAppointmentExec_not_forbidden (env : Env) (aptID : Int) (w : World) :
    (deleteAppointmentExec env aptID w).1.code ≠ StatusForbidden := by
  unfold deleteAppointmentExec execDeleteAppointment
  repeat' split
  all_goals simp [RespondWithError, RespondWithJSON, StatusForbidden, StatusOK, StatusNotFound,
    StatusInternalServerError]

theorem GetPetByIDHandler_forbidden_iff (env : Env) (r : Request) (w : World)
    (hwf : w.db.WF) (henv : env.dbErr sqlPetByID = false) (p : Pet) (hp : p ∈ w.db.pets)
    (hid : (Atoi (r.var "id")).1 = p.ID) :
    (GetPetByIDHandler env r w).1.code = StatusForbidden ↔ Denied r p.OwnerID := by
  simp only [GetPetByIDHandler, queryPetByID, henv, hid, find?_pet w.db hwf p hp, Denied]
  repeat' split
  all_goals simp_all [RespondWithError, RespondWithJSON, StatusForbidden, StatusOK, StatusNotFound]

theorem UpdatePetHandler_forbidden_iff (env : Env) (r : Request) (w : World)
    (hwf : w.db.WF) (henv : env.dbErr sqlPetOwner = false) (p : Pet) (hp : p ∈ w.db.pets)
    (hid : (Atoi (r.var "id")).1 = p.ID) (body : Pet) :
    (UpdatePetHandler env r (some body) w).1.code = StatusForbidden ↔ Denied r p.OwnerID := by
  simp only [UpdatePetHandler, queryPetOwner, henv, hid, find?_pet w.db hwf p hp, Denied]
  repeat' split
  all_goals simp_all [RespondWithError, RespondWithJSON, updatePetExec_not_forbidden]

theorem DeletePetHandler_forbidden_iff (env : Env) (r : Request) (w : World)
    (hwf : w.db.WF) (henv : env.dbErr sqlPetOwner = false) (p : Pet) (hp : p ∈ w.db.pets)
    (hid : (Atoi (r.var "id")).1 = p.ID) :
    (DeletePetHandler env r w).1.code = StatusForbidden ↔ Denied r p.OwnerID := by
  simp only [DeletePetHandler, queryPetOwner, henv, hid, find?_pet w.db hwf p hp, Denied]
  repeat' split
  all_goals simp_all [RespondWithError, RespondWithJSON, deletePetExec_not_forbidden]

theorem GetAppointmentByIDHandler_forbidden_iff (env : Env) (r : Request) (w : World)
    (hwf : w.db.WF) (henv : env.dbErr sqlAppointmentByID = false)
    (a : Appointment) (p : Pet) (ha : a ∈ w.db.appointments) (hp : p ∈ w.db.pets)
    (hap : a.PetID = p.ID) (hid : (Atoi (r.var "id")).1 = a.ID) :
    (GetAppointmentByIDHandler env r w).1.code = StatusForbidden ↔ Denied r p.OwnerID := by
  simp only [GetAppointmentByIDHandler, queryAppointmentByID, henv, hid,
    find?_joinAppointmentsPets w.db hwf a p ha hp hap, Denied]
  repeat' split
  all_goals simp_all [RespondWithError, RespondWithJSON, StatusForbidden, StatusOK, StatusNotFound]

theorem UpdateAppointmentHandler_forbidden_iff (env : Env) (r : Request) (w : World)
    (hwf : w.db.WF) (henv : env.dbErr sqlAppointmentOwner = false)
    (a : Appointment) (p : Pet) (ha : a ∈ w.db.appointments) (hp : p ∈ w.db.pets)
    (hap : a.PetID = p.ID) (hid : (Atoi (r.var "id")).1 = a.ID) (body : Appointment) :
    (UpdateAppointmentHandler env r (some body) w).1.code = StatusForbidden ↔
      Denied r p.OwnerID := by
  simp only [UpdateAppointmentHandler, queryAppointmentOwner, henv, hid,
    find?_joinAppointmentsPets w.db hwf a p ha hp hap, Denied]
  repeat' split
  all_goals simp_all [RespondWithError, RespondWithJSON, updateAppointmentExec_not_forbidden]

theorem DeleteAppointmentHandler_forbidden_iff (env : Env) (r : Request) (w : World)
    (hwf : w.db.WF) (henv : env.dbErr sqlAppointmentOwner = false)
    (a : Appointment) (p : Pet) (ha : a ∈ w.db.appointments) (hp : p ∈ w.db.pets)
    (hap : a.PetID = p.ID) (hid : (Atoi (r.var "id")).1 = a.ID) :
    (DeleteAppointmentHandler env r w).1.code = StatusForbidden ↔ Denied r p.OwnerID := by
  simp only [DeleteAppointmentHandler, queryAppointmentOwner, henv, hid,
    find?_joinAppointmentsPets w.db hwf a p ha hp hap, Denied]
  repeat' split
  all_goals simp_all [RespondWithError, RespondWithJSON, deleteAppointmentExec_not_forbidden]

theorem ServeFile_not_forbidden (env : Env) (r : Request) (filename path : String)
    (w : World) (hopen : env.fsErr "Open: permission denied" = false) :
    (ServeFile env r filename path w).1.code ≠ StatusForbidden := by
  unfold ServeFile
  simp only [hopen, Bool.false_eq_true, if_false]
  repeat' split
  all_goals simp [StatusForbidden, StatusOK, StatusNotFound, StatusInternalServerError,
    StatusNotModified, StatusPreconditionFailed, StatusRequestedRangeNotSatisfiable,
    StatusPartialContent]

theorem ServeFile_not_access_denied (env : Env) (r : Request) (filename path : String)
    (w : World) :
    (ServeFile env r filename path w).1 ≠ RespondWithError StatusForbidden "Access denied" := by
  unfold ServeFile
  repeat' split
  all_goals simp [RespondWithError, RespondWithJSON]

theorem DownloadMedicalRecordHandler_forbidden_iff (env : Env) (r : Request) (w : World)
    (hwf : w.db.WF) (henv : env.dbErr sqlRecordForDownload = false)
    (hopen : env.fsErr "Open: permission denied" = false)
    (m : MedicalRecord) (p : Pet) (hm : m ∈ w.db.medical_records) (hp : p ∈ w.db.pets)
    (hmp : m.PetID = p.ID) (hid : (Atoi (r.var "id")).1 = m.ID) :
    (DownloadMedicalRecordHandler env r w).1.code = StatusForbidden ↔ Denied r p.OwnerID := by
  simp only [DownloadMedicalRecordHandler, queryRecordForDownload, henv, hid,
    find?_joinRecordsPets w.db hwf m p hm hp hmp, Denied, statNotExist]
  simp only [Bool.false_eq_true, if_false, Option.map_some']
  by_cases hden : GetUserRoleFromRequest r ≠ "staff" ∧ p.OwnerID ≠ GetUserIDFromRequest r
  · rw [if_pos hden]
    exact ⟨fun _ => hden, fun _ => rfl⟩
  · rw [if_neg hden]
    refine ⟨fun h => absurd h ?_, fun h => absurd h hden⟩
    split
    · simp [RespondWithError, RespondWithJSON, StatusForbidden, StatusNotFound]
    · exact ServeFile_not_forbidden env r _ _ _ hopen

/-- The download answers with the JSON error 403 "Access denied" exactly when the
ownership check refuses the caller, whatever the file system does. -/
theorem DownloadMedicalRecordHandler_denied_iff (env : Env) (r : Request) (w : World)
    (hwf : w.db.WF) (henv : env.dbErr sqlRecordForDownload = false)
    (m : MedicalRecord) (p : Pet) (hm : m ∈ w.db.medical_records) (hp : p ∈ w.db.pets)
    (hmp : m.PetID = p.ID) (hid : (Atoi (r.var "id")).1 = m.ID) :
    (DownloadMedicalRecordHandler env r w).1 = RespondWithError StatusForbidden "Access denied" ↔
      Denied r p.OwnerID := by
  simp only [DownloadMedicalRecordHandler, queryRecordForDownload, henv, hid,
    find?_joinRecordsPets w.db hwf m p hm hp hmp, Denied, statNotExist]
  simp only [Bool.false_eq_true, if_false, Option.map_some']
  by_cases hden : GetUserRoleFromRequest r ≠ "staff" ∧ p.OwnerID ≠ GetUserIDFromRequest r
  · rw [if_pos hden]
    exact ⟨fun _ => hden, fun _ => rfl⟩
  · rw [if_neg hden]
    refine ⟨fun h => absurd h ?_, fun h => absurd h hden⟩
    split
    · simp [RespondWithError, RespondWithJSON, StatusForbidden, StatusNotFound]
    · exact ServeFile_not_access_denied env r _ _ _

theorem getRecordsExec_not_forbidden (env : Env) (petID : Int) (w : World) :
    (getRecordsExec env petID w).1.code ≠ StatusForbidden := by
  unfold getRecordsExec queryRecordsByPet
  repeat' split
  all_goals simp [RespondWithError, RespondWithJSON, StatusForbidden, StatusOK,
    StatusInternalServerError]

theorem GetMedicalRecordsHandler_forbidden_iff (env : Env) (r : Request) (w : World)
    (hwf : w.db.WF) (henv : env.dbErr sqlPetOwner = false) (p : Pet) (hp : p ∈ w.db.pets)
    (hid : (Atoi (r.var "pet_id")).1 = p.ID) :
    (GetMedicalRecordsHandler env r w).1.code = StatusForbidden ↔ Denied r p.OwnerID := by
  simp only [GetMedicalRecordsHandler, queryPetOwner, henv, hid, find?_pet w.db hwf p hp, Denied]
  repeat' split
  all_goals simp_all [RespondWithError, RespondWithJSON, getRecordsExec_not_forbidden]

theorem DeleteMedicalRecordHandler_forbidden_iff (env : Env) (r : Request) (w : World)
    (hwf : w.db.WF) (henv : env.dbErr sqlRecordForDelete = false)
    (m : MedicalRecord) (p : Pet) (hm : m ∈ w.db.medical_records) (hp : p ∈ w.db.pets)
    (hmp : m.PetID = p.ID) (hid : (Atoi (r.var "id")).1 = m.ID) :
    (DeleteMedicalRecordHandler env r w).1.code = StatusForbidden ↔ Denied r p.OwnerID := by
  simp only [DeleteMedicalRecordHandler, queryRecordForDelete, henv, hid,
    find?_joinRecordsPets w.db hwf m p hm hp hmp, Denied, execDeleteRecord]
  repeat' split
  all_goals simp_all [RespondWithError, RespondWithJSON, StatusForbidden, StatusOK, StatusNotFound,
    StatusInternalServerError]

/-! ## A refused update or delete changes nothing -/

theorem UpdatePetHandler_denied (env : Env) (r : Request) (w : World)
    (hwf : w.db.WF) (henv : env.dbErr sqlPetOwner = false) (p : Pet) (hp : p ∈ w.db.pets)
    (hid : (Atoi (r.var "id")).1 = p.ID) (hden : Denied r p.OwnerID) (body : Pet) :
    UpdatePetHandler env r (some body) w =
      (RespondWithError StatusForbidden "Access denied", w.stmt sqlPetOwner) := by
  obtain ⟨h1, h2⟩ := hden
  simp [UpdatePetHandler, queryPetOwner, henv, hid, find?_pet w.db hwf p hp, h1, h2]

theorem DeletePetHandler_denied (env : Env) (r : Request) (w : World)
    (hwf : w.db.WF) (henv : env.dbErr sqlPetOwner = false) (p : Pet) (hp : p ∈ w.db.pets)
    (hid : (Atoi (r.var "id")).1 = p.ID) (hden : Denied r p.OwnerID) :
    DeletePetHandler env r w =
      (RespondWithError StatusForbidden "Access denied", w.stmt sqlPetOwner) := by
  obtain ⟨h1, h2⟩ := hden
  simp [DeletePetHandler, queryPetOwner, henv, hid, find?_pet w.db hwf p hp, h1, h2]

theorem UpdateAppointmentHandler_denied (env : Env) (r : Request) (w : World)
    (hwf : w.db.WF) (henv : env.dbErr sqlAppointmentOwner = false)
    (a : Appointment) (p : Pet) (ha : a ∈ w.db.appointments) (hp : p ∈ w.db.pets)
    (hap : a.PetID = p.ID) (hid : (Atoi (r.var "id")).1 = a.ID) (hden : Denied r p.OwnerID)
    (body : Appointment) :
    UpdateAppointmentHandler env r (some body) w =
      (RespondWithError StatusForbidden "Access denied", w.stmt sqlAppointmentOwner) := by
  obtain ⟨h1, h2⟩ := hden
  simp [UpdateAppointmentHandler, queryAppointmentOwner, henv, hid,
    find?_joinAppointmentsPets w.db hwf a p ha hp hap, h1, h2]

theorem DeleteAppointmentHandler_denied (env : Env) (r : Request) (w : World)
    (hwf : w.db.WF) (henv : env.dbErr sqlAppointmentOwner = false)
    (a : Appointment) (p : Pet) (ha : a ∈ w.db.appointments) (hp : p ∈ w.db.pets)
    (hap : a.PetID = p.ID) (hid : (Atoi (r.var "id")).1 = a.ID) (hden : Denied r p.OwnerID) :
    DeleteAppointmentHandler env r w =
      (RespondWithError StatusForbidden "Access denied", w.stmt sqlAppointmentOwner) := by
  obtain ⟨h1, h2⟩ := hden
  simp [DeleteAppointmentHandler, queryAppointmentOwner, henv, hid,
    find?_joinAppointmentsPets w.db hwf a p ha hp hap, h1, h2]

theorem DeleteMedicalRecordHandler_denied (env : Env) (r : Request) (w : World)
    (hwf : w.db.WF) (henv : env.dbErr sqlRecordForDelete = false)
    (m : MedicalRecord) (p : Pet) (hm : m ∈ w.db.medical_records) (hp : p ∈ w.db.pets)
    (hmp : m.PetID = p.ID) (hid : (Atoi (r.var "id")).1 = m.ID) (hden : Denied r p.OwnerID) :
    DeleteMedicalRecordHandler env r w =
      (RespondWithError StatusForbidden "Access denied", w.stmt sqlRecordForDelete) := by
  obtain ⟨h1, h2⟩ := hden
  simp [DeleteMedicalRecordHandler, queryRecordForDelete, henv, hid,
    find?_joinRecordsPets w.db hwf m p hm hp hmp, h1, h2]

theorem stmt_sameData (w : World) (s : String) : (w.stmt s).SameData w :=
  ⟨rfl, rfl⟩

/-! ## C1: when the ownership check answers 403 -/

/-- C1 (as amended): in a store with primary keys whose ownership lookups are
answered, for every caller and every existing pet, appointment or medical
record, the get handlers (the list of a pet's medical records included), the
delete handlers, and the update handlers on a body that decodes, answer 403
exactly when the role is not "staff" and the owner_id of the resource's pet
differs from the caller id; an update whose body does not decode is answered
400 whoever the caller is. The download handler answers with its own refusal
(403 "Access denied") exactly in that case too, and with any 403 exactly in
that case when `http.ServeFile` is not refused permission to open the file. -/
theorem ownership_check_forbidden_iff (env : Env) (r : Request) (w : World)
    (hwf : w.db.WF) (henv : env.LookupsAnswer) :
    (∀ p ∈ w.db.pets, (Atoi (r.var "id")).1 = p.ID →
      ((GetPetByIDHandler env r w).1.code = StatusForbidden ↔ Denied r p.OwnerID) ∧
      (∀ body, (UpdatePetHandler env r (some body) w).1.code = StatusForbidden ↔
        Denied r p.OwnerID) ∧
      (UpdatePetHandler env r none w).1.code = StatusBadRequest ∧
      ((DeletePetHandler env r w).1.code = StatusForbidden ↔ Denied r p.OwnerID)) ∧
    (∀ a ∈ w.db.appointments, ∀ p ∈ w.db.pets, a.PetID = p.ID →
      (Atoi (r.var "id")).1 = a.ID →
      ((GetAppointmentByIDHandler env r w).1.code = StatusForbidden ↔ Denied r p.OwnerID) ∧
      (∀ body, (UpdateAppointmentHandler env r (some body) w).1.code = StatusForbidden ↔
        Denied r p.OwnerID) ∧
      (UpdateAppointmentHandler env r none w).1.code = StatusBadRequest ∧
      ((DeleteAppointmentHandler env r w).1.code = StatusForbidden ↔ Denied r p.OwnerID)) ∧
    (∀ m ∈ w.db.medical_records, ∀ p ∈ w.db.pets, m.PetID = p.ID →
      (Atoi (r.var "id")).1 = m.ID →
      ((DownloadMedicalRecordHandler env r w).1 =
          RespondWithError StatusForbidden "Access denied" ↔ Denied r p.OwnerID) ∧
      (env.fsErr "Open: permission denied" = false →
        ((DownloadMedicalRecordHandler env r w).1.code = StatusForbidden ↔
          Denied r p.OwnerID)) ∧
      ((DeleteMedicalRecordHandler env r w).1.code = StatusForbidden ↔
        Denied r p.OwnerID)) ∧
    (∀ p ∈ w.db.pets, (Atoi (r.var "pet_id")).1 = p.ID →
      ((GetMedicalRecordsHandler env r w).1.code = StatusForbidden ↔ Denied r p.OwnerID)) := by
  obtain ⟨e1, e2, e3, e4, e5, e6⟩ := henv
  refine ⟨?_, ?_, ?_, ?_⟩
  · intro p hp hid
    exact ⟨GetPetByIDHandler_forbidden_iff env r w hwf e1 p hp hid,
      UpdatePetHandler_forbidden_iff env r w hwf e2 p hp hid, rfl,
      DeletePetHandler_forbidden_iff env r w hwf e2 p hp hid⟩
  · intro a ha p hp hap hid
    exact ⟨GetAppointmentByIDHandler_forbidden_iff env r w hwf e3 a p ha hp hap hid,
      UpdateAppointmentHandler_forbidden_iff env r w hwf e4 a p ha hp hap hid, rfl,
      DeleteAppointmentHandler_forbidden_iff env r w hwf e4 a p ha hp hap hid⟩
  · intro m hm p hp hmp hid
    exact ⟨DownloadMedicalRecordHandler_denied_iff env r w hwf e5 m p hm hp hmp hid,
      fun hopen =>
        DownloadMedicalRecordHandler_forbidden_iff env r w hwf e5 hopen m p hm hp hmp hid,
      DeleteMedicalRecordHandler_forbidden_iff env r w hwf e6 m p hm hp hmp hid⟩
  · intro p hp hid
    exact GetMedicalRecordsHandler_forbidden_iff env r w hwf e2 p hp hid

/-- Bob asks for Ann's pet, for the list of its records and for the download of
one, and is refused with 403 each time; Sam, who is staff, deletes the record
without a 403. -/
theorem ownership_check_forbidden_iff_witness :
    clinic.db.WF ∧ calmEnv.LookupsAnswer ∧
    (GetPetByIDHandler calmEnv (requestOf "2" "owner" "7") clinic).1.code = StatusForbidden ∧
    (GetMedicalRecordsHandler calmEnv
      ⟨[("X-User-ID", "2"), ("X-User-Role", "owner")], [("pet_id", "7")]⟩ clinic).1.code =
      StatusForbidden ∧
    (DownloadMedicalRecordHandler calmEnv (requestOf "2" "owner" "9") clinic).1.code =
      StatusForbidden ∧
    (DeleteMedicalRecordHandler calmEnv (requestOf "3" "staff" "9") clinic).1.code ≠
      StatusForbidden :=
  ⟨by decide, by decide,
   ((ownership_check_forbidden_iff calmEnv (requestOf "2" "owner" "7") clinic
      (by decide) (by decide)).1 rex (by decide) (by decide)).1.mpr (by decide),
   ((ownership_check_forbidden_iff calmEnv
      ⟨[("X-User-ID", "2"), ("X-User-Role", "owner")], [("pet_id", "7")]⟩ clinic
      (by decide) (by decide)).2.2.2 rex (by decide) (by decide)).mpr (by decide),
   (((ownership_check_forbidden_iff calmEnv (requestOf "2" "owner" "9") clinic
      (by decide) (by decide)).2.2.1 xray (by decide) rex (by decide) (by decide)
      (by decide)).2.1 (by decide)).mpr (by decide),
   fun h =>
    absurd (((ownership_check_forbidden_iff calmEnv (requestOf "3" "staff" "9") clinic
      (by decide) (by decide)).2.2.1 xray (by decide) rex (by decide) (by decide)
      (by decide)).2.2.mp h) (by decide)⟩

/-- C1 as stated fails twice. Bob, an owner, sends an update for Ann's pet with a
body that does not decode; the pet exists and is not his, yet the answer is
400, not 403. And Sam, who is staff, downloads a record whose file the server
may not open: he is not refused by the ownership check, yet the answer of
`http.ServeFile` is 403. -/
theorem update_undecodable_body_not_forbidden :
    (rex ∈ clinic.db.pets ∧
      (Atoi ((requestOf "2" "owner" "7").var "id")).1 = rex.ID ∧
      Denied (requestOf "2" "owner" "7") rex.OwnerID ∧
      (UpdatePetHandler calmEnv (requestOf "2" "owner" "7") none clinic).1.code =
        StatusBadRequest ∧
      ¬ ((UpdatePetHandler calmEnv (requestOf "2" "owner" "7") none clinic).1.code =
          StatusForbidden ↔ Denied (requestOf "2" "owner" "7") rex.OwnerID)) ∧
    (xray ∈ clinic.db.medical_records ∧ xray.PetID = rex.ID ∧
      (Atoi ((requestOf "3" "staff" "9").var "id")).1 = xray.ID ∧
      ¬ Denied (requestOf "3" "staff" "9") rex.OwnerID ∧
      (DownloadMedicalRecordHandler
        { calmEnv with fsErr := fun op => op == "Open: permission denied" }
        (requestOf "3" "staff" "9") clinic).1 = ⟨StatusForbidden, Payload.text "403 Forbidden"⟩) := by
  decide

/-! ## C2: a refused update or delete leaves the store and the disk alone -/

/-- C2 (as amended): in a store with primary keys whose ownership lookups are
answered, for every non-staff caller and every pet, appointment or medical
record whose resolved owner is another user, the two delete-pet/appointment
handlers, DeleteMedicalRecordHandler and the two update handlers on a body that
decodes answer 403, and an update whose body does not decode answers 400; in
each case every table and every file on disk is as it was before the request. -/
theorem denied_mutation_changes_nothing (env : Env) (r : Request) (w : World)
    (hwf : w.db.WF) (henv : env.LookupsAnswer) :
    (∀ p ∈ w.db.pets, (Atoi (r.var "id")).1 = p.ID → Denied r p.OwnerID →
      (∀ body, (UpdatePetHandler env r (some body) w).1.code = StatusForbidden ∧
        (UpdatePetHandler env r (some body) w).2.SameData w) ∧
      ((UpdatePetHandler env r none w).1.code = StatusBadRequest ∧
        (UpdatePetHandler env r none w).2.SameData w) ∧
      ((DeletePetHandler env r w).1.code = StatusForbidden ∧
        (DeletePetHandler env r w).2.SameData w)) ∧
    (∀ a ∈ w.db.appointments, ∀ p ∈ w.db.pets, a.PetID = p.ID →
      (Atoi (r.var "id")).1 = a.ID → Denied r p.OwnerID →
      (∀ body, (UpdateAppointmentHandler env r (some body) w).1.code = StatusForbidden ∧
        (UpdateAppointmentHandler env r (some body) w).2.SameData w) ∧
      ((UpdateAppointmentHandler env r none w).1.code = StatusBadRequest ∧
        (UpdateAppointmentHandler env r none w).2.SameData w) ∧
      ((DeleteAppointmentHandler env r w).1.code = StatusForbidden ∧
        (DeleteAppointmentHandler env r w).2.SameData w)) ∧
    (∀ m ∈ w.db.medical_records, ∀ p ∈ w.db.pets, m.PetID = p.ID →
      (Atoi (r.var "id")).1 = m.ID → Denied r p.OwnerID →
      (DeleteMedicalRecordHandler env r w).1.code = StatusForbidden ∧
        (DeleteMedicalRecordHandler env r w).2.SameData w) := by
  obtain ⟨_, e2, _, e4, _, e6⟩ := henv
  refine ⟨?_, ?_, ?_⟩
  · intro p hp hid hden
    refine ⟨fun body => ?_, ⟨rfl, rfl, rfl⟩, ?_⟩
    · rw [UpdatePetHandler_denied env r w hwf e2 p hp hid hden body]
      exact ⟨rfl, stmt_sameData w _⟩
    · rw [DeletePetHandler_denied env r w hwf e2 p hp hid hden]
      exact ⟨rfl, stmt_sameData w _⟩
  · intro a ha p hp hap hid hden
    refine ⟨fun body => ?_, ⟨rfl, rfl, rfl⟩, ?_⟩
    · rw [UpdateAppointmentHandler_denied env r w hwf e4 a p ha hp hap hid hden body]
      exact ⟨rfl, stmt_sameData w _⟩
    · rw [DeleteAppointmentHandler_denied env r w hwf e4 a p ha hp hap hid hden]
      exact ⟨rfl, stmt_sameData w _⟩
  · intro m hm p hp hmp hid hden
    rw [DeleteMedicalRecordHandler_denied env r w hwf e6 m p hm hp hmp hid hden]
    exact ⟨rfl, stmt_sameData w _⟩

/-- Bob tries to delete the record of Ann's pet: 403, and the tables and the
file are untouched. -/
theorem denied_mutation_changes_nothing_witness :
    clinic.db.WF ∧ calmEnv.LookupsAnswer ∧ Denied (requestOf "2" "owner" "9") rex.OwnerID ∧
    (DeleteMedicalRecordHandler calmEnv (requestOf "2" "owner" "9") clinic).1.code =
      StatusForbidden ∧
    (DeleteMedicalRecordHandler calmEnv (requestOf "2" "owner" "9") clinic).2.SameData clinic :=
  ⟨by decide, by decide, by decide,
   (denied_mutation_changes_nothing calmEnv (requestOf "2" "owner" "9") clinic
      (by decide) (by decide)).2.2 xray (by decide) rex (by decide) (by decide)
      (by decide) (by decide)⟩

/-- C2 as stated fails: Bob sends an update for the appointment of Ann's pet with
a body that does not decode; the handler answers 400 where the claim says 403
(the store is untouched all the same). -/
theorem update_appointment_undecodable_body_bad_request :
    checkup ∈ clinic.db.appointments ∧ rex ∈ clinic.db.pets ∧ checkup.PetID = rex.ID ∧
    (Atoi ((requestOf "2" "owner" "4").var "id")).1 = checkup.ID ∧
    Denied (requestOf "2" "owner" "4") rex.OwnerID ∧
    (UpdateAppointmentHandler calmEnv (requestOf "2" "owner" "4") none clinic).1.code ≠
      StatusForbidden ∧
    (UpdateAppointmentHandler calmEnv (requestOf "2" "owner" "4") none clinic).1.code =
      StatusBadRequest := by
  decide

/-! ## C3 and C4: the owner of a created pet -/

theorem insertPet_cases (env : Env) (pet : Pet) (w : World) :
    (insertPet env pet w = (some env.serial,
        { w.stmt sqlInsertPet with
          db := { w.db with pets := w.db.pets ++ [{ pet with ID := env.serial }] } }) ∧
      env.dbErr sqlInsertPet = false ∧ (∃ o ∈ w.db.owners, o.id = pet.OwnerID)) ∨
    (insertPet env pet w = (none, w.stmt sqlInsertPet) ∧
      ¬ (env.dbErr sqlInsertPet = false ∧ ∃ o ∈ w.db.owners, o.id = pet.OwnerID)) := by
  unfold insertPet
  by_cases h1 : env.dbErr sqlInsertPet = true
  · right; simp [h1]
  · by_cases h2 : ∃ o ∈ w.db.owners, o.id = pet.OwnerID
    · left
      have h2' : ∃ x ∈ w.db.owners, x.id = pet.OwnerID := h2
      simp only [h1, List.any_eq_true, decide_eq_true_eq]
      simp [h2', World.stmt]
    · right
      have h2' : ¬ ∃ x ∈ w.db.owners, x.id = pet.OwnerID := h2
      simp only [h1, List.any_eq_true, decide_eq_true_eq]
      simp [h2']

/-- C3: for a caller whose role is not "staff" and a body with non-empty name and
species, whatever owner_id the body carries, CreatePetHandler either answers
201 with a pet whose owner_id is the caller id and appends exactly that row to
`pets`, or answers 500 and leaves the tables as they were; it answers 201
whenever the insert meets no driver error and the caller is a row of `owners`. -/
theorem create_pet_owner_is_caller (env : Env) (r : Request) (w : World) (pet : Pet)
    (hrole : GetUserRoleFromRequest r ≠ "staff")
    (hname : pet.Name ≠ "") (hspecies : pet.Species ≠ "") :
    (((CreatePetHandler env r (some pet) w).1 = ⟨StatusCreated, Payload.pet
          { pet with ID := env.serial, OwnerID := GetUserIDFromRequest r }⟩ ∧
        (CreatePetHandler env r (some pet) w).2.db.pets = w.db.pets ++
          [{ pet with ID := env.serial, OwnerID := GetUserIDFromRequest r }]) ∨
      ((CreatePetHandler env r (some pet) w).1.code = StatusInternalServerError ∧
        (CreatePetHandler env r (some pet) w).2.db = w.db)) ∧
    (∀ q, (CreatePetHandler env r (some pet) w).1.payload = Payload.pet q →
      q.OwnerID = GetUserIDFromRequest r) ∧
    (∀ q ∈ (CreatePetHandler env r (some pet) w).2.db.pets,
      q ∈ w.db.pets ∨ q.OwnerID = GetUserIDFromRequest r) ∧
    (env.dbErr sqlInsertPet = false →
      (∃ o ∈ w.db.owners, o.id = GetUserIDFromRequest r) →
      (CreatePetHandler env r (some pet) w).1.code = StatusCreated) := by
  have hv : ¬ (pet.Name = "" ∨ pet.Species = "") := by
    rintro (h | h)
    · exact hname h
    · exact hspecies h
  simp only [CreatePetHandler, hv, if_false, hrole, ne_eq, not_false_eq_true, if_true]
  rcases insertPet_cases env { pet with OwnerID := GetUserIDFromRequest r } w with
    ⟨h, -, -⟩ | ⟨h, hn⟩
  · rw [h]
    simp only [RespondWithJSON, StatusCreated, true_and, List.mem_append, List.mem_singleton,
      Payload.pet.injEq, true_or, implies_true, and_true]
    refine ⟨fun q hq => by rw [← hq], fun q hq => ?_⟩
    rcases hq with hq | hq
    · exact Or.inl hq
    · exact Or.inr (by rw [hq])
  · rw [h]
    refine ⟨Or.inr ⟨rfl, rfl⟩, ?_, ?_, ?_⟩
    · intro q hq
      simp [RespondWithError, RespondWithJSON] at hq
    · intro q hq
      exact Or.inl hq
    · intro h1 h2
      exact absurd ⟨h1, h2⟩ hn

/-- Bob, an owner with id 2, posts a pet whose body names owner 1: the stored and
returned pet belongs to owner 2. -/
theorem create_pet_owner_is_caller_witness :
    GetUserRoleFromRequest (requestOf "2" "owner" "") ≠ "staff" ∧
    (CreatePetHandler calmEnv (requestOf "2" "owner" "")
        (some ⟨0, "Tom", "cat", "", 1, ""⟩) clinic).1 =
      ⟨StatusCreated, Payload.pet ⟨100, "Tom", "cat", "", 2, ""⟩⟩ ∧
    (CreatePetHandler calmEnv (requestOf "2" "owner" "")
        (some ⟨0, "Tom", "cat", "", 1, ""⟩) clinic).2.db.pets =
      [rex, ⟨100, "Tom", "cat", "", 2, ""⟩] :=
  ⟨by decide,
   ((create_pet_owner_is_caller calmEnv (requestOf "2" "owner" "") clinic
      ⟨0, "Tom", "cat", "", 1, ""⟩ (by decide) (by decide) (by decide)).1.resolve_right
      (by decide))⟩

/-- C4: for a staff caller, CreatePetHandler on a body whose owner_id is absent
or zero answers 400 and leaves the world as it was, without sending a
statement; on a body with a non-zero owner_id every row it adds to `pets`, and
the pet it returns, carry the owner_id of the body, and it answers 201 when name
and species are non-empty, the insert meets no driver error and the owner exists. -/
theorem create_pet_staff_owner_id (env : Env) (r : Request) (w : World) (pet : Pet)
    (hrole : GetUserRoleFromRequest r = "staff") :
    (pet.OwnerID = 0 →
      (CreatePetHandler env r (some pet) w).1.code = StatusBadRequest ∧
      (CreatePetHandler env r (some pet) w).2 = w) ∧
    (pet.OwnerID ≠ 0 →
      (((CreatePetHandler env r (some pet) w).1 =
            ⟨StatusCreated, Payload.pet { pet with ID := env.serial }⟩ ∧
          (CreatePetHandler env r (some pet) w).2.db.pets =
            w.db.pets ++ [{ pet with ID := env.serial }]) ∨
        ((CreatePetHandler env r (some pet) w).1.code ≠ StatusCreated ∧
          (CreatePetHandler env r (some pet) w).2.db = w.db)) ∧
      (∀ q ∈ (CreatePetHandler env r (some pet) w).2.db.pets,
        q ∈ w.db.pets ∨ q.OwnerID = pet.OwnerID) ∧
      (pet.Name ≠ "" → pet.Species ≠ "" → env.dbErr sqlInsertPet = false →
        (∃ o ∈ w.db.owners, o.id = pet.OwnerID) →
        (CreatePetHandler env r (some pet) w).1.code = StatusCreated)) := by
  constructor
  · intro h0
    simp only [CreatePetHandler, hrole, h0]
    split <;> simp [RespondWithError, RespondWithJSON]
  · intro h0
    by_cases hv : pet.Name = "" ∨ pet.Species = ""
    · simp only [CreatePetHandler, hv, if_true]
      refine ⟨Or.inr ⟨by simp [RespondWithError, RespondWithJSON, StatusBadRequest,
        StatusCreated], by trivial⟩, fun q hq => Or.inl hq, ?_⟩
      intro h1 h2
      rcases hv with h | h
      · exact absurd h h1
      · exact absurd h h2
    · simp only [CreatePetHandler, hv, if_false, hrole, ne_eq, not_true_eq_false, h0]
      rcases insertPet_cases env pet w with ⟨h, -, -⟩ | ⟨h, hn⟩
      · rw [h]
        simp only [RespondWithJSON, StatusCreated, true_and, List.mem_append,
          List.mem_singleton, true_or, implies_true, and_true]
        intro q hq
        rcases hq with hq | hq
        · exact Or.inl hq
        · exact Or.inr (by rw [hq])
      · rw [h]
        refine ⟨Or.inr ⟨by simp [RespondWithError, RespondWithJSON, StatusCreated,
          StatusInternalServerError], rfl⟩, fun q hq => Or.inl hq, ?_⟩
        intro _ _ h1 h2
        exact absurd ⟨h1, h2⟩ hn

/-- Sam, who is staff, posts a pet without owner_id and gets 400 with nothing
stored; with owner_id 1 the stored pet belongs to owner 1. -/
theorem create_pet_staff_owner_id_witness :
    GetUserRoleFromRequest (requestOf "3" "staff" "") = "staff" ∧
    (CreatePetHandler calmEnv (requestOf "3" "staff" "")
        (some ⟨0, "Tom", "cat", "", 0, ""⟩) clinic).1.code = StatusBadRequest ∧
    (CreatePetHandler calmEnv (requestOf "3" "staff" "")
        (some ⟨0, "Tom", "cat", "", 0, ""⟩) clinic).2 = clinic ∧
    (CreatePetHandler calmEnv (requestOf "3" "staff" "")
        (some ⟨0, "Tom", "cat", "", 1, ""⟩) clinic).1.code = StatusCreated :=
  ⟨by decide,
   ((create_pet_staff_owner_id calmEnv (requestOf "3" "staff" "") clinic
      ⟨0, "Tom", "cat", "", 0, ""⟩ (by decide)).1 (by decide)).1,
   ((create_pet_staff_owner_id calmEnv (requestOf "3" "staff" "") clinic
      ⟨0, "Tom", "cat", "", 0, ""⟩ (by decide)).1 (by decide)).2,
   ((create_pet_staff_owner_id calmEnv (requestOf "3" "staff" "") clinic
      ⟨0, "Tom", "cat", "", 1, ""⟩ (by decide)).2 (by decide)).2.2
      (by decide) (by decide) (by decide) (by decide)⟩

/-! ## C5: creating an appointment for a missing or foreign pet -/

theorem insertAppointment_no_pet (env : Env) (a : Appointment) (w : World)
    (hno : ∀ p ∈ w.db.pets, p.ID ≠ a.PetID) :
    insertAppointment env a w = (none, w.stmt sqlInsertAppointment) := by
  unfold insertAppointment
  have h : ¬ ∃ x ∈ w.db.pets, x.ID = a.PetID := by
    rintro ⟨x, hx, hxe⟩
    exact hno x hx hxe
  by_cases h1 : env.dbErr sqlInsertAppointment = true
  · simp [h1]
  · simp only [h1, List.any_eq_true, decide_eq_true_eq]
    simp [h]

theorem createAppointmentExec_no_pet (env : Env) (a : Appointment) (w : World)
    (hno : ∀ p ∈ w.db.pets, p.ID ≠ a.PetID) :
    createAppointmentExec env a w =
      (RespondWithError StatusInternalServerError "Failed to create appointment",
       w.stmt sqlInsertAppointment) := by
  unfold createAppointmentExec
  by_cases hs : a.Status = ""
  · simp only [if_pos hs]
    rw [insertAppointment_no_pet env _ w (by simpa using hno)]
  · simp only [if_neg hs]
    rw [insertAppointment_no_pet env _ w hno]

/-- C5 (as amended): on a body with non-zero pet_id and date, when pet_id matches
no `pets` row, CreateAppointmentHandler answers a non-staff caller 404 after the
single pet lookup, whatever the caller id; for a staff caller the lookup is
skipped, the insert is refused by the foreign key and the answer is 500. In
both cases no appointment is inserted. When the pet exists and belongs to
another user, a non-staff caller is answered 403 and nothing is inserted. -/
theorem create_appointment_pet_checks (env : Env) (r : Request) (w : World)
    (a : Appointment) (hpet : a.PetID ≠ 0) (hdate : a.Date ≠ 0) :
    (GetUserRoleFromRequest r ≠ "staff" → (∀ p ∈ w.db.pets, p.ID ≠ a.PetID) →
      (CreateAppointmentHandler env r (some a) w).1.code = StatusNotFound ∧
      (CreateAppointmentHandler env r (some a) w).2.SameData w ∧
      (CreateAppointmentHandler env r (some a) w).2.trace =
        w.trace ++ [Event.sql sqlPetOwner]) ∧
    (GetUserRoleFromRequest r = "staff" → (∀ p ∈ w.db.pets, p.ID ≠ a.PetID) →
      (CreateAppointmentHandler env r (some a) w).1.code = StatusInternalServerError ∧
      (CreateAppointmentHandler env r (some a) w).2.SameData w ∧
      (CreateAppointmentHandler env r (some a) w).2.trace =
        w.trace ++ [Event.sql sqlInsertAppointment]) ∧
    (GetUserRoleFromRequest r ≠ "staff" → w.db.WF → env.dbErr sqlPetOwner = false →
      ∀ p ∈ w.db.pets, p.ID = a.PetID → p.OwnerID ≠ GetUserIDFromRequest r →
      (CreateAppointmentHandler env r (some a) w).1.code = StatusForbidden ∧
      (CreateAppointmentHandler env r (some a) w).2.SameData w) := by
  have hv : ¬ (a.PetID = 0 ∨ a.Date = 0) := by
    rintro (h | h)
    · exact hpet h
    · exact hdate h
  refine ⟨?_, ?_, ?_⟩
  · intro hrole hno
    have hfind : w.db.pets.find? (fun p => decide (p.ID = a.PetID)) = none := by
      rw [List.find?_eq_none]
      intro x hx
      simpa using hno x hx
    simp [CreateAppointmentHandler, hv, hrole, queryPetOwner, hfind, RespondWithError,
      RespondWithJSON, World.stmt, World.SameData]
  · intro hrole hno
    simp only [CreateAppointmentHandler, hv, if_false, hrole, ne_eq, not_true_eq_false,
      createAppointmentExec_no_pet env a w hno]
    exact ⟨rfl, ⟨rfl, rfl⟩, rfl⟩
  · intro hrole hwf henv p hp hid hown
    have hfind := find?_pet w.db hwf p hp
    rw [hid] at hfind
    simp [CreateAppointmentHandler, hv, hrole, queryPetOwner, henv, hfind, hown,
      RespondWithError, RespondWithJSON, World.stmt, World.SameData]

/-- Bob asks for an appointment for pet 8, which does not exist: 404, nothing
stored; for Rex, who is Ann's: 403. -/
theorem create_appointment_pet_checks_witness :
    (CreateAppointmentHandler calmEnv (requestOf "2" "owner" "")
        (some ⟨0, 8, 63800000000000000000, "vaccine", ""⟩) clinic).1.code = StatusNotFound ∧
    (CreateAppointmentHandler calmEnv (requestOf "2" "owner" "")
        (some ⟨0, 7, 63800000000000000000, "vaccine", ""⟩) clinic).1.code =
      StatusForbidden :=
  ⟨((create_appointment_pet_checks calmEnv (requestOf "2" "owner" "") clinic
      ⟨0, 8, 63800000000000000000, "vaccine", ""⟩ (by decide) (by decide)).1
      (by decide) (by decide)).1,
   ((create_appointment_pet_checks calmEnv (requestOf "2" "owner" "") clinic
      ⟨0, 7, 63800000000000000000, "vaccine", ""⟩ (by decide) (by decide)).2.2
      (by decide) (by decide) (by decide) rex (by decide) (by decide) (by decide)).1⟩

/-- C5 as stated fails for staff: Sam posts a well-formed appointment for pet 8,
which matches no `pets` row; the answer is 500, not 404 (no appointment is stored). -/
theorem create_appointment_staff_missing_pet :
    GetUserRoleFromRequest (requestOf "3" "staff" "") = "staff" ∧
    (∀ p ∈ clinic.db.pets, p.ID ≠ 8) ∧
    (CreateAppointmentHandler calmEnv (requestOf "3" "staff" "")
        (some ⟨0, 8, 63800000000000000000, "vaccine", ""⟩) clinic).1.code ≠ StatusNotFound ∧
    (CreateAppointmentHandler calmEnv (requestOf "3" "staff" "")
        (some ⟨0, 8, 63800000000000000000, "vaccine", ""⟩) clinic).1 =
      RespondWithError StatusInternalServerError "Failed to create appointment" ∧
    (CreateAppointmentHandler calmEnv (requestOf "3" "staff" "")
        (some ⟨0, 8, 63800000000000000000, "vaccine", ""⟩) clinic).2.db = clinic.db := by
  decide

/-! ## C6: required fields are checked before the store is touched -/

/-- C6: CreatePetHandler on an empty name or species, CreateAppointmentHandler on
pet_id 0 or a zero date, and RegisterHandler on an empty email, password or
name each answer 400 and return the world they were given: no table or file
changes and no statement is sent (the trace is the same). -/
theorem required_fields_before_store (env : Env) (r : Request) (w : World) :
    (∀ pet : Pet, pet.Name = "" ∨ pet.Species = "" →
      (CreatePetHandler env r (some pet) w).1.code = StatusBadRequest ∧
      (CreatePetHandler env r (some pet) w).2 = w) ∧
    (∀ a : Appointment, a.PetID = 0 ∨ a.Date = 0 →
      (CreateAppointmentHandler env r (some a) w).1.code = StatusBadRequest ∧
      (CreateAppointmentHandler env r (some a) w).2 = w) ∧
    (∀ user : User, user.Email = "" ∨ user.Password = "" ∨ user.Name = "" →
      (RegisterHandler env (some user) w).1.code = StatusBadRequest ∧
      (RegisterHandler env (some user) w).2 = w) := by
  refine ⟨fun pet h => ?_, fun a h => ?_, fun user h => ?_⟩
  · simp [CreatePetHandler, h, RespondWithError, RespondWithJSON]
  · simp [CreateAppointmentHandler, h, RespondWithError, RespondWithJSON]
  · simp [RegisterHandler, h, RespondWithError, RespondWithJSON]

/-- A pet without species, an appointment without date and a registration
without password are each answered 400 with the clinic untouched. -/
theorem required_fields_before_store_witness :
    ((CreatePetHandler calmEnv (requestOf "2" "owner" "")
        (some ⟨0, "Tom", "", "", 0, ""⟩) clinic).1.code = StatusBadRequest ∧
      (CreatePetHandler calmEnv (requestOf "2" "owner" "")
        (some ⟨0, "Tom", "", "", 0, ""⟩) clinic).2 = clinic) ∧
    ((CreateAppointmentHandler calmEnv (requestOf "2" "owner" "")
        (some ⟨0, 7, 0, "vaccine", ""⟩) clinic).1.code = StatusBadRequest ∧
      (CreateAppointmentHandler calmEnv (requestOf "2" "owner" "")
        (some ⟨0, 7, 0, "vaccine", ""⟩) clinic).2 = clinic) ∧
    ((RegisterHandler calmEnv (some ⟨"eve@x.com", "", "Eve", "", ""⟩) clinic).1.code =
        StatusBadRequest ∧
      (RegisterHandler calmEnv (some ⟨"eve@x.com", "", "Eve", "", ""⟩) clinic).2 = clinic) :=
  ⟨(required_fields_before_store calmEnv (requestOf "2" "owner" "") clinic).1
      ⟨0, "Tom", "", "", 0, ""⟩ (by decide),
   (required_fields_before_store calmEnv (requestOf "2" "owner" "") clinic).2.1
      ⟨0, 7, 0, "vaccine", ""⟩ (by decide),
   (required_fields_before_store calmEnv (requestOf "2" "owner" "") clinic).2.2
      ⟨"eve@x.com", "", "Eve", "", ""⟩ (by decide)⟩

/-! ## C7 and C8: registration -/

theorem insertOwner_cases (env : Env) (row : OwnerRow) (w : World) :
    (insertOwner env row w = (some env.serial,
        { w.stmt sqlInsertOwner with
          db := { w.db with owners := w.db.owners ++ [{ row with id := env.serial }] } }) ∧
      env.dbErr sqlInsertOwner = false ∧ (∀ o ∈ w.db.owners, o.email ≠ row.email)) ∨
    (insertOwner env row w = (none, w.stmt sqlInsertOwner) ∧
      ¬ (env.dbErr sqlInsertOwner = false ∧ ∀ o ∈ w.db.owners, o.email ≠ row.email)) := by
  unfold insertOwner
  by_cases h1 : env.dbErr sqlInsertOwner = true
  · right; simp [h1]
  · by_cases h2 : ∃ x ∈ w.db.owners, x.email = row.email
    · right
      simp only [h1, List.any_eq_true, decide_eq_true_eq]
      simp only [h2, if_true, true_and, not_and]
      refine ⟨by trivial, ?_⟩
      obtain ⟨x, hx, hxe⟩ := h2
      intro hall
      exact hall x hx hxe
    · left
      simp only [h1, List.any_eq_true, decide_eq_true_eq]
      simp only [h2, if_false]
      refine ⟨by simp [World.stmt], by trivial, ?_⟩
      intro o ho hoe
      exact h2 ⟨o, ho, hoe⟩

/-- What RegisterHandler does once the required fields are present and the
role, after defaulting, is one of the two admitted values. -/
theorem RegisterHandler_admitted (env : Env) (w : World) (user : User) (role : String)
    (he : user.Email ≠ "") (hp : user.Password ≠ "") (hn : user.Name ≠ "")
    (hrole : role = if user.Role = "" then "owner" else user.Role)
    (hadm : role = "owner" ∨ role = "staff") :
    (RegisteredAs env user role w (RegisterHandler env (some user) w) ∨
      RefusedWith StatusInternalServerError w (RegisterHandler env (some user) w)) ∧
    ((∃ h, env.GenerateFromPassword user.Password = some h) →
      env.dbErr sqlInsertOwner = false → (∀ o ∈ w.db.owners, o.email ≠ user.Email) →
      RegisteredAs env user role w (RegisterHandler env (some user) w)) := by
  have hv : ¬ (user.Email = "" ∨ user.Password = "" ∨ user.Name = "") := by
    rintro (h | h | h)
    · exact he h
    · exact hp h
    · exact hn h
  have hrole' : (if user.Role = "" then { user with Role := "owner" } else user).Role = role := by
    rw [hrole]; split <;> rfl
  have hfields : ∀ u : User, u = (if user.Role = "" then { user with Role := "owner" } else user) →
      u.Name = user.Name ∧ u.Contact = user.Contact ∧ u.Email = user.Email ∧
      u.Password = user.Password ∧ u.Role = role := by
    intro u hu
    subst hu
    refine ⟨?_, ?_, ?_, ?_, hrole'⟩ <;> split <;> rfl
  have hadm' : ¬ (role ≠ "owner" ∧ role ≠ "staff") := by
    rintro ⟨h1, h2⟩
    rcases hadm with h | h
    · exact h1 h
    · exact h2 h
  simp only [RegisterHandler, hv, if_false]
  generalize hu : (if user.Role = "" then { user with Role := "owner" } else user) = u
  obtain ⟨f1, f2, f3, f4, f5⟩ := hfields u hu.symm
  simp only [f1, f2, f3, f4, f5, hadm', if_false]
  cases hh : env.GenerateFromPassword user.Password with
  | none =>
    refine ⟨Or.inr ⟨rfl, ⟨_, rfl⟩, rfl⟩, ?_⟩
    rintro ⟨h, hsome⟩
    simp at hsome
  | some hashed =>
    rcases insertOwner_cases env ⟨0, user.Name, user.Contact, user.Email, hashed, role⟩ w with
      ⟨hins, -, -⟩ | ⟨hins, hno⟩
    · simp only [hins]
      have hreg : RegisteredAs env user role w
          (RespondWithJSON StatusCreated
            (Payload.registered "User registered successfully" env.serial role),
           { w.stmt sqlInsertOwner with
             db := { w.db with owners := w.db.owners ++
               [⟨env.serial, user.Name, user.Contact, user.Email, hashed, role⟩] } }) :=
        ⟨rfl, hashed, hh, rfl⟩
      exact ⟨Or.inl hreg, fun _ _ _ => hreg⟩
    · simp only [hins]
      refine ⟨Or.inr ⟨rfl, ⟨_, rfl⟩, rfl⟩, ?_⟩
      intro _ h1 h2
      exact absurd ⟨h1, h2⟩ hno

/-- C7: on a registration with non-empty email, password and name, an empty role
is stored and returned as "owner", the roles "owner" and "staff" are stored and
returned unchanged (201 with exactly one new row, or 500 with no new row, and
201 whenever the hash, the insert and the unique email allow it), and every
other role string is answered 400 with the world untouched; so every row the
handler adds to `owners` has role "owner" or "staff". -/
theorem register_role (env : Env) (w : World) (user : User)
    (he : user.Email ≠ "") (hp : user.Password ≠ "") (hn : user.Name ≠ "") :
    (user.Role = "" →
      RegisteredAs env user "owner" w (RegisterHandler env (some user) w) ∨
      RefusedWith StatusInternalServerError w (RegisterHandler env (some user) w)) ∧
    (user.Role = "owner" ∨ user.Role = "staff" →
      RegisteredAs env user user.Role w (RegisterHandler env (some user) w) ∨
      RefusedWith StatusInternalServerError w (RegisterHandler env (some user) w)) ∧
    (user.Role ≠ "" → user.Role ≠ "owner" → user.Role ≠ "staff" →
      (RegisterHandler env (some user) w).1.code = StatusBadRequest ∧
      (RegisterHandler env (some user) w).2 = w) ∧
    (user.Role = "" ∨ user.Role = "owner" ∨ user.Role = "staff" →
      (∃ h, env.GenerateFromPassword user.Password = some h) →
      env.dbErr sqlInsertOwner = false → (∀ o ∈ w.db.owners, o.email ≠ user.Email) →
      (RegisterHandler env (some user) w).1.code = StatusCreated) ∧
    (∀ row ∈ (RegisterHandler env (some user) w).2.db.owners,
      row ∈ w.db.owners ∨ row.role = "owner" ∨ row.role = "staff") := by
  have hempty : user.Role = "" →
      (RegisteredAs env user "owner" w (RegisterHandler env (some user) w) ∨
        RefusedWith StatusInternalServerError w (RegisterHandler env (some user) w)) ∧
      ((∃ h, env.GenerateFromPassword user.Password = some h) →
        env.dbErr sqlInsertOwner = false → (∀ o ∈ w.db.owners, o.email ≠ user.Email) →
        RegisteredAs env user "owner" w (RegisterHandler env (some user) w)) := fun h =>
    RegisterHandler_admitted env w user "owner" he hp hn (by rw [if_pos h]) (Or.inl rfl)
  have hgiven : user.Role = "owner" ∨ user.Role = "staff" →
      (RegisteredAs env user user.Role w (RegisterHandler env (some user) w) ∨
        RefusedWith StatusInternalServerError w (RegisterHandler env (some user) w)) ∧
      ((∃ h, env.GenerateFromPassword user.Password = some h) →
        env.dbErr sqlInsertOwner = false → (∀ o ∈ w.db.owners, o.email ≠ user.Email) →
        RegisteredAs env user user.Role w (RegisterHandler env (some user) w)) := fun h =>
    RegisterHandler_admitted env w user user.Role he hp hn
      (by
        have hne : user.Role ≠ "" := by
          rcases h with h | h <;> rw [h] <;> decide
        rw [if_neg hne]) h
  have hother : user.Role ≠ "" → user.Role ≠ "owner" → user.Role ≠ "staff" →
      (RegisterHandler env (some user) w).1.code = StatusBadRequest ∧
      (RegisterHandler env (some user) w).2 = w := by
    intro h1 h2 h3
    have hv : ¬ (user.Email = "" ∨ user.Password = "" ∨ user.Name = "") := by
      rintro (h | h | h)
      · exact he h
      · exact hp h
      · exact hn h
    simp [RegisterHandler, hv, h1, h2, h3, RespondWithError, RespondWithJSON]
  refine ⟨fun h => (hempty h).1, fun h => (hgiven h).1, hother, ?_, ?_⟩
  · intro hrole hh hdb hfresh
    rcases hrole with h | h | h
    · rw [((hempty h).2 hh hdb hfresh).1]
    · rw [((hgiven (Or.inl h)).2 hh hdb hfresh).1]
    · rw [((hgiven (Or.inr h)).2 hh hdb hfresh).1]
  · intro row hrow
    have hcase : ∀ role : String, role = "owner" ∨ role = "staff" →
        RegisteredAs env user role w (RegisterHandler env (some user) w) ∨
        RefusedWith StatusInternalServerError w (RegisterHandler env (some user) w) →
        row ∈ w.db.owners ∨ row.role = "owner" ∨ row.role = "staff" := by
      intro role hadm hres
      rcases hres with ⟨-, hsh, -, hrows⟩ | ⟨-, -, hdb⟩
      · rw [hrows, List.mem_append, List.mem_singleton] at hrow
        rcases hrow with hrow | hrow
        · exact Or.inl hrow
        · right
          rw [hrow]
          exact hadm
      · rw [hdb] at hrow
        exact Or.inl hrow
    by_cases h1 : user.Role = ""
    · exact hcase "owner" (Or.inl rfl) (hempty h1).1
    · by_cases h2 : user.Role = "owner"
      · exact hcase user.Role (Or.inl h2) (hgiven (Or.inl h2)).1
      · by_cases h3 : user.Role = "staff"
        · exact hcase user.Role (Or.inr h3) (hgiven (Or.inr h3)).1
        · rw [(hother h1 h2 h3).2] at hrow
          exact Or.inl hrow

/-- Eve registers without a role and is stored as "owner"; with role "Staff"
(capital S) she is answered 400 and nothing is stored. -/
theorem register_role_witness :
    RegisteredAs calmEnv ⟨"eve@x.com", "pw", "Eve", "", ""⟩ "owner" clinic
      (RegisterHandler calmEnv (some ⟨"eve@x.com", "pw", "Eve", "", ""⟩) clinic) ∧
    (RegisterHandler calmEnv (some ⟨"eve@x.com", "pw", "Eve", "", "Staff"⟩) clinic).1.code =
      StatusBadRequest ∧
    (RegisterHandler calmEnv (some ⟨"eve@x.com", "pw", "Eve", "", "Staff"⟩) clinic).2 = clinic :=
  ⟨((register_role calmEnv clinic ⟨"eve@x.com", "pw", "Eve", "", ""⟩
      (by decide) (by decide) (by decide)).1 rfl).resolve_right
        (fun h => absurd h.1 (by decide)),
   ((register_role calmEnv clinic ⟨"eve@x.com", "pw", "Eve", "", "Staff"⟩
      (by decide) (by decide) (by decide)).2.2.1 (by decide) (by decide) (by decide)).1,
   ((register_role calmEnv clinic ⟨"eve@x.com", "pw", "Eve", "", "Staff"⟩
      (by decide) (by decide) (by decide)).2.2.1 (by decide) (by decide) (by decide)).2⟩

theorem RegisterHandler_shape (env : Env) (w : World) (body : Option User) :
    RefusedWith StatusBadRequest w (RegisterHandler env body w) ∨
    RefusedWith StatusInternalServerError w (RegisterHandler env body w) ∨
    (∃ user role, body = some user ∧
      RegisteredAs env user role w (RegisterHandler env body w) ∧
      ∀ o ∈ w.db.owners, o.email ≠ user.Email) := by
  cases body with
  | none => exact Or.inl ⟨rfl, ⟨_, rfl⟩, rfl⟩
  | some user =>
    by_cases hv : user.Email = "" ∨ user.Password = "" ∨ user.Name = ""
    · left
      simp only [RegisterHandler, hv, if_true]
      exact ⟨rfl, ⟨_, rfl⟩, rfl⟩
    · simp only [RegisterHandler, hv, if_false]
      have hfields : ∀ u : User,
          u = (if user.Role = "" then { user with Role := "owner" } else user) →
          u.Name = user.Name ∧ u.Contact = user.Contact ∧ u.Email = user.Email ∧
          u.Password = user.Password := by
        intro u hu
        subst hu
        refine ⟨?_, ?_, ?_, ?_⟩ <;> split <;> rfl
      generalize hu : (if user.Role = "" then { user with Role := "owner" } else user) = u
      obtain ⟨f1, f2, f3, f4⟩ := hfields u hu.symm
      by_cases hr : u.Role ≠ "owner" ∧ u.Role ≠ "staff"
      · left
        rw [if_pos hr]
        exact ⟨rfl, ⟨_, rfl⟩, rfl⟩
      · rw [if_neg hr]
        simp only [f1, f2, f3, f4]
        cases hh : env.GenerateFromPassword user.Password with
        | none => exact Or.inr (Or.inl ⟨rfl, ⟨_, rfl⟩, rfl⟩)
        | some hashed =>
          rcases insertOwner_cases env
              ⟨0, user.Name, user.Contact, user.Email, hashed, u.Role⟩ w with
            ⟨hins, -, hfresh⟩ | ⟨hins, -⟩
          · simp only [hins]
            exact Or.inr (Or.inr ⟨user, u.Role, rfl, ⟨rfl, hashed, hh, rfl⟩, hfresh⟩)
          · simp only [hins]
            exact Or.inr (Or.inl ⟨rfl, ⟨_, rfl⟩, rfl⟩)

theorem RegisterHandler_code (env : Env) (w : World) (body : Option User) :
    (RegisterHandler env body w).1.code = StatusCreated ∨
    (RegisterHandler env body w).1.code = StatusBadRequest ∨
    (RegisterHandler env body w).1.code = StatusInternalServerError := by
  rcases RegisterHandler_shape env w body with h | h | ⟨user, role, -, h, -⟩
  · exact Or.inr (Or.inl h.1)
  · exact Or.inr (Or.inr h.1)
  · exact Or.inl (by rw [h.1])

theorem RegisterHandler_email_in_use (env : Env) (w : World) (user : User)
    (hused : ∃ o ∈ w.db.owners, o.email = user.Email) :
    (RegisterHandler env (some user) w).1.code ≠ StatusCreated ∧
    (∃ msg, (RegisterHandler env (some user) w).1.payload = Payload.error msg) ∧
    (RegisterHandler env (some user) w).2.db = w.db := by
  rcases RegisterHandler_shape env w (some user) with h | h | ⟨u, role, hu, -, hfresh⟩
  · exact ⟨by rw [h.1]; decide, h.2.1, h.2.2⟩
  · exact ⟨by rw [h.1]; decide, h.2.1, h.2.2⟩
  · obtain ⟨o, ho, hoe⟩ := hused
    cases hu
    exact absurd hoe (hfresh o ho)

/-- C8 (as amended): every response of RegisterHandler has status 201, 400 or
500. When the email of the request is already in use the status is never 201,
the body is an error object (no user_id) and `owners` has no new row; on an
otherwise valid request whose password hashes, that status is 500. -/
theorem register_status (env : Env) (w : World) :
    (∀ body, (RegisterHandler env body w).1.code = StatusCreated ∨
      (RegisterHandler env body w).1.code = StatusBadRequest ∨
      (RegisterHandler env body w).1.code = StatusInternalServerError) ∧
    (∀ user : User, (∃ o ∈ w.db.owners, o.email = user.Email) →
      (RegisterHandler env (some user) w).1.code ≠ StatusCreated ∧
      (∃ msg, (RegisterHandler env (some user) w).1.payload = Payload.error msg) ∧
      (RegisterHandler env (some user) w).2.db = w.db) ∧
    (∀ user : User, (∃ o ∈ w.db.owners, o.email = user.Email) →
      user.Email ≠ "" → user.Password ≠ "" → user.Name ≠ "" →
      user.Role = "" ∨ user.Role = "owner" ∨ user.Role = "staff" →
      (∃ h, env.GenerateFromPassword user.Password = some h) →
      (RegisterHandler env (some user) w).1.code = StatusInternalServerError) := by
  refine ⟨RegisterHandler_code env w, RegisterHandler_email_in_use env w, ?_⟩
  intro user hused he hp hn hrole hh
  have hadm : ∃ role, role = (if user.Role = "" then "owner" else user.Role) ∧
      (role = "owner" ∨ role = "staff") := by
    rcases hrole with h | h | h
    · exact ⟨"owner", by rw [if_pos h], Or.inl rfl⟩
    · exact ⟨"owner", by rw [h]; decide, Or.inl rfl⟩
    · exact ⟨"staff", by rw [h]; decide, Or.inr rfl⟩
  obtain ⟨role, hr, hadm⟩ := hadm
  rcases (RegisterHandler_admitted env w user role he hp hn hr hadm).1 with hreg | hfail
  · exact absurd (by rw [hreg.1]) (RegisterHandler_email_in_use env w user hused).1
  · exact hfail.1

/-- Eve tries to register with the email Ann already uses: 500 and no new row. -/
theorem register_status_witness :
    (∃ o ∈ clinic.db.owners, o.email = "ann@x.com") ∧
    (RegisterHandler calmEnv (some ⟨"ann@x.com", "pw", "Eve", "", ""⟩) clinic).1.code =
      StatusInternalServerError ∧
    (RegisterHandler calmEnv (some ⟨"ann@x.com", "pw", "Eve", "", ""⟩) clinic).2.db =
      clinic.db :=
  ⟨⟨ann, by decide, rfl⟩,
   (register_status calmEnv clinic).2.2 ⟨"ann@x.com", "pw", "Eve", "", ""⟩
      ⟨ann, by decide, rfl⟩ (by decide) (by decide) (by decide) (Or.inl rfl) ⟨_, rfl⟩,
   ((register_status calmEnv clinic).2.1 ⟨"ann@x.com", "pw", "Eve", "", ""⟩
      ⟨ann, by decide, rfl⟩).2.2⟩

/-- C8 as stated fails: a registration with an email already in use is answered
500, which is neither 201 nor 400. -/
theorem register_duplicate_email_is_500 :
    (RegisterHandler calmEnv (some ⟨"ann@x.com", "pw", "Eve", "", "owner"⟩) clinic).1 =
      RespondWithError StatusInternalServerError
        "Registration failed - email may already exist" ∧
    ¬ ((RegisterHandler calmEnv (some ⟨"ann@x.com", "pw", "Eve", "", "owner"⟩) clinic).1.code =
        StatusCreated ∨
      (RegisterHandler calmEnv (some ⟨"ann@x.com", "pw", "Eve", "", "owner"⟩) clinic).1.code =
        StatusBadRequest) := by
  decide

/-! ## C9 and C10: login -/

/-- C9: for a login with non-empty email and password, the response when no
`owners` row has the email equals the response when a row has it but the
password does not match: both are 401 with the error "Invalid credentials". -/
theorem login_no_enumeration (env1 env2 : Env) (w1 w2 : World) (c : LoginRequest)
    (he : c.Email ≠ "") (hp : c.Password ≠ "")
    (habsent : ∀ o ∈ w1.db.owners, o.email ≠ c.Email)
    (_hpresent : ∃ o ∈ w2.db.owners, o.email = c.Email)
    (hmismatch : ∀ o ∈ w2.db.owners, o.email = c.Email →
      env2.CompareHashAndPassword o.password c.Password = false) :
    (LoginHandler env1 (some c) w1).1 = (LoginHandler env2 (some c) w2).1 ∧
    (LoginHandler env1 (some c) w1).1 =
      RespondWithError StatusUnauthorized "Invalid credentials" := by
  have hv : ¬ (c.Email = "" ∨ c.Password = "") := by
    rintro (h | h)
    · exact he h
    · exact hp h
  have h1 : (LoginHandler env1 (some c) w1).1 =
      RespondWithError StatusUnauthorized "Invalid credentials" := by
    have hfind : w1.db.owners.find? (fun o => decide (o.email = c.Email)) = none := by
      rw [List.find?_eq_none]
      intro x hx
      simpa using habsent x hx
    simp [LoginHandler, hv, queryOwnerByEmail, hfind]
  have h2 : (LoginHandler env2 (some c) w2).1 =
      RespondWithError StatusUnauthorized "Invalid credentials" := by
    simp only [LoginHandler, hv, if_false, queryOwnerByEmail]
    by_cases hdb : env2.dbErr sqlOwnerByEmail = true
    · simp [hdb]
    · cases hfind : w2.db.owners.find? (fun o => decide (o.email = c.Email)) with
      | none => simp [hdb]
      | some row =>
        have hrow : row ∈ w2.db.owners := List.mem_of_find?_eq_some hfind
        have hmail : row.email = c.Email := by simpa using List.find?_some hfind
        simp [hdb, hmismatch row hrow hmail]
  exact ⟨h1.trans h2.symm, h1⟩

/-- The same login for Ann with a wrong password gets the same response from a
clinic that does not know Ann and from the clinic that does. -/
theorem login_no_enumeration_witness :
    (LoginHandler calmEnv (some ⟨"ann@x.com", "guess"⟩)
        { clinic with db := { clinic.db with owners := [bob, sam] } }).1 =
      (LoginHandler calmEnv (some ⟨"ann@x.com", "guess"⟩) clinic).1 ∧
    (LoginHandler calmEnv (some ⟨"ann@x.com", "guess"⟩) clinic).1 =
      RespondWithError StatusUnauthorized "Invalid credentials" :=
  ⟨(login_no_enumeration calmEnv calmEnv
      { clinic with db := { clinic.db with owners := [bob, sam] } } clinic
      ⟨"ann@x.com", "guess"⟩ (by decide) (by decide) (by decide) ⟨ann, by decide, rfl⟩
      (by decide)).1,
   by decide⟩

theorem NewNumericDate_add_day (t : Int) :
    NewNumericDate (t + 24 * Hour) = NewNumericDate t + 86400 := by
  unfold NewNumericDate Hour Second
  omega

/-- C10 (as amended): when LoginHandler answers 200, the token it returns is the
signature of claims that carry the id and the role of the `owners` row found
for the email and the email of the request; expires_at is the first clock
reading plus 24 hours and issued_at the second clock reading, both in whole
seconds, so expires_at = issued_at + 86400 whenever the two readings fall into
the same second. A login whose row is found, whose password matches and whose
token can be signed is answered 200. -/
theorem login_token_claims (env : Env) (w : World) (c : LoginRequest) :
    ((LoginHandler env (some c) w).1.code = StatusOK →
      ∃ row tok, w.db.owners.find? (fun o => decide (o.email = c.Email)) = some row ∧
        row.email = c.Email ∧
        env.SignedString (loginClaims env row.id c.Email row.role) = some tok ∧
        (LoginHandler env (some c) w).1 =
          ⟨StatusOK, Payload.login tok row.role row.name row.id⟩) ∧
    (∀ (id : Int) (email role : String),
      (loginClaims env id email role).UserID = id ∧
      (loginClaims env id email role).Email = email ∧
      (loginClaims env id email role).Role = role ∧
      (loginClaims env id email role).ExpiresAt = NewNumericDate (env.now 0) + 86400 ∧
      (loginClaims env id email role).IssuedAt = NewNumericDate (env.now 1) ∧
      (NewNumericDate (env.now 0) = NewNumericDate (env.now 1) →
        (loginClaims env id email role).ExpiresAt =
          (loginClaims env id email role).IssuedAt + 86400)) ∧
    (∀ row tok, c.Email ≠ "" → c.Password ≠ "" → env.dbErr sqlOwnerByEmail = false →
      w.db.owners.find? (fun o => decide (o.email = c.Email)) = some row →
      env.CompareHashAndPassword row.password c.Password = true →
      env.SignedString (loginClaims env row.id c.Email row.role) = some tok →
      (LoginHandler env (some c) w).1 =
        ⟨StatusOK, Payload.login tok row.role row.name row.id⟩) := by
  refine ⟨?_, ?_, ?_⟩
  · intro hcode
    by_cases hv : c.Email = "" ∨ c.Password = ""
    · simp [LoginHandler, hv, RespondWithError, RespondWithJSON, StatusOK,
        StatusBadRequest] at hcode
    · simp only [LoginHandler, hv, if_false, queryOwnerByEmail] at hcode ⊢
      by_cases hdb : env.dbErr sqlOwnerByEmail = true
      · simp [hdb, RespondWithError, RespondWithJSON, StatusOK, StatusUnauthorized] at hcode
      · cases hfind : w.db.owners.find? (fun o => decide (o.email = c.Email)) with
        | none =>
          simp [hdb, hfind, RespondWithError, RespondWithJSON, StatusOK,
            StatusUnauthorized] at hcode
        | some row =>
          have hmail : row.email = c.Email := by simpa using List.find?_some hfind
          by_cases hcmp : env.CompareHashAndPassword row.password c.Password = true
          · cases hsig : env.SignedString (loginClaims env row.id c.Email row.role) with
            | none =>
              simp [hdb, hfind, hcmp, hsig, RespondWithError, RespondWithJSON, StatusOK,
                StatusInternalServerError] at hcode
            | some tok =>
              refine ⟨row, tok, rfl, hmail, hsig, ?_⟩
              simp [hdb, hcmp, hsig, RespondWithJSON]
          · simp [hdb, hfind, hcmp, RespondWithError, RespondWithJSON, StatusOK,
              StatusUnauthorized] at hcode
  · intro id email role
    refine ⟨rfl, rfl, rfl, NewNumericDate_add_day _, rfl, fun h => ?_⟩
    show NewNumericDate (env.now 0 + 24 * Hour) = NewNumericDate (env.now 1) + 86400
    rw [NewNumericDate_add_day, h]
  · intro row tok he hp hdb hfind hcmp hsig
    have hv : ¬ (c.Email = "" ∨ c.Password = "") := by
      rintro (h | h)
      · exact he h
      · exact hp h
    simp [LoginHandler, hv, queryOwnerByEmail, hdb, hfind, hcmp, hsig, RespondWithJSON]

/-- Ann logs in with her password while the clock stands still: 200, and the
token carries her id, her role, and an expiry one day after the issue time. -/
theorem login_token_claims_witness :
    (LoginHandler calmEnv (some ⟨"ann@x.com", "pw-ann"⟩) clinic).1.code = StatusOK ∧
    (∃ row tok,
      clinic.db.owners.find? (fun o => decide (o.email = "ann@x.com")) = some row ∧
      row.email = "ann@x.com" ∧
      calmEnv.SignedString (loginClaims calmEnv row.id "ann@x.com" row.role) = some tok ∧
      (LoginHandler calmEnv (some ⟨"ann@x.com", "pw-ann"⟩) clinic).1 =
        ⟨StatusOK, Payload.login tok row.role row.name row.id⟩) ∧
    (loginClaims calmEnv 1 "ann@x.com" "owner").ExpiresAt =
      (loginClaims calmEnv 1 "ann@x.com" "owner").IssuedAt + 86400 :=
  ⟨by decide,
   (login_token_claims calmEnv clinic ⟨"ann@x.com", "pw-ann"⟩).1 (by decide),
   ((login_token_claims calmEnv clinic ⟨"ann@x.com", "pw-ann"⟩).2.1 1 "ann@x.com"
      "owner").2.2.2.2.2 (by decide)⟩

/-- C10 as stated fails: Ann logs in while the clock passes a second boundary
between the two readings of `time.Now()`; the login succeeds and the claims of
the token have expires_at = issued_at + 86399. -/
theorem login_expiry_across_second_boundary :
    (LoginHandler tickEnv (some ⟨"ann@x.com", "pw-ann"⟩) clinic).1 =
      ⟨StatusOK, Payload.login "jwt:1:ann@x.com:owner:1700086399:1700000000" "owner" "Ann" 1⟩ ∧
    tickEnv.SignedString (loginClaims tickEnv ann.id "ann@x.com" ann.role) =
      some "jwt:1:ann@x.com:owner:1700086399:1700000000" ∧
    (loginClaims tickEnv ann.id "ann@x.com" ann.role).ExpiresAt = 1700086399 ∧
    (loginClaims tickEnv ann.id "ann@x.com" ann.role).IssuedAt = 1700000000 ∧
    (loginClaims tickEnv ann.id "ann@x.com" ann.role).ExpiresAt ≠
      (loginClaims tickEnv ann.id "ann@x.com" ann.role).IssuedAt + 86400 := by
  decide

/-! ## Decimal printing and parsing -/

theorem digitChar_facts : ∀ d, d < 10 →
    (Char.ofNat (48 + d)).isDigit = true ∧ (Char.ofNat (48 + d)).toNat - 48 = d := by
  decide

theorem isDigit_ne_marks (c : Char) (h : c.isDigit = true) :
    c ≠ '_' ∧ c ≠ '-' ∧ c ≠ '+' := by
  refine ⟨?_, ?_, ?_⟩ <;> rintro rfl <;> exact absurd h (by decide)

theorem digitsOf_spec (fuel : Nat) : ∀ n, n < fuel →
    digitsOf fuel n ≠ [] ∧ (∀ c ∈ digitsOf fuel n, c.isDigit = true) ∧
    (digitsOf fuel n).foldl (fun a c => a * 10 + (c.toNat - 48)) 0 = n := by
  induction fuel with
  | zero => intro n h; exact absurd h (Nat.not_lt_zero n)
  | succ fuel ih =>
    intro n h
    unfold digitsOf
    by_cases h10 : n < 10
    · rw [if_pos h10]
      obtain ⟨hd, hv⟩ := digitChar_facts n h10
      refine ⟨by simp, ?_, ?_⟩
      · intro c hc
        rw [List.mem_singleton] at hc
        rw [hc]; exact hd
      · simp [hv]
    · rw [if_neg h10]
      have hlt : n / 10 < fuel := by omega
      obtain ⟨-, hall, hval⟩ := ih (n / 10) hlt
      obtain ⟨hd, hv⟩ := digitChar_facts (n % 10) (Nat.mod_lt n (by decide))
      refine ⟨by simp, ?_, ?_⟩
      · intro c hc
        rw [List.mem_append, List.mem_singleton] at hc
        rcases hc with hc | hc
        · exact hall c hc
        · rw [hc]; exact hd
      · rw [List.foldl_append, hval]
        simp only [List.foldl_cons, List.foldl_nil, hv]
        omega

theorem natDigits_spec (n : Nat) :
    natDigits n ≠ [] ∧ (∀ c ∈ natDigits n, c.isDigit = true) ∧
    (natDigits n).foldl (fun a c => a * 10 + (c.toNat - 48)) 0 = n :=
  digitsOf_spec (n + 1) n (Nat.lt_succ_self n)

theorem parseUintLoop_append (l : List Char) (c : Char) : ∀ n,
    parseUintLoop (l ++ [c]) n =
      match parseUintLoop l n with
      | Except.ok k => parseUintLoop [c] k
      | Except.error e => Except.error e := by
  induction l with
  | nil => intro n; rfl
  | cons a l ih =>
    intro n
    simp only [List.cons_append, parseUintLoop]
    split
    · rfl
    · split
      · rfl
      · exact ih _

theorem parseUintLoop_digitsOf (fuel : Nat) : ∀ n, n < fuel → n ≤ maxUint64 →
    parseUintLoop (digitsOf fuel n) 0 = Except.ok n := by
  induction fuel with
  | zero => intro n h; exact absurd h (Nat.not_lt_zero n)
  | succ fuel ih =>
    intro n h hmax
    unfold digitsOf
    by_cases h10 : n < 10
    · rw [if_pos h10]
      obtain ⟨hd, hv⟩ := digitChar_facts n h10
      simp only [parseUintLoop, hd, hv, not_true_eq_false, if_false, Nat.zero_mul, Nat.zero_add]
      rw [if_neg (Nat.not_lt.mpr hmax)]
    · rw [if_neg h10]
      have hlt : n / 10 < fuel := by omega
      have hle : n / 10 ≤ maxUint64 := Nat.le_trans (Nat.div_le_self n 10) hmax
      obtain ⟨hd, hv⟩ := digitChar_facts (n % 10) (Nat.mod_lt n (by decide))
      have hval : n / 10 * 10 + n % 10 = n := by omega
      rw [parseUintLoop_append, ih (n / 10) hlt hle]
      simp only [parseUintLoop, hd, hv, not_true_eq_false, if_false, hval]
      rw [if_neg (Nat.not_lt.mpr hmax)]

theorem ParseUint_natDigits (n : Nat) (hmax : n ≤ maxUint64) :
    ParseUint (natDigits n) = Except.ok n := by
  have hloop : parseUintLoop (natDigits n) 0 = Except.ok n :=
    parseUintLoop_digitsOf (n + 1) n (Nat.lt_succ_self n) hmax
  have hgen : ∀ cs : List Char, cs ≠ [] → ParseUint cs = parseUintLoop cs 0 := by
    intro cs hcs
    cases cs with
    | nil => exact absurd rfl hcs
    | cons c t => rfl
  rw [hgen _ (natDigits_spec n).1, hloop]

theorem natDigits_head (n : Nat) :
    ∃ c t, natDigits n = c :: t ∧ c.isDigit = true := by
  obtain ⟨hne, hall, -⟩ := natDigits_spec n
  cases hcs : natDigits n with
  | nil => exact absurd hcs hne
  | cons c t => exact ⟨c, t, rfl, hall c (by rw [hcs]; exact List.mem_cons_self c t)⟩

/-- Function `Atoi` reads back what `Itoa` prints, for every value of a 64-bit `int`. -/
theorem Atoi_Itoa (n : Int) (hlo : minInt ≤ n) (hhi : n ≤ maxInt) :
    Atoi (Itoa n) = (n, false) := by
  unfold Atoi Itoa itoaChars
  have h1 : ¬ maxInt < n := by omega
  have h2 : ¬ n < minInt := by omega
  have hmax : n.natAbs ≤ maxUint64 := by
    unfold minInt at hlo
    unfold maxInt at hhi
    unfold maxUint64
    omega
  have hpu := ParseUint_natDigits n.natAbs hmax
  by_cases hneg : n < 0
  · have habs : |n| = -n := abs_of_neg hneg
    simp [hneg, hpu, habs, h1, h2]
  · obtain ⟨c, t, hcs, hd⟩ := natDigits_head n.natAbs
    obtain ⟨-, hm, hp⟩ := isDigit_ne_marks c hd
    have hv : ((n.natAbs : Nat) : Int) = n := by omega
    rw [hcs] at hpu
    simp [hneg, hcs, hm, hp, hpu, hv, h1, h2]

/-! ## Headers and the bearer scheme -/

theorem headerGet_headerSet_same (h : List (String × String)) (key value : String) :
    headerGet (headerSet h key value) key = value := by
  have hnone : (h.filter (fun kv => ! (kv.1 == key))).find? (fun kv => kv.1 == key) = none := by
    rw [List.find?_eq_none]
    intro x hx
    rw [List.mem_filter] at hx
    simpa using hx.2
  simp [headerGet, headerSet, List.find?_append, hnone]

theorem headerGet_headerSet_other (h : List (String × String)) (key value other : String)
    (hne : key ≠ other) :
    headerGet (headerSet h key value) other = headerGet h other := by
  have hfilter : (h.filter (fun kv => ! (kv.1 == key))).find? (fun kv => kv.1 == other) =
      h.find? (fun kv => kv.1 == other) := by
    induction h with
    | nil => rfl
    | cons x xs ih =>
      by_cases hx : x.1 = other
      · simp [List.filter_cons, hx, Ne.symm hne]
      · by_cases hk : x.1 = key
        · simp [List.filter_cons, hk, hx, hne, ih]
        · simp [List.filter_cons, hk, hx, ih]
  unfold headerGet headerSet
  rw [List.find?_append, hfilter]
  cases hf : h.find? (fun kv => kv.1 == other) with
  | none => simp [hne]
  | some kv => simp

theorem mem_headerSet (h : List (String × String)) (key value : String)
    (kv : String × String) (hkv : kv ∈ headerSet h key value) :
    (kv.1 = key → kv.2 = value) ∧ (kv.1 ≠ key → kv ∈ h) := by
  unfold headerSet at hkv
  rw [List.mem_append, List.mem_filter, List.mem_singleton] at hkv
  rcases hkv with ⟨hmem, hne⟩ | rfl
  · have hne' : kv.1 ≠ key := by simpa using hne
    exact ⟨fun he => absurd he hne', fun _ => hmem⟩
  · exact ⟨fun _ => rfl, fun hne => absurd rfl hne⟩

theorem TrimPrefix_append (pre tok : String) : TrimPrefix (pre ++ tok) pre = tok := by
  unfold TrimPrefix
  have hp : pre.toList.isPrefixOf (pre ++ tok).toList = true := by
    rw [List.isPrefixOf_iff_prefix]
    exact ⟨tok.toList, rfl⟩
  rw [if_pos hp]
  apply String.ext
  show List.drop pre.data.length (pre.data ++ tok.data) = tok.data
  exact List.drop_left _ _

/-! ## C11: what AuthMiddleware lets through -/

/-- C11 (as amended): AuthMiddleware answers a missing or empty Authorization
header with 401 and a header whose token does not verify with 401, in both
cases without invoking the wrapped handler (the outcome is the same for every
handler and the world is untouched); it invokes the handler exactly when the
header, with a leading "Bearer " removed if there is one, is a token that
verifies. For a header "Bearer " followed by a token that token is the one
verified; a header that does not start with "Bearer " is verified whole. -/
theorem auth_middleware_gate (cfg : Config) (next : Request → World → Response × World)
    (r : Request) (w : World) :
    (headerGet r.header "Authorization" = "" →
      AuthMiddleware cfg next r w =
        (RespondWithError StatusUnauthorized "Missing authorization token", w)) ∧
    (headerGet r.header "Authorization" ≠ "" →
      cfg.ParseWithClaims (TrimPrefix (headerGet r.header "Authorization") "Bearer ") = none →
      AuthMiddleware cfg next r w = (RespondWithError StatusUnauthorized "Invalid token", w)) ∧
    (∀ claims, headerGet r.header "Authorization" ≠ "" →
      cfg.ParseWithClaims (TrimPrefix (headerGet r.header "Authorization") "Bearer ") =
        some claims →
      AuthMiddleware cfg next r w = next (withIdentity r claims) w) ∧
    (∀ tok, headerGet r.header "Authorization" = "Bearer " ++ tok →
      TrimPrefix (headerGet r.header "Authorization") "Bearer " = tok) ∧
    (("Bearer ".toList.isPrefixOf (headerGet r.header "Authorization").toList) = false →
      TrimPrefix (headerGet r.header "Authorization") "Bearer " =
        headerGet r.header "Authorization") := by
  refine ⟨?_, ?_, ?_, ?_, ?_⟩
  · intro h
    simp [AuthMiddleware, h]
  · intro h hv
    simp [AuthMiddleware, h, hv]
  · intro claims h hv
    simp [AuthMiddleware, h, hv]
  · intro tok h
    rw [h]
    exact TrimPrefix_append "Bearer " tok
  · intro h
    unfold TrimPrefix
    rw [h]
    rfl

/-- A request without Authorization header and one with a token that does not
verify are answered 401 and the echo handler is not run; "Bearer tok-ann" is
passed on with Ann's identity. -/
theorem auth_middleware_gate_witness :
    AuthMiddleware site echoIdentity ⟨[], []⟩ clinic =
      (RespondWithError StatusUnauthorized "Missing authorization token", clinic) ∧
    AuthMiddleware site echoIdentity ⟨[("Authorization", "Bearer forged")], []⟩ clinic =
      (RespondWithError StatusUnauthorized "Invalid token", clinic) ∧
    AuthMiddleware site echoIdentity ⟨[("Authorization", "Bearer tok-ann")], []⟩ clinic =
      (RespondWithJSON StatusOK (Payload.message "1/owner"), clinic.stmt "echo") :=
  ⟨(auth_middleware_gate site echoIdentity ⟨[], []⟩ clinic).1 (by decide),
   (auth_middleware_gate site echoIdentity ⟨[("Authorization", "Bearer forged")], []⟩
      clinic).2.1 (by decide) (by decide),
   ((auth_middleware_gate site echoIdentity ⟨[("Authorization", "Bearer tok-ann")], []⟩
      clinic).2.2.1 ⟨1, "ann@x.com", "owner", 1700086400, 1700000000⟩ (by decide)
      (by decide)).trans (by decide)⟩

/-- C11 as stated fails: the header is the bare token "tok-ann", with no
"Bearer " in front; the middleware does not answer 401 but runs the wrapped
handler, which answers 200 and leaves its mark in the trace. -/
theorem bare_token_is_passed_on :
    ("Bearer ".toList.isPrefixOf
      (headerGet (Request.mk [("Authorization", "tok-ann")] []).header
        "Authorization").toList) = false ∧
    (AuthMiddleware site echoIdentity ⟨[("Authorization", "tok-ann")], []⟩ clinic).1.code ≠
      StatusUnauthorized ∧
    AuthMiddleware site echoIdentity ⟨[("Authorization", "tok-ann")], []⟩ clinic =
      (RespondWithJSON StatusOK (Payload.message "1/owner"), clinic.stmt "echo") := by
  decide

/-! ## C19: the identity a handler sees -/

/-- C19: when AuthMiddleware passes a request on (the header is not empty and
its token verifies with claims whose user_id is a 64-bit int), the wrapped
handler is called on a request for which GetUserIDFromRequest is the user_id
of the claims and GetUserRoleFromRequest is their role, whatever headers the
client sent: every value left under X-User-ID, X-User-Role and X-User-Email is
the one written from the claims. Atoi reads back what Itoa prints for every
64-bit int, negative ones and 0 included. -/
theorem identity_from_verified_claims (cfg : Config)
    (next : Request → World → Response × World) (r : Request) (w : World) (claims : Claims)
    (hauth : headerGet r.header "Authorization" ≠ "")
    (hverify : cfg.ParseWithClaims
      (TrimPrefix (headerGet r.header "Authorization") "Bearer ") = some claims)
    (hlo : minInt ≤ claims.UserID) (hhi : claims.UserID ≤ maxInt) :
    AuthMiddleware cfg next r w = next (withIdentity r claims) w ∧
    GetUserIDFromRequest (withIdentity r claims) = claims.UserID ∧
    GetUserRoleFromRequest (withIdentity r claims) = claims.Role ∧
    headerGet (withIdentity r claims).header "X-User-Email" = claims.Email ∧
    (∀ kv ∈ (withIdentity r claims).header,
      (kv.1 = "X-User-ID" → kv.2 = Itoa claims.UserID) ∧
      (kv.1 = "X-User-Role" → kv.2 = claims.Role) ∧
      (kv.1 = "X-User-Email" → kv.2 = claims.Email)) ∧
    (∀ n : Int, minInt ≤ n → n ≤ maxInt → Atoi (Itoa n) = (n, false)) := by
  refine ⟨?_, ?_, ?_, ?_, ?_, Atoi_Itoa⟩
  · simp [AuthMiddleware, hauth, hverify]
  · unfold GetUserIDFromRequest withIdentity
    simp only []
    rw [headerGet_headerSet_other _ _ _ _ (by decide),
      headerGet_headerSet_other _ _ _ _ (by decide), headerGet_headerSet_same,
      Atoi_Itoa _ hlo hhi]
  · unfold GetUserRoleFromRequest withIdentity
    simp only []
    rw [headerGet_headerSet_other _ _ _ _ (by decide), headerGet_headerSet_same]
  · unfold withIdentity
    simp only []
    rw [headerGet_headerSet_same]
  · intro kv hkv
    unfold withIdentity at hkv
    simp only [] at hkv
    obtain ⟨h3, h3'⟩ := mem_headerSet _ _ _ kv hkv
    refine ⟨fun hk => ?_, fun hk => ?_, h3⟩
    · have hk3 : kv.1 ≠ "X-User-Email" := by rw [hk]; decide
      obtain ⟨-, h2'⟩ := mem_headerSet _ _ _ kv (h3' hk3)
      have hk2 : kv.1 ≠ "X-User-Role" := by rw [hk]; decide
      exact (mem_headerSet _ _ _ kv (h2' hk2)).1 hk
    · have hk3 : kv.1 ≠ "X-User-Email" := by rw [hk]; decide
      exact (mem_headerSet _ _ _ kv (h3' hk3)).1 hk

/-- A client with Ann's token also sends X-User-ID 3 and X-User-Role staff: the
handler behind the middleware sees id 1 and role owner. -/
theorem identity_from_verified_claims_witness :
    AuthMiddleware site echoIdentity
        ⟨[("Authorization", "Bearer tok-ann"), ("X-User-ID", "3"), ("X-User-Role", "staff")],
          []⟩ clinic =
      echoIdentity (withIdentity
        ⟨[("Authorization", "Bearer tok-ann"), ("X-User-ID", "3"), ("X-User-Role", "staff")],
          []⟩ ⟨1, "ann@x.com", "owner", 1700086400, 1700000000⟩) clinic ∧
    GetUserIDFromRequest (withIdentity
        ⟨[("Authorization", "Bearer tok-ann"), ("X-User-ID", "3"), ("X-User-Role", "staff")],
          []⟩ ⟨1, "ann@x.com", "owner", 1700086400, 1700000000⟩) = 1 ∧
    GetUserRoleFromRequest (withIdentity
        ⟨[("Authorization", "Bearer tok-ann"), ("X-User-ID", "3"), ("X-User-Role", "staff")],
          []⟩ ⟨1, "ann@x.com", "owner", 1700086400, 1700000000⟩) = "owner" :=
  ⟨(identity_from_verified_claims site echoIdentity
      ⟨[("Authorization", "Bearer tok-ann"), ("X-User-ID", "3"), ("X-User-Role", "staff")], []⟩
      clinic ⟨1, "ann@x.com", "owner", 1700086400, 1700000000⟩
      (by decide) (by decide) (by decide) (by decide)).1,
   (identity_from_verified_claims site echoIdentity
      ⟨[("Authorization", "Bearer tok-ann"), ("X-User-ID", "3"), ("X-User-Role", "staff")], []⟩
      clinic ⟨1, "ann@x.com", "owner", 1700086400, 1700000000⟩
      (by decide) (by decide) (by decide) (by decide)).2.1,
   (identity_from_verified_claims site echoIdentity
      ⟨[("Authorization", "Bearer tok-ann"), ("X-User-ID", "3"), ("X-User-Role", "staff")], []⟩
      clinic ⟨1, "ann@x.com", "owner", 1700086400, 1700000000⟩
      (by decide) (by decide) (by decide) (by decide)).2.2.1⟩

/-! ## The stored file name can be read back -/

theorem split_at_mark (m : Char) : ∀ (l1 l2 r1 r2 : List Char),
    (∀ c ∈ l1, c ≠ m) → (∀ c ∈ l2, c ≠ m) → l1 ++ m :: r1 = l2 ++ m :: r2 →
    l1 = l2 ∧ r1 = r2 := by
  intro l1
  induction l1 with
  | nil =>
    intro l2 r1 r2 _ h2 h
    cases l2 with
    | nil => simpa using h
    | cons b l2 =>
      simp only [List.nil_append, List.cons_append, List.cons.injEq] at h
      exact absurd h.1.symm (h2 b (List.mem_cons_self b l2))
  | cons a l1 ih =>
    intro l2 r1 r2 h1 h2 h
    cases l2 with
    | nil =>
      simp only [List.nil_append, List.cons_append, List.cons.injEq] at h
      exact absurd h.1 (h1 a (List.mem_cons_self a l1))
    | cons b l2 =>
      simp only [List.cons_append, List.cons.injEq] at h
      obtain ⟨hl, hr⟩ := ih l2 r1 r2 (fun c hc => h1 c (List.mem_cons_of_mem a hc))
        (fun c hc => h2 c (List.mem_cons_of_mem b hc)) h.2
      exact ⟨by rw [h.1, hl], hr⟩

theorem natDigits_injective (a b : Nat) (h : natDigits a = natDigits b) : a = b := by
  have ha := (natDigits_spec a).2.2
  have hb := (natDigits_spec b).2.2
  rw [h] at ha
  exact ha.symm.trans hb

theorem itoaChars_no_underscore (n : Int) : ∀ c ∈ itoaChars n, c ≠ '_' := by
  intro c hc
  have hd : ∀ m : Nat, c ∈ natDigits m → c ≠ '_' := fun m hm =>
    (isDigit_ne_marks c ((natDigits_spec m).2.1 c hm)).1
  unfold itoaChars at hc
  by_cases hneg : n < 0
  · rw [if_pos hneg, List.mem_cons] at hc
    rcases hc with rfl | hc
    · decide
    · exact hd _ hc
  · rw [if_neg hneg] at hc
    exact hd _ hc

theorem itoaChars_injective (a b : Int) (h : itoaChars a = itoaChars b) : a = b := by
  have hhead : ∀ m : Nat, ∀ t, natDigits m ≠ '-' :: t := by
    intro m t hm
    obtain ⟨c, t', hcs, hd⟩ := natDigits_head m
    rw [hcs, List.cons.injEq] at hm
    exact (isDigit_ne_marks c hd).2.1 hm.1
  unfold itoaChars at h
  by_cases ha : a < 0 <;> by_cases hb : b < 0
  · rw [if_pos ha, if_pos hb, List.cons.injEq] at h
    have := natDigits_injective _ _ h.2
    omega
  · rw [if_pos ha, if_neg hb] at h
    exact absurd h.symm (hhead _ _)
  · rw [if_neg ha, if_pos hb] at h
    exact absurd h (hhead _ _)
  · rw [if_neg ha, if_neg hb] at h
    have := natDigits_injective _ _ h
    omega

theorem uploadFilename_chars (petID timestamp : Int) (name : String) :
    (uploadFilename petID timestamp name).toList =
      itoaChars petID ++ '_' :: (itoaChars timestamp ++ '_' :: name.toList) := by
  show (uploadFilename petID timestamp name).data = _
  simp [uploadFilename, Itoa, String.data_append]

theorem uploadFilename_injective (petID timestamp petID' timestamp' : Int)
    (name name' : String)
    (h : uploadFilename petID timestamp name = uploadFilename petID' timestamp' name') :
    petID = petID' ∧ timestamp = timestamp' ∧ name = name' := by
  have hchars := congrArg String.toList h
  rw [uploadFilename_chars, uploadFilename_chars] at hchars
  obtain ⟨hp, hrest⟩ := split_at_mark '_' _ _ _ _ (itoaChars_no_underscore petID)
    (itoaChars_no_underscore petID') hchars
  obtain ⟨ht, hn⟩ := split_at_mark '_' _ _ _ _ (itoaChars_no_underscore timestamp)
    (itoaChars_no_underscore timestamp') hrest
  exact ⟨itoaChars_injective _ _ hp, itoaChars_injective _ _ ht, String.ext hn⟩

/-! ## C12: what the list handlers return -/

theorem orderByID_perm (ps : List Pet) : (orderByID ps).Perm ps :=
  List.perm_insertionSort _ ps

theorem orderByID_sorted (ps : List Pet) :
    (orderByID ps).Sorted (fun a b => a.ID ≤ b.ID) := by
  have htotal : IsTotal Pet (fun a b => a.ID ≤ b.ID) := ⟨fun a b => le_total a.ID b.ID⟩
  have htrans : IsTrans Pet (fun a b => a.ID ≤ b.ID) := ⟨fun _ _ _ h1 h2 => le_trans h1 h2⟩
  exact List.sorted_insertionSort _ ps

theorem orderByDateDesc_perm (apts : List Appointment) : (orderByDateDesc apts).Perm apts :=
  List.perm_insertionSort _ apts

theorem orderByDateDesc_sorted (apts : List Appointment) :
    (orderByDateDesc apts).Sorted (fun a b => b.Date ≤ a.Date) := by
  have htotal : IsTotal Appointment (fun a b => b.Date ≤ a.Date) :=
    ⟨fun a b => le_total b.Date a.Date⟩
  have htrans : IsTrans Appointment (fun a b => b.Date ≤ a.Date) :=
    ⟨fun _ _ _ h1 h2 => le_trans h2 h1⟩
  exact List.sorted_insertionSort _ apts

/-- With unique pet ids, an appointment meets at most one pet in the join. -/
theorem owned_pets_of_appointment (a : Appointment) (userID : Int) : ∀ (pets : List Pet),
    (pets.map Pet.ID).Nodup →
    (((pets.filter (fun p => a.PetID = p.ID)).map (fun p => (a, p))).filter
        (fun ap => ap.2.OwnerID = userID)).map Prod.fst =
      if pets.any (fun p => p.ID = a.PetID ∧ p.OwnerID = userID) then [a] else [] := by
  intro pets
  induction pets with
  | nil => intro _; rfl
  | cons p ps ih =>
    intro hnd
    rw [List.map_cons, List.nodup_cons] at hnd
    obtain ⟨hnot, hps⟩ := hnd
    by_cases hid : a.PetID = p.ID
    · have hnone : ps.filter (fun q => a.PetID = q.ID) = [] := by
        rw [List.filter_eq_nil_iff]
        intro q hq hqid
        apply hnot
        rw [List.mem_map]
        exact ⟨q, hq, by rw [← hid]; exact (of_decide_eq_true hqid).symm⟩
      have hany : ps.any (fun q => q.ID = a.PetID ∧ q.OwnerID = userID) = false := by
        rw [List.any_eq_false]
        intro q hq hqq
        apply hnot
        rw [List.mem_map]
        exact ⟨q, hq, by rw [← hid]; exact (of_decide_eq_true hqq).1⟩
      have hf : (p :: ps).filter (fun q => decide (a.PetID = q.ID)) = [p] := by
        rw [List.filter_cons, if_pos (decide_eq_true hid), hnone]
      rw [hf, List.map_cons, List.map_nil, List.filter_cons, List.filter_nil]
      by_cases hown : p.OwnerID = userID
      · have hany' : (p :: ps).any (fun q => decide (q.ID = a.PetID ∧ q.OwnerID = userID)) =
            true :=
          List.any_eq_true.mpr ⟨p, List.mem_cons_self p ps, decide_eq_true ⟨hid.symm, hown⟩⟩
        rw [if_pos (decide_eq_true hown), if_pos hany']
        rfl
      · have hany' : (p :: ps).any (fun q => decide (q.ID = a.PetID ∧ q.OwnerID = userID)) =
            false := by
          rw [List.any_cons, hany, decide_eq_false (fun h => hown h.2)]
          rfl
        rw [if_neg (by rw [decide_eq_false hown]; exact Bool.false_ne_true), hany']
        rfl
    · have hid' : ¬ p.ID = a.PetID := fun h => hid h.symm
      have := ih hps
      simp only [List.filter_cons, hid, hid', decide_False, false_and, List.any_cons,
        Bool.false_or] at this ⊢
      simpa using this

theorem owned_appointments_eq (db : Store) (hwf : db.WF) (userID : Int) :
    ((joinAppointmentsPets db).filter (fun ap => ap.2.OwnerID = userID)).map Prod.fst =
      db.appointments.filter
        (fun a => db.pets.any (fun p => p.ID = a.PetID ∧ p.OwnerID = userID)) := by
  unfold joinAppointmentsPets
  induction db.appointments with
  | nil => rfl
  | cons a rest ih =>
    rw [List.flatMap_cons, List.filter_append, List.map_append, ih,
      owned_pets_of_appointment a userID db.pets hwf.1, List.filter_cons]
    split <;> rfl

theorem mem_owned_appointments (db : Store) (userID : Int) (a : Appointment) :
    a ∈ ((joinAppointmentsPets db).filter (fun ap => ap.2.OwnerID = userID)).map Prod.fst ↔
      a ∈ db.appointments ∧ ∃ p ∈ db.pets, p.ID = a.PetID ∧ p.OwnerID = userID := by
  simp only [joinAppointmentsPets, List.mem_map, List.mem_filter, List.mem_flatMap,
    decide_eq_true_eq, Prod.exists, exists_and_right, exists_eq_right]
  constructor
  · rintro ⟨p, ⟨a', ha', q, ⟨hq, hk⟩, heq⟩, hown⟩
    simp only [Prod.mk.injEq] at heq
    obtain ⟨rfl, rfl⟩ := heq
    exact ⟨ha', q, hq, hk.symm, hown⟩
  · rintro ⟨ha, p, hp, hid, hown⟩
    exact ⟨p, ⟨a, ha, p, ⟨hp, hid.symm⟩, rfl⟩, hown⟩

/-- C12: when the list query meets no driver error, GetPetsHandler answers a
staff caller with all `pets` rows and a non-staff caller with exactly the rows
whose owner_id is the caller id, in ascending id order; GetAppointmentsHandler
answers a staff caller with all appointments and a non-staff caller with
exactly the appointments whose parent pet has the caller id as owner_id (each
once, when pet ids are unique). No pet of another owner is in a non-staff
caller's list. -/
theorem list_handlers_filter_by_role (env : Env) (r : Request) (w : World) :
    (GetUserRoleFromRequest r = "staff" → env.dbErr sqlPetsAll = false →
      ∃ l, (GetPetsHandler env r w).1 = ⟨StatusOK, Payload.pets l⟩ ∧
        l.Perm w.db.pets ∧ l.Sorted (fun a b => a.ID ≤ b.ID)) ∧
    (GetUserRoleFromRequest r ≠ "staff" → env.dbErr sqlPetsByOwner = false →
      ∃ l, (GetPetsHandler env r w).1 = ⟨StatusOK, Payload.pets l⟩ ∧
        l.Perm (w.db.pets.filter (fun p => p.OwnerID = GetUserIDFromRequest r)) ∧
        l.Sorted (fun a b => a.ID ≤ b.ID) ∧
        (∀ p, p ∈ l ↔ p ∈ w.db.pets ∧ p.OwnerID = GetUserIDFromRequest r)) ∧
    (GetUserRoleFromRequest r = "staff" → env.dbErr sqlAppointmentsAll = false →
      ∃ l, (GetAppointmentsHandler env r w).1 = ⟨StatusOK, Payload.appointments l⟩ ∧
        l.Perm w.db.appointments) ∧
    (GetUserRoleFromRequest r ≠ "staff" → env.dbErr sqlAppointmentsByOwner = false →
      ∃ l, (GetAppointmentsHandler env r w).1 = ⟨StatusOK, Payload.appointments l⟩ ∧
        (∀ a, a ∈ l ↔ a ∈ w.db.appointments ∧
          ∃ p ∈ w.db.pets, p.ID = a.PetID ∧ p.OwnerID = GetUserIDFromRequest r) ∧
        (w.db.WF → l.Perm (w.db.appointments.filter (fun a =>
          w.db.pets.any (fun p => p.ID = a.PetID ∧ p.OwnerID = GetUserIDFromRequest r))))) := by
  refine ⟨?_, ?_, ?_, ?_⟩
  · intro hrole hdb
    refine ⟨orderByID w.db.pets, ?_, orderByID_perm _, orderByID_sorted _⟩
    simp [GetPetsHandler, hrole, queryPetsAll, hdb, RespondWithJSON]
  · intro hrole hdb
    refine ⟨orderByID (w.db.pets.filter (fun p => p.OwnerID = GetUserIDFromRequest r)), ?_,
      orderByID_perm _, orderByID_sorted _, ?_⟩
    · simp [GetPetsHandler, hrole, queryPetsByOwner, hdb, RespondWithJSON]
    · intro p
      rw [(orderByID_perm _).mem_iff, List.mem_filter, decide_eq_true_eq]
  · intro hrole hdb
    refine ⟨orderByDateDesc w.db.appointments, ?_, orderByDateDesc_perm _⟩
    simp [GetAppointmentsHandler, hrole, queryAppointmentsAll, hdb, RespondWithJSON]
  · intro hrole hdb
    refine ⟨orderByDateDesc (((joinAppointmentsPets w.db).filter
      (fun ap => ap.2.OwnerID = GetUserIDFromRequest r)).map Prod.fst), ?_, ?_, ?_⟩
    · simp [GetAppointmentsHandler, hrole, queryAppointmentsByOwner, hdb, RespondWithJSON]
    · intro a
      rw [(orderByDateDesc_perm _).mem_iff, mem_owned_appointments]
    · intro hwf
      rw [← owned_appointments_eq w.db hwf]
      exact orderByDateDesc_perm _

/-- Sam, staff, lists the one pet of the clinic; Bob, who owns none, gets the
empty list and Ann gets the appointment of her pet. -/
theorem list_handlers_filter_by_role_witness :
    (∃ l, (GetPetsHandler calmEnv (requestOf "3" "staff" "") clinic).1 =
        ⟨StatusOK, Payload.pets l⟩ ∧ l.Perm clinic.db.pets ∧
        l.Sorted (fun a b => a.ID ≤ b.ID)) ∧
    (GetPetsHandler calmEnv (requestOf "2" "owner" "") clinic).1 =
      ⟨StatusOK, Payload.pets []⟩ ∧
    (GetAppointmentsHandler calmEnv (requestOf "1" "owner" "") clinic).1 =
      ⟨StatusOK, Payload.appointments [checkup]⟩ :=
  ⟨(list_handlers_filter_by_role calmEnv (requestOf "3" "staff" "") clinic).1
      (by decide) (by decide),
   by decide, by decide⟩

/-! ## C13: a mutation that affects no row -/

theorem map_update_of_no_match {α : Type} (l : List α) (q : α → Prop) [DecidablePred q]
    (f : α → α) (hno : ∀ x ∈ l, ¬ q x) :
    l.map (fun x => if q x then f x else x) = l := by
  have h : l.map (fun x => if q x then f x else x) = l.map id :=
    List.map_congr_left (fun x hx => by simp [hno x hx])
  rw [h, List.map_id]

theorem filter_not_of_no_match {α : Type} (l : List α) (q : α → Prop) [DecidablePred q]
    (hno : ∀ x ∈ l, ¬ q x) :
    l.filter (fun x => decide (¬ q x)) = l := by
  rw [List.filter_eq_self]
  intro x hx
  simpa using hno x hx

theorem updatePetExec_no_row (env : Env) (pet : Pet) (petID : Int) (w : World)
    (hdb : env.dbErr sqlUpdatePet = false) (hno : ∀ p ∈ w.db.pets, p.ID ≠ petID) :
    (updatePetExec env pet petID w).1.code = StatusNotFound ∧
    (updatePetExec env pet petID w).2.SameData w := by
  have hcount : w.db.pets.countP (fun p => decide (p.ID = petID)) = 0 := by
    rw [List.countP_eq_zero]
    intro x hx
    simpa using hno x hx
  simp only [updatePetExec, execUpdatePet, hdb, hcount, World.stmt]
  refine ⟨rfl, ?_, rfl⟩
  show Store.mk _ _ _ _ = w.db
  rw [map_update_of_no_match w.db.pets (fun p => p.ID = petID) _ hno]

theorem deletePetExec_no_row (env : Env) (petID : Int) (w : World)
    (hdb : env.dbErr sqlDeletePet = false) (hno : ∀ p ∈ w.db.pets, p.ID ≠ petID) :
    (deletePetExec env petID w).1.code = StatusNotFound ∧
    (deletePetExec env petID w).2.SameData w := by
  have hnone : w.db.pets.filter (fun p => decide (p.ID = petID)) = [] := by
    rw [List.filter_eq_nil_iff]
    intro x hx
    simpa using hno x hx
  simp only [deletePetExec, execDeletePet, hdb, hnone, World.stmt]
  refine ⟨rfl, ?_, rfl⟩
  show Store.mk _ _ _ _ = w.db
  rw [filter_not_of_no_match w.db.pets (fun p => p.ID = petID) hno]
  simp

theorem updateAppointmentExec_no_row (env : Env) (a : Appointment) (aptID : Int) (w : World)
    (hdb : env.dbErr sqlUpdateAppointment = false)
    (hno : ∀ x ∈ w.db.appointments, x.ID ≠ aptID) :
    (updateAppointmentExec env a aptID w).1.code = StatusNotFound ∧
    (updateAppointmentExec env a aptID w).2.SameData w := by
  have hcount : w.db.appointments.countP (fun x => decide (x.ID = aptID)) = 0 := by
    rw [List.countP_eq_zero]
    intro x hx
    simpa using hno x hx
  simp only [updateAppointmentExec, execUpdateAppointment, hdb, hcount, World.stmt]
  refine ⟨rfl, ?_, rfl⟩
  show Store.mk _ _ _ _ = w.db
  rw [map_update_of_no_match w.db.appointments (fun x => x.ID = aptID) _ hno]

theorem deleteAppointmentExec_no_row (env : Env) (aptID : Int) (w : World)
    (hdb : env.dbErr sqlDeleteAppointment = false)
    (hno : ∀ x ∈ w.db.appointments, x.ID ≠ aptID) :
    (deleteAppointmentExec env aptID w).1.code = StatusNotFound ∧
    (deleteAppointmentExec env aptID w).2.SameData w := by
  have hcount : w.db.appointments.countP (fun x => decide (x.ID = aptID)) = 0 := by
    rw [List.countP_eq_zero]
    intro x hx
    simpa using hno x hx
  simp only [deleteAppointmentExec, execDeleteAppointment, hdb, hcount, World.stmt]
  refine ⟨rfl, ?_, rfl⟩
  show Store.mk _ _ _ _ = w.db
  rw [filter_not_of_no_match w.db.appointments (fun x => x.ID = aptID) hno]

theorem deleteRecordExec_no_row (env : Env) (recordID : Int) (filepath : String) (w : World)
    (hdb : env.dbErr sqlDeleteRecord = false)
    (hno : ∀ x ∈ w.db.medical_records, x.ID ≠ recordID) :
    deleteRecordExec env recordID filepath w =
      (RespondWithError StatusNotFound "Record not found", w.stmt sqlDeleteRecord) := by
  have hcount : w.db.medical_records.countP (fun x => decide (x.ID = recordID)) = 0 := by
    rw [List.countP_eq_zero]
    intro x hx
    simpa using hno x hx
  simp only [deleteRecordExec, execDeleteRecord, hdb, hcount, World.stmt]
  rw [filter_not_of_no_match w.db.medical_records (fun x => x.ID = recordID) hno]
  rfl

/-- The handler is its ownership check followed by `deleteRecordExec`. -/
theorem DeleteMedicalRecordHandler_tail (env : Env) (r : Request) (w : World)
    (hwf : w.db.WF) (henv : env.dbErr sqlRecordForDelete = false)
    (m : MedicalRecord) (p : Pet) (hm : m ∈ w.db.medical_records) (hp : p ∈ w.db.pets)
    (hmp : m.PetID = p.ID) (hid : (Atoi (r.var "id")).1 = m.ID)
    (hauth : ¬ Denied r p.OwnerID) :
    DeleteMedicalRecordHandler env r w =
      deleteRecordExec env m.ID m.FilePath (w.stmt sqlRecordForDelete) := by
  have hauth' : ¬ (GetUserRoleFromRequest r ≠ "staff" ∧ p.OwnerID ≠ GetUserIDFromRequest r) :=
    hauth
  simp only [DeleteMedicalRecordHandler, queryRecordForDelete, henv, hid,
    find?_joinRecordsPets w.db hwf m p hm hp hmp, deleteRecordExec]
  simp only [Bool.false_eq_true, if_false, Option.map_some', hauth']

theorem DeleteMedicalRecordHandler_no_record (env : Env) (r : Request) (w : World)
    (hno : ∀ x ∈ w.db.medical_records, x.ID ≠ (Atoi (r.var "id")).1) :
    DeleteMedicalRecordHandler env r w =
      (RespondWithError StatusNotFound "Record not found", w.stmt sqlRecordForDelete) := by
  have hfind : (joinRecordsPets w.db).find?
      (fun mp => decide (mp.1.ID = (Atoi (r.var "id")).1)) = none := by
    rw [List.find?_eq_none]
    rintro ⟨m, p⟩ hmem
    simp only [joinRecordsPets, List.mem_flatMap, List.mem_map, List.mem_filter] at hmem
    obtain ⟨m', hm', p', -, heq⟩ := hmem
    simp only [Prod.mk.injEq] at heq
    obtain ⟨rfl, rfl⟩ := heq
    simpa using hno m' hm'
  simp [DeleteMedicalRecordHandler, queryRecordForDelete, hfind]

/-- C13: in every update and delete handler, once the ownership check is passed
or skipped, a mutating statement that runs without driver error in a world
where no row has the id answers 404 and leaves every table and file as it
was (the five tails, at whatever world the statement meets); in particular a
staff caller updating or deleting a pet or an appointment whose id does not
exist gets 404 with nothing changed, and deleting a medical record whose id
does not exist gets 404 for every caller. -/
theorem zero_rows_is_not_found (env : Env) (w : World) :
    (∀ pet petID, env.dbErr sqlUpdatePet = false → (∀ p ∈ w.db.pets, p.ID ≠ petID) →
      (updatePetExec env pet petID w).1.code = StatusNotFound ∧
      (updatePetExec env pet petID w).2.SameData w) ∧
    (∀ petID, env.dbErr sqlDeletePet = false → (∀ p ∈ w.db.pets, p.ID ≠ petID) →
      (deletePetExec env petID w).1.code = StatusNotFound ∧
      (deletePetExec env petID w).2.SameData w) ∧
    (∀ a aptID, env.dbErr sqlUpdateAppointment = false →
      (∀ x ∈ w.db.appointments, x.ID ≠ aptID) →
      (updateAppointmentExec env a aptID w).1.code = StatusNotFound ∧
      (updateAppointmentExec env a aptID w).2.SameData w) ∧
    (∀ aptID, env.dbErr sqlDeleteAppointment = false →
      (∀ x ∈ w.db.appointments, x.ID ≠ aptID) →
      (deleteAppointmentExec env aptID w).1.code = StatusNotFound ∧
      (deleteAppointmentExec env aptID w).2.SameData w) ∧
    (∀ recordID filepath, env.dbErr sqlDeleteRecord = false →
      (∀ x ∈ w.db.medical_records, x.ID ≠ recordID) →
      (deleteRecordExec env recordID filepath w).1.code = StatusNotFound ∧
      (deleteRecordExec env recordID filepath w).2.SameData w) ∧
    (∀ r : Request, GetUserRoleFromRequest r = "staff" →
      (env.dbErr sqlUpdatePet = false → (∀ p ∈ w.db.pets, p.ID ≠ (Atoi (r.var "id")).1) →
        ∀ body, (UpdatePetHandler env r (some body) w).1.code = StatusNotFound ∧
          (UpdatePetHandler env r (some body) w).2.SameData w) ∧
      (env.dbErr sqlDeletePet = false → (∀ p ∈ w.db.pets, p.ID ≠ (Atoi (r.var "id")).1) →
        (DeletePetHandler env r w).1.code = StatusNotFound ∧
          (DeletePetHandler env r w).2.SameData w) ∧
      (env.dbErr sqlUpdateAppointment = false →
        (∀ x ∈ w.db.appointments, x.ID ≠ (Atoi (r.var "id")).1) →
        ∀ body, (UpdateAppointmentHandler env r (some body) w).1.code = StatusNotFound ∧
          (UpdateAppointmentHandler env r (some body) w).2.SameData w) ∧
      (env.dbErr sqlDeleteAppointment = false →
        (∀ x ∈ w.db.appointments, x.ID ≠ (Atoi (r.var "id")).1) →
        (DeleteAppointmentHandler env r w).1.code = StatusNotFound ∧
          (DeleteAppointmentHandler env r w).2.SameData w)) ∧
    (∀ r : Request, (∀ x ∈ w.db.medical_records, x.ID ≠ (Atoi (r.var "id")).1) →
      (DeleteMedicalRecordHandler env r w).1.code = StatusNotFound ∧
      (DeleteMedicalRecordHandler env r w).2.SameData w) := by
  refine ⟨fun pet petID h1 h2 => updatePetExec_no_row env pet petID w h1 h2,
    fun petID h1 h2 => deletePetExec_no_row env petID w h1 h2,
    fun a aptID h1 h2 => updateAppointmentExec_no_row env a aptID w h1 h2,
    fun aptID h1 h2 => deleteAppointmentExec_no_row env aptID w h1 h2, ?_, ?_, ?_⟩
  · intro recordID filepath h1 h2
    rw [deleteRecordExec_no_row env recordID filepath w h1 h2]
    exact ⟨rfl, stmt_sameData w _⟩
  · intro r hrole
    refine ⟨fun h1 h2 body => ?_, fun h1 h2 => ?_, fun h1 h2 body => ?_, fun h1 h2 => ?_⟩
    · have h : UpdatePetHandler env r (some body) w =
          updatePetExec env body (Atoi (r.var "id")).1 w := by
        simp [UpdatePetHandler, hrole]
      rw [h]
      exact updatePetExec_no_row env body _ w h1 h2
    · have h : DeletePetHandler env r w = deletePetExec env (Atoi (r.var "id")).1 w := by
        simp [DeletePetHandler, hrole]
      rw [h]
      exact deletePetExec_no_row env _ w h1 h2
    · have h : UpdateAppointmentHandler env r (some body) w =
          updateAppointmentExec env body (Atoi (r.var "id")).1 w := by
        simp [UpdateAppointmentHandler, hrole]
      rw [h]
      exact updateAppointmentExec_no_row env body _ w h1 h2
    · have h : DeleteAppointmentHandler env r w =
          deleteAppointmentExec env (Atoi (r.var "id")).1 w := by
        simp [DeleteAppointmentHandler, hrole]
      rw [h]
      exact deleteAppointmentExec_no_row env _ w h1 h2
  · intro r hno
    rw [DeleteMedicalRecordHandler_no_record env r w hno]
    exact ⟨rfl, stmt_sameData w _⟩

/-- Sam, staff, updates and deletes pet 8, which does not exist: 404 each time,
and the clinic keeps its rows and files. -/
theorem zero_rows_is_not_found_witness :
    ((UpdatePetHandler calmEnv (requestOf "3" "staff" "8")
        (some ⟨0, "Tom", "cat", "", 0, ""⟩) clinic).1.code = StatusNotFound ∧
      (UpdatePetHandler calmEnv (requestOf "3" "staff" "8")
        (some ⟨0, "Tom", "cat", "", 0, ""⟩) clinic).2.SameData clinic) ∧
    ((DeletePetHandler calmEnv (requestOf "3" "staff" "8") clinic).1.code = StatusNotFound ∧
      (DeletePetHandler calmEnv (requestOf "3" "staff" "8") clinic).2.SameData clinic) :=
  ⟨((zero_rows_is_not_found calmEnv clinic).2.2.2.2.2.1 (requestOf "3" "staff" "8")
      (by decide)).1 (by decide) (by decide) ⟨0, "Tom", "cat", "", 0, ""⟩,
   ((zero_rows_is_not_found calmEnv clinic).2.2.2.2.2.1 (requestOf "3" "staff" "8")
      (by decide)).2.1 (by decide) (by decide)⟩

/-! ## C14: what an update of a pet may change -/

theorem updatePetExec_ok (env : Env) (body : Pet) (petID : Int) (w : World)
    (hok : (updatePetExec env body petID w).1.code = StatusOK) :
    (updatePetExec env body petID w).2.db =
      { w.db with pets := w.db.pets.map (fun p =>
        if p.ID = petID then
          { p with Name := body.Name, Species := body.Species, Breed := body.Breed,
                   MedicalHistory := body.MedicalHistory }
        else p) } ∧
    (updatePetExec env body petID w).2.files = w.files := by
  unfold updatePetExec execUpdatePet at hok ⊢
  by_cases hdb : env.dbErr sqlUpdatePet = true
  · simp [hdb, RespondWithError, RespondWithJSON, StatusOK, StatusInternalServerError] at hok
  · by_cases hcount : w.db.pets.countP (fun p => decide (p.ID = petID)) = 0
    · simp [hdb, hcount, RespondWithError, RespondWithJSON, StatusOK, StatusNotFound] at hok
    · have hdb' : env.dbErr sqlUpdatePet = false := by simpa using hdb
      have hcount' : ¬ ∀ a ∈ w.db.pets, ¬ a.ID = petID := by
        intro h
        exact hcount (List.countP_eq_zero.mpr (fun a ha => by simpa using h a ha))
      simp [hdb', hcount', World.stmt]

theorem UpdatePetHandler_ok (env : Env) (r : Request) (body : Pet) (w : World)
    (hok : (UpdatePetHandler env r (some body) w).1.code = StatusOK) :
    ∃ w0, w0.SameData w ∧
      UpdatePetHandler env r (some body) w = updatePetExec env body (Atoi (r.var "id")).1 w0 := by
  by_cases hrole : GetUserRoleFromRequest r = "staff"
  · exact ⟨w, ⟨rfl, rfl⟩, by simp [UpdatePetHandler, hrole]⟩
  · refine ⟨w.stmt sqlPetOwner, stmt_sameData w _, ?_⟩
    simp only [UpdatePetHandler, hrole, ne_eq, not_false_eq_true, if_true, queryPetOwner] at hok ⊢
    cases hq : (if env.dbErr sqlPetOwner = true then none
        else Option.map Pet.OwnerID
          (List.find? (fun p => decide (p.ID = (Atoi (r.var "id")).1)) w.db.pets)) with
    | none =>
      rw [hq] at hok
      simp [RespondWithError, RespondWithJSON, StatusOK, StatusNotFound] at hok
    | some ownerID =>
      rw [hq] at hok
      by_cases hown : ownerID = GetUserIDFromRequest r
      · simp [hown]
      · simp [hown, RespondWithError, RespondWithJSON, StatusOK, StatusForbidden] at hok

theorem updatePetExec_row (env : Env) (body : Pet) (petID : Int) (w : World)
    (hdb : env.dbErr sqlUpdatePet = false) (hrow : ∃ p ∈ w.db.pets, p.ID = petID) :
    (updatePetExec env body petID w).1.code = StatusOK := by
  have hcount : ¬ ∀ a ∈ w.db.pets, ¬ a.ID = petID := by
    intro h
    obtain ⟨p, hp, hid⟩ := hrow
    exact h p hp hid
  simp [updatePetExec, execUpdatePet, hdb, hcount, RespondWithJSON]

/-- C14: whoever the caller and whatever the body (its id and owner_id
included), when UpdatePetHandler answers 200 the `pets` table after the call
is the table before it, row by row, with the same id and owner_id in every
row, every row with another id untouched, and name, species, breed and
medical_history of the addressed row taken from the body; the other tables and
the files are as before. It answers 200 when the pet exists, the update meets
no driver error and the caller is staff or the owner found by the lookup. -/
theorem update_pet_frame (env : Env) (r : Request) (w : World) (body : Pet) :
    ((UpdatePetHandler env r (some body) w).1.code = StatusOK →
      List.Forall₂ (fun p q : Pet =>
          q.ID = p.ID ∧ q.OwnerID = p.OwnerID ∧
          (p.ID ≠ (Atoi (r.var "id")).1 → q = p) ∧
          (p.ID = (Atoi (r.var "id")).1 →
            q.Name = body.Name ∧ q.Species = body.Species ∧ q.Breed = body.Breed ∧
            q.MedicalHistory = body.MedicalHistory))
        w.db.pets (UpdatePetHandler env r (some body) w).2.db.pets ∧
      (UpdatePetHandler env r (some body) w).2.db.owners = w.db.owners ∧
      (UpdatePetHandler env r (some body) w).2.db.appointments = w.db.appointments ∧
      (UpdatePetHandler env r (some body) w).2.db.medical_records = w.db.medical_records ∧
      (UpdatePetHandler env r (some body) w).2.files = w.files) ∧
    (∀ p ∈ w.db.pets, p.ID = (Atoi (r.var "id")).1 → env.dbErr sqlUpdatePet = false →
      (GetUserRoleFromRequest r = "staff" ∨
        (w.db.WF ∧ env.dbErr sqlPetOwner = false ∧ p.OwnerID = GetUserIDFromRequest r)) →
      (UpdatePetHandler env r (some body) w).1.code = StatusOK) := by
  constructor
  · intro hok
    obtain ⟨w0, ⟨hdb0, hfiles0⟩, heq⟩ := UpdatePetHandler_ok env r body w hok
    rw [heq] at hok ⊢
    obtain ⟨hdb, hfiles⟩ := updatePetExec_ok env body _ w0 hok
    rw [hdb, hfiles, hdb0, hfiles0]
    refine ⟨?_, rfl, rfl, rfl, rfl⟩
    show List.Forall₂ _ w.db.pets (w.db.pets.map _)
    rw [List.forall₂_map_right_iff, List.forall₂_same]
    intro p _
    by_cases hid : p.ID = (Atoi (r.var "id")).1
    · simp [hid]
    · simp [hid]
  · intro p hp hid hdb hauth
    rcases hauth with hrole | ⟨hwf, hlook, hown⟩
    · have h : UpdatePetHandler env r (some body) w =
          updatePetExec env body (Atoi (r.var "id")).1 w := by
        simp [UpdatePetHandler, hrole]
      rw [h]
      exact updatePetExec_row env body _ w hdb ⟨p, hp, hid⟩
    · by_cases hrole : GetUserRoleFromRequest r = "staff"
      · have h : UpdatePetHandler env r (some body) w =
            updatePetExec env body (Atoi (r.var "id")).1 w := by
          simp [UpdatePetHandler, hrole]
        rw [h]
        exact updatePetExec_row env body _ w hdb ⟨p, hp, hid⟩
      · have hfind := find?_pet w.db hwf p hp
        rw [hid] at hfind
        have h : UpdatePetHandler env r (some body) w =
            updatePetExec env body (Atoi (r.var "id")).1 (w.stmt sqlPetOwner) := by
          simp [UpdatePetHandler, hrole, queryPetOwner, hlook, hfind, hown]
        rw [h]
        exact updatePetExec_row env body _ _ hdb ⟨p, hp, hid⟩

/-- Ann updates Rex with a body that names id 99 and owner 2: 200, and Rex keeps
id 7 and owner 1 while name and species are the new ones. -/
theorem update_pet_frame_witness :
    (UpdatePetHandler calmEnv (requestOf "1" "owner" "7")
        (some ⟨99, "Max", "wolf", "", 2, "ok"⟩) clinic).1.code = StatusOK ∧
    (UpdatePetHandler calmEnv (requestOf "1" "owner" "7")
        (some ⟨99, "Max", "wolf", "", 2, "ok"⟩) clinic).2.db.pets =
      [⟨7, "Max", "wolf", "", 1, "ok"⟩] ∧
    (UpdatePetHandler calmEnv (requestOf "1" "owner" "7")
        (some ⟨99, "Max", "wolf", "", 2, "ok"⟩) clinic).2.db.owners = clinic.db.owners :=
  ⟨(update_pet_frame calmEnv (requestOf "1" "owner" "7") clinic
      ⟨99, "Max", "wolf", "", 2, "ok"⟩).2 rex (by decide) (by decide) (by decide)
      (Or.inr (by decide)),
   by decide,
   ((update_pet_frame calmEnv (requestOf "1" "owner" "7") clinic
      ⟨99, "Max", "wolf", "", 2, "ok"⟩).1 (by decide)).2.1⟩

/-! ## C15 and C16: the upload flow -/

theorem insertRecord_fails (env : Env) (m : MedicalRecord) (w : World)
    (hfail : env.dbErr sqlInsertRecord = true ∨ ∀ p ∈ w.db.pets, p.ID ≠ m.PetID) :
    insertRecord env m w = (none, w.stmt sqlInsertRecord) := by
  unfold insertRecord
  rcases hfail with h | h
  · simp [h]
  · have hany : w.db.pets.any (fun p => decide (p.ID = m.PetID)) = false := by
      rw [List.any_eq_false]
      intro x hx
      simpa using h x hx
    simp only [hany]
    split <;> simp

/-- The files after create, copy and a successful remove at `path`. -/
theorem files_after_compensation (files : List File) (path content : String) :
    ((files.filter (fun f => decide (¬ f.path = path)) ++ [(⟨path, ""⟩ : File)]).map
        (fun f : File => if f.path = path then { f with content := content } else f)).filter
        (fun f => decide (¬ f.path = path)) =
      files.filter (fun f => decide (¬ f.path = path)) := by
  rw [List.map_append, List.filter_append]
  have h1 : (files.filter (fun f => decide (¬ f.path = path))).map (fun f : File =>
      if f.path = path then { f with content := content } else f) =
      files.filter (fun f => decide (¬ f.path = path)) := by
    apply map_update_of_no_match _ (fun f : File => f.path = path)
    intro x hx
    rw [List.mem_filter] at hx
    simpa using hx.2
  rw [h1, List.filter_filter]
  simp

theorem uploadStore_insert_fails (env : Env) (cfg : Config) (petID : Int)
    (header : FileHeader) (w : World)
    (hmk : env.fsErr "MkdirAll" = false) (hcr : env.fsErr "Create" = false)
    (hcp : env.fsErr "Copy" = false)
    (hfail : env.dbErr sqlInsertRecord = true ∨ ∀ p ∈ w.db.pets, p.ID ≠ petID) :
    (uploadStore env cfg petID (some header) w).1 =
      RespondWithError StatusInternalServerError "Failed to save record" ∧
    (uploadStore env cfg petID (some header) w).2.db = w.db ∧
    (env.fsErr "Remove" = false →
      (uploadStore env cfg petID (some header) w).2.files = w.files.filter (fun f =>
        ¬ f.path = cfg.Join cfg.UploadDir
          (uploadFilename petID (Unix (env.now 0)) header.Filename))) ∧
    (uploadStore env cfg petID (some header) w).2.trace = w.trace ++
      [Event.fs "MkdirAll" cfg.UploadDir,
       Event.fs "Create"
        (cfg.Join cfg.UploadDir (uploadFilename petID (Unix (env.now 0)) header.Filename)),
       Event.fs "Copy"
        (cfg.Join cfg.UploadDir (uploadFilename petID (Unix (env.now 0)) header.Filename)),
       Event.sql sqlInsertRecord,
       Event.fs "Remove"
        (cfg.Join cfg.UploadDir (uploadFilename petID (Unix (env.now 0)) header.Filename))] := by
  generalize hpath :
    cfg.Join cfg.UploadDir (uploadFilename petID (Unix (env.now 0)) header.Filename) = path
  have hins : ∀ w3 : World, w3.db = w.db →
      insertRecord env ⟨0, petID, header.Filename, path, header.ContentType⟩ w3 =
        (none, w3.stmt sqlInsertRecord) := by
    intro w3 hw3
    apply insertRecord_fails
    rcases hfail with h | h
    · exact Or.inl h
    · exact Or.inr (by rw [hw3]; exact h)
  simp only [uploadStore, osMkdirAll, hmk, osCreate, hcr, ioCopy, hcp, hpath,
    Bool.false_eq_true, if_false]
  rw [hins]
  case a => rfl
  simp only []
  refine ⟨by trivial, ?_, ?_, ?_⟩
  · unfold osRemove
    simp only []
    split <;> rfl
  · intro hrm
    have hex : ((w.files.filter (fun f => decide (¬ f.path = path)) ++
        [(⟨path, ""⟩ : File)]).map
        (fun f : File => if f.path = path then { f with content := header.content } else f)).any
        (fun f => decide (f.path = path)) = true := by
      rw [List.any_eq_true]
      exact ⟨⟨path, header.content⟩, by simp, by simp⟩
    simp only [osRemove, hrm, World.stmt, World.fsCall, hex]
    simp only [Bool.false_eq_true, false_or, not_true_eq_false, if_false]
    exact files_after_compensation w.files path header.content
  · unfold osRemove
    simp only []
    split <;> simp [World.stmt, World.fsCall]

theorem ParseMultipartForm_some (maxMemory : Int) (form : MultipartForm) :
    ParseMultipartForm maxMemory (some form) = some form := by
  unfold ParseMultipartForm
  simp only []
  split
  · rfl
  · split <;> rfl

theorem UploadMedicalRecordHandler_authorized (env : Env) (cfg : Config) (r : Request)
    (form : MultipartForm) (w : World)
    (hid : (Atoi form.pet_id).2 = false) (hnz : (Atoi form.pet_id).1 ≠ 0)
    (hauth : GetUserRoleFromRequest r = "staff" ∨
      (w.db.WF ∧ env.dbErr sqlPetOwner = false ∧
        ∃ p ∈ w.db.pets, p.ID = (Atoi form.pet_id).1 ∧ p.OwnerID = GetUserIDFromRequest r)) :
    ∃ w0, w0.db = w.db ∧ w0.files = w.files ∧
      (w0.trace = w.trace ∨ w0.trace = w.trace ++ [Event.sql sqlPetOwner]) ∧
      UploadMedicalRecordHandler env cfg r (some form) w =
        uploadStore env cfg (Atoi form.pet_id).1 form.file w0 := by
  have hv : ¬ ((Atoi form.pet_id).2 = true ∨ (Atoi form.pet_id).1 = 0) := by
    rintro (h | h)
    · rw [hid] at h; exact Bool.false_ne_true h
    · exact hnz h
  by_cases hrole : GetUserRoleFromRequest r = "staff"
  · exact ⟨w, rfl, rfl, Or.inl rfl,
      by simp [UploadMedicalRecordHandler, ParseMultipartForm_some, hv, hrole]⟩
  · rcases hauth with h | ⟨hwf, hlook, p, hp, hpid, hown⟩
    · exact absurd h hrole
    · have hfind := find?_pet w.db hwf p hp
      rw [hpid] at hfind
      refine ⟨w.stmt sqlPetOwner, rfl, rfl, Or.inr rfl, ?_⟩
      simp [UploadMedicalRecordHandler, ParseMultipartForm_some, hv, hrole, queryPetOwner,
        hlook, hfind, hown]

/-- C15: an authorized upload whose directory, file creation and copy succeed
(it reaches the metadata insert) and whose insert fails, by a driver error or
because the pet row is missing, is answered 500; no table changes, so
`medical_records` has no new row; `os.Remove` is called on the destination path
after the insert, and when that removal meets no error no file is left at the
destination path while every other file is as before. -/
theorem upload_insert_failure_is_compensated (env : Env) (cfg : Config) (r : Request)
    (form : MultipartForm) (header : FileHeader) (w : World)
    (hfile : form.file = some header)
    (hid : (Atoi form.pet_id).2 = false) (hnz : (Atoi form.pet_id).1 ≠ 0)
    (hauth : GetUserRoleFromRequest r = "staff" ∨
      (w.db.WF ∧ env.dbErr sqlPetOwner = false ∧
        ∃ p ∈ w.db.pets, p.ID = (Atoi form.pet_id).1 ∧ p.OwnerID = GetUserIDFromRequest r))
    (hmk : env.fsErr "MkdirAll" = false) (hcr : env.fsErr "Create" = false)
    (hcp : env.fsErr "Copy" = false)
    (hfail : env.dbErr sqlInsertRecord = true ∨
      ∀ p ∈ w.db.pets, p.ID ≠ (Atoi form.pet_id).1) :
    (UploadMedicalRecordHandler env cfg r (some form) w).1 =
      RespondWithError StatusInternalServerError "Failed to save record" ∧
    (UploadMedicalRecordHandler env cfg r (some form) w).2.db = w.db ∧
    (env.fsErr "Remove" = false →
      (∀ f ∈ (UploadMedicalRecordHandler env cfg r (some form) w).2.files,
        f.path ≠ cfg.Join cfg.UploadDir
          (uploadFilename (Atoi form.pet_id).1 (Unix (env.now 0)) header.Filename)) ∧
      (UploadMedicalRecordHandler env cfg r (some form) w).2.files =
        w.files.filter (fun f => ¬ f.path = cfg.Join cfg.UploadDir
          (uploadFilename (Atoi form.pet_id).1 (Unix (env.now 0)) header.Filename))) ∧
    (∃ before, (UploadMedicalRecordHandler env cfg r (some form) w).2.trace =
      before ++ [Event.sql sqlInsertRecord,
        Event.fs "Remove" (cfg.Join cfg.UploadDir
          (uploadFilename (Atoi form.pet_id).1 (Unix (env.now 0)) header.Filename))]) := by
  obtain ⟨w0, hdb0, hfiles0, -, heq⟩ :=
    UploadMedicalRecordHandler_authorized env cfg r form w hid hnz hauth
  rw [heq, hfile]
  obtain ⟨h1, h2, h3, h4⟩ := uploadStore_insert_fails env cfg (Atoi form.pet_id).1 header w0
    hmk hcr hcp (by rw [hdb0]; exact hfail)
  refine ⟨h1, h2.trans hdb0, fun hrm => ?_, ?_⟩
  · have hfiles := h3 hrm
    rw [hfiles0] at hfiles
    refine ⟨fun f hf => ?_, hfiles⟩
    rw [hfiles, List.mem_filter] at hf
    simpa using hf.2
  · refine ⟨w0.trace ++ [Event.fs "MkdirAll" cfg.UploadDir,
      Event.fs "Create" (cfg.Join cfg.UploadDir
        (uploadFilename (Atoi form.pet_id).1 (Unix (env.now 0)) header.Filename)),
      Event.fs "Copy" (cfg.Join cfg.UploadDir
        (uploadFilename (Atoi form.pet_id).1 (Unix (env.now 0)) header.Filename))], ?_⟩
    rw [h4]
    simp

/-- Sam, staff, uploads a scan for pet 8, which does not exist: the file is
written, the insert is refused, the file is removed again; 500, and the clinic
has the rows and the files it had. -/
theorem upload_insert_failure_is_compensated_witness :
    (UploadMedicalRecordHandler calmEnv site (requestOf "3" "staff" "")
        (some ⟨"8", some ⟨"scan.pdf", "application/pdf", "%PDF"⟩⟩) clinic).1 =
      RespondWithError StatusInternalServerError "Failed to save record" ∧
    (UploadMedicalRecordHandler calmEnv site (requestOf "3" "staff" "")
        (some ⟨"8", some ⟨"scan.pdf", "application/pdf", "%PDF"⟩⟩) clinic).2.db = clinic.db ∧
    (UploadMedicalRecordHandler calmEnv site (requestOf "3" "staff" "")
        (some ⟨"8", some ⟨"scan.pdf", "application/pdf", "%PDF"⟩⟩) clinic).2.files =
      clinic.files :=
  ⟨(upload_insert_failure_is_compensated calmEnv site (requestOf "3" "staff" "")
      ⟨"8", some ⟨"scan.pdf", "application/pdf", "%PDF"⟩⟩
      ⟨"scan.pdf", "application/pdf", "%PDF"⟩ clinic rfl (by decide) (by decide)
      (Or.inl (by decide)) (by decide) (by decide) (by decide) (Or.inr (by decide))).1,
   (upload_insert_failure_is_compensated calmEnv site (requestOf "3" "staff" "")
      ⟨"8", some ⟨"scan.pdf", "application/pdf", "%PDF"⟩⟩
      ⟨"scan.pdf", "application/pdf", "%PDF"⟩ clinic rfl (by decide) (by decide)
      (Or.inl (by decide)) (by decide) (by decide) (by decide) (Or.inr (by decide))).2.1,
   by decide⟩

theorem insertRecord_succeeds (env : Env) (m : MedicalRecord) (w : World)
    (hdb : env.dbErr sqlInsertRecord = false) (hpet : ∃ p ∈ w.db.pets, p.ID = m.PetID) :
    insertRecord env m w = (some env.serial,
      { w.stmt sqlInsertRecord with db := { w.db with
          medical_records := w.db.medical_records ++ [{ m with ID := env.serial }] } }) := by
  unfold insertRecord
  have hany : w.db.pets.any (fun p => decide (p.ID = m.PetID)) = true := by
    obtain ⟨p, hp, hid⟩ := hpet
    exact List.any_eq_true.mpr ⟨p, hp, decide_eq_true hid⟩
  simp only [hdb, hany, Bool.false_eq_true, if_false, if_true]
  rfl

/-- The files after create and copy at `path`. -/
theorem files_after_copy (files : List File) (path content : String) :
    (files.filter (fun f => decide (¬ f.path = path)) ++ [(⟨path, ""⟩ : File)]).map
        (fun f : File => if f.path = path then { f with content := content } else f) =
      files.filter (fun f => decide (¬ f.path = path)) ++ [⟨path, content⟩] := by
  rw [List.map_append]
  have h1 : (files.filter (fun f => decide (¬ f.path = path))).map (fun f : File =>
      if f.path = path then { f with content := content } else f) =
      files.filter (fun f => decide (¬ f.path = path)) := by
    apply map_update_of_no_match _ (fun f : File => f.path = path)
    intro x hx
    rw [List.mem_filter] at hx
    simpa using hx.2
  rw [h1]
  simp

theorem uploadStore_success (env : Env) (cfg : Config) (petID : Int)
    (header : FileHeader) (w : World)
    (hmk : env.fsErr "MkdirAll" = false) (hcr : env.fsErr "Create" = false)
    (hcp : env.fsErr "Copy" = false) (hdb : env.dbErr sqlInsertRecord = false)
    (hpet : ∃ p ∈ w.db.pets, p.ID = petID) :
    (uploadStore env cfg petID (some header) w).1 =
      RespondWithJSON StatusCreated
        (Payload.uploaded "File uploaded successfully" env.serial header.Filename) ∧
    (uploadStore env cfg petID (some header) w).2.db.medical_records =
      w.db.medical_records ++
        [⟨env.serial, petID, header.Filename,
          cfg.Join cfg.UploadDir (uploadFilename petID (Unix (env.now 0)) header.Filename),
          header.ContentType⟩] ∧
    (uploadStore env cfg petID (some header) w).2.files =
      w.files.filter (fun f => ¬ f.path = cfg.Join cfg.UploadDir
          (uploadFilename petID (Unix (env.now 0)) header.Filename)) ++
        [⟨cfg.Join cfg.UploadDir (uploadFilename petID (Unix (env.now 0)) header.Filename),
          header.content⟩] := by
  generalize hpath :
    cfg.Join cfg.UploadDir (uploadFilename petID (Unix (env.now 0)) header.Filename) = path
  have hins : ∀ w3 : World, w3.db = w.db →
      insertRecord env ⟨0, petID, header.Filename, path, header.ContentType⟩ w3 =
        (some env.serial,
          { w3.stmt sqlInsertRecord with db := { w3.db with
            medical_records := w3.db.medical_records ++
              [⟨env.serial, petID, header.Filename, path, header.ContentType⟩] } }) := by
    intro w3 hw3
    exact insertRecord_succeeds env _ w3 hdb (by rw [hw3]; exact hpet)
  simp only [uploadStore, osMkdirAll, hmk, osCreate, hcr, ioCopy, hcp, hpath,
    Bool.false_eq_true, if_false]
  rw [hins]
  case a => rfl
  simp only []
  refine ⟨by trivial, rfl, ?_⟩
  exact files_after_copy w.files path header.content

/-! ## C16: the upload limit -/

/-- An upload whose form does not parse is answered 400 "File too large" with the
world untouched. -/
theorem upload_unparsed_form_is_bad_request (env : Env) (cfg : Config) (r : Request)
    (w : World) :
    UploadMedicalRecordHandler env cfg r none w =
      (RespondWithError StatusBadRequest "File too large", w) :=
  rfl

/-- C16 (the code at the failing input): with a limit of 8 bytes configured, Ann
uploads a file of 26 bytes for her pet. `ParseMultipartForm` takes the limit as
its memory budget and parses the form all the same: the answer is 201, the file
is on disk and its row is in `medical_records`, where the claim has the upload
refused with nothing written. When the form does not parse at all the answer
is 400, not 413. -/
theorem oversize_upload_is_stored :
    ((scan.content.utf8ByteSize : Int) > tightSite.MaxUploadSize) ∧
    (UploadMedicalRecordHandler calmEnv tightSite (requestOf "1" "owner" "")
        (some ⟨"7", some scan⟩) clinic).1 =
      ⟨StatusCreated, Payload.uploaded "File uploaded successfully" 100 "scan.pdf"⟩ ∧
    (UploadMedicalRecordHandler calmEnv tightSite (requestOf "1" "owner" "")
        (some ⟨"7", some scan⟩) clinic).2.db.medical_records =
      [xray, ⟨100, 7, "scan.pdf", "uploads/7_1700000000_scan.pdf", "application/pdf"⟩] ∧
    (UploadMedicalRecordHandler calmEnv tightSite (requestOf "1" "owner" "")
        (some ⟨"7", some scan⟩) clinic).2.files =
      clinic.files ++ [⟨"uploads/7_1700000000_scan.pdf", scan.content⟩] ∧
    (UploadMedicalRecordHandler calmEnv tightSite (requestOf "1" "owner" "") none clinic).1 =
      RespondWithError StatusBadRequest "File too large" ∧
    (UploadMedicalRecordHandler calmEnv tightSite (requestOf "1" "owner" "") none
      clinic).1.code ≠ StatusRequestEntityTooLarge := by
  decide

/-! ## C18: the file name the upload stores -/

/-- C18: an authorized upload that succeeds (directory, file and copy without
error, insert accepted) is answered 201, appends the row whose file path is
the upload directory joined with the decimal pet id, "_", the decimal Unix
second of the clock reading, "_" and the original file name, and leaves the
uploaded bytes in the file of that path. The second is the whole number of
seconds in the reading, the decimal form is the one Atoi reads back, and the
three parts can be read back from the name: equal stored names have equal pet
ids, equal timestamps and equal original names, also when the original names
hold digits and underscores. -/
theorem upload_stored_filename (env : Env) (cfg : Config) (r : Request)
    (form : MultipartForm) (header : FileHeader) (w : World)
    (hfile : form.file = some header)
    (hid : (Atoi form.pet_id).2 = false) (hnz : (Atoi form.pet_id).1 ≠ 0)
    (hauth : GetUserRoleFromRequest r = "staff" ∨
      (w.db.WF ∧ env.dbErr sqlPetOwner = false ∧
        ∃ p ∈ w.db.pets, p.ID = (Atoi form.pet_id).1 ∧ p.OwnerID = GetUserIDFromRequest r))
    (hmk : env.fsErr "MkdirAll" = false) (hcr : env.fsErr "Create" = false)
    (hcp : env.fsErr "Copy" = false) (hdb : env.dbErr sqlInsertRecord = false)
    (hpet : ∃ p ∈ w.db.pets, p.ID = (Atoi form.pet_id).1) :
    (UploadMedicalRecordHandler env cfg r (some form) w).1 =
      ⟨StatusCreated, Payload.uploaded "File uploaded successfully" env.serial
        header.Filename⟩ ∧
    (UploadMedicalRecordHandler env cfg r (some form) w).2.db.medical_records =
      w.db.medical_records ++
        [⟨env.serial, (Atoi form.pet_id).1, header.Filename,
          cfg.Join cfg.UploadDir
            (Itoa (Atoi form.pet_id).1 ++ "_" ++ Itoa (Unix (env.now 0)) ++ "_" ++
              header.Filename),
          header.ContentType⟩] ∧
    (⟨cfg.Join cfg.UploadDir
        (Itoa (Atoi form.pet_id).1 ++ "_" ++ Itoa (Unix (env.now 0)) ++ "_" ++
          header.Filename), header.content⟩ : File) ∈
      (UploadMedicalRecordHandler env cfg r (some form) w).2.files ∧
    (Second * Unix (env.now 0) ≤ env.now 0 ∧ env.now 0 < Second * Unix (env.now 0) + Second) ∧
    (∀ n : Int, minInt ≤ n → n ≤ maxInt → Atoi (Itoa n) = (n, false)) ∧
    (∀ (p t p' t' : Int) (n n' : String),
      Itoa p ++ "_" ++ Itoa t ++ "_" ++ n = Itoa p' ++ "_" ++ Itoa t' ++ "_" ++ n' →
      p = p' ∧ t = t' ∧ n = n') := by
  obtain ⟨w0, hdb0, hfiles0, -, heq⟩ :=
    UploadMedicalRecordHandler_authorized env cfg r form w hid hnz hauth
  rw [heq, hfile]
  obtain ⟨h1, h2, h3⟩ := uploadStore_success env cfg (Atoi form.pet_id).1 header w0
    hmk hcr hcp hdb (by rw [hdb0]; exact hpet)
  refine ⟨h1, ?_, ?_, ?_, Atoi_Itoa, ?_⟩
  · rw [h2, hdb0]
    rfl
  · rw [h3]
    exact List.mem_append_right _ (List.mem_singleton_self _)
  · unfold Unix Second
    constructor <;> omega
  · intro p t p' t' n n' h
    exact uploadFilename_injective p t p' t' n n' h

/-- Ann uploads "x_1.pdf" for pet 7 at second 1700000000: the row and the file are
stored under "uploads/7_1700000000_x_1.pdf". -/
theorem upload_stored_filename_witness :
    (UploadMedicalRecordHandler calmEnv site (requestOf "1" "owner" "")
        (some ⟨"7", some ⟨"x_1.pdf", "application/pdf", "%PDF"⟩⟩) clinic).2.db.medical_records =
      [xray, ⟨100, 7, "x_1.pdf", "uploads/7_1700000000_x_1.pdf", "application/pdf"⟩] ∧
    (⟨"uploads/7_1700000000_x_1.pdf", "%PDF"⟩ : File) ∈
      (UploadMedicalRecordHandler calmEnv site (requestOf "1" "owner" "")
        (some ⟨"7", some ⟨"x_1.pdf", "application/pdf", "%PDF"⟩⟩) clinic).2.files ∧
    Itoa 1 ++ "_" ++ Itoa 2 ++ "_" ++ "3_x" ≠ Itoa 1 ++ "_" ++ Itoa 23 ++ "_" ++ "x" :=
  ⟨((upload_stored_filename calmEnv site (requestOf "1" "owner" "")
      ⟨"7", some ⟨"x_1.pdf", "application/pdf", "%PDF"⟩⟩ ⟨"x_1.pdf", "application/pdf", "%PDF"⟩
      clinic rfl (by decide) (by decide) (Or.inr (by decide)) (by decide) (by decide)
      (by decide) (by decide) (by decide)).2.1).trans (by decide),
   by decide,
   fun h => absurd (((upload_stored_filename calmEnv site (requestOf "1" "owner" "")
      ⟨"7", some ⟨"x_1.pdf", "application/pdf", "%PDF"⟩⟩ ⟨"x_1.pdf", "application/pdf", "%PDF"⟩
      clinic rfl (by decide) (by decide) (Or.inr (by decide)) (by decide) (by decide)
      (by decide) (by decide) (by decide)).2.2.2.2.2 1 2 1 23 "3_x" "x" h).2.1) (by decide)⟩

/-! ## C17: deleting a medical record -/

theorem deleteRecordExec_row (env : Env) (recordID : Int) (filepath : String) (w : World)
    (hdb : env.dbErr sqlDeleteRecord = false)
    (hrow : ∃ m ∈ w.db.medical_records, m.ID = recordID) :
    deleteRecordExec env recordID filepath w =
      (RespondWithJSON StatusOK (Payload.message "Medical record deleted successfully"),
       (osRemove env filepath
        { w.stmt sqlDeleteRecord with db := { w.db with
            medical_records := w.db.medical_records.filter (fun m => ¬ m.ID = recordID) } }).2) := by
  have hcount : ¬ ∀ a ∈ w.db.medical_records, ¬ a.ID = recordID := by
    intro h
    obtain ⟨m, hm, hid⟩ := hrow
    exact h m hm hid
  simp [deleteRecordExec, execDeleteRecord, hdb, hcount, World.stmt]

theorem deleteRecordExec_driver_error (env : Env) (recordID : Int) (filepath : String)
    (w : World) (hdb : env.dbErr sqlDeleteRecord = true) :
    deleteRecordExec env recordID filepath w =
      (RespondWithError StatusInternalServerError "Failed to delete record",
       w.stmt sqlDeleteRecord) := by
  simp [deleteRecordExec, execDeleteRecord, hdb]

/-- C17: for an authorized DeleteMedicalRecordHandler call on an existing record
(primary keys, lookup answered), when the row delete meets no driver error the
answer is 200 and the row is gone whatever `os.Remove` returns, the statements
run in the order lookup, row delete, file removal, and the file is off the disk
when the removal succeeds and untouched when it fails; when the row delete
fails the answer is 500 and when it affects no row the answer is 404, and in
both cases `os.Remove` is not called and the files are as before. -/
theorem delete_record_row_then_file (env : Env) (r : Request) (w : World)
    (hwf : w.db.WF) (hlook : env.dbErr sqlRecordForDelete = false)
    (m : MedicalRecord) (p : Pet) (hm : m ∈ w.db.medical_records) (hp : p ∈ w.db.pets)
    (hmp : m.PetID = p.ID) (hid : (Atoi (r.var "id")).1 = m.ID)
    (hauth : ¬ Denied r p.OwnerID) :
    (env.dbErr sqlDeleteRecord = false →
      (DeleteMedicalRecordHandler env r w).1 =
        RespondWithJSON StatusOK (Payload.message "Medical record deleted successfully") ∧
      (DeleteMedicalRecordHandler env r w).2.db.medical_records =
        w.db.medical_records.filter (fun x => ¬ x.ID = m.ID) ∧
      (∀ x ∈ (DeleteMedicalRecordHandler env r w).2.db.medical_records, x.ID ≠ m.ID) ∧
      (DeleteMedicalRecordHandler env r w).2.trace = w.trace ++
        [Event.sql sqlRecordForDelete, Event.sql sqlDeleteRecord,
         Event.fs "Remove" m.FilePath] ∧
      (env.fsErr "Remove" = false →
        (DeleteMedicalRecordHandler env r w).2.files =
          w.files.filter (fun f => ¬ f.path = m.FilePath)) ∧
      (env.fsErr "Remove" = true → (DeleteMedicalRecordHandler env r w).2.files = w.files)) ∧
    (env.dbErr sqlDeleteRecord = true →
      (DeleteMedicalRecordHandler env r w).1.code = StatusInternalServerError ∧
      (DeleteMedicalRecordHandler env r w).2.SameData w ∧
      (DeleteMedicalRecordHandler env r w).2.trace = w.trace ++
        [Event.sql sqlRecordForDelete, Event.sql sqlDeleteRecord]) ∧
    (DeleteMedicalRecordHandler env r w =
        deleteRecordExec env m.ID m.FilePath (w.stmt sqlRecordForDelete) ∧
      ∀ (w1 : World) (recordID : Int) (filepath : String),
        env.dbErr sqlDeleteRecord = false →
        (∀ x ∈ w1.db.medical_records, x.ID ≠ recordID) →
        (deleteRecordExec env recordID filepath w1).1.code = StatusNotFound ∧
        (deleteRecordExec env recordID filepath w1).2.SameData w1 ∧
        (deleteRecordExec env recordID filepath w1).2.trace =
          w1.trace ++ [Event.sql sqlDeleteRecord]) := by
  have htail := DeleteMedicalRecordHandler_tail env r w hwf hlook m p hm hp hmp hid hauth
  refine ⟨fun hdb => ?_, fun hdb => ?_, htail, fun w1 recordID filepath hdb hno => ?_⟩
  · rw [htail, deleteRecordExec_row env m.ID m.FilePath (w.stmt sqlRecordForDelete) hdb
      ⟨m, hm, rfl⟩]
    refine ⟨rfl, ?_, ?_, ?_, ?_, ?_⟩
    · unfold osRemove
      simp only []
      split <;> rfl
    · intro x hx
      have hx' : x ∈ w.db.medical_records.filter (fun y => decide (¬ y.ID = m.ID)) := by
        unfold osRemove at hx
        simp only [] at hx
        split at hx <;> exact hx
      rw [List.mem_filter] at hx'
      simpa using hx'.2
    · unfold osRemove
      simp only []
      split <;> simp [World.stmt, World.fsCall]
    · intro hrm
      unfold osRemove
      simp only [hrm]
      by_cases hex : w.files.any (fun f => decide (f.path = m.FilePath)) = true
      · simp [World.stmt, World.fsCall, hex]
      · have hnone : ∀ f ∈ w.files, ¬ f.path = m.FilePath := by
          intro f hf hpath
          exact hex (List.any_eq_true.mpr ⟨f, hf, decide_eq_true hpath⟩)
        simp only [World.stmt, World.fsCall, hex]
        simp only [Bool.false_eq_true, false_or, not_false_eq_true, if_true]
        exact (filter_not_of_no_match w.files (fun f => f.path = m.FilePath) hnone).symm
    · intro hrm
      unfold osRemove
      simp [hrm, World.stmt, World.fsCall]
  · rw [htail, deleteRecordExec_driver_error env m.ID m.FilePath (w.stmt sqlRecordForDelete) hdb]
    exact ⟨rfl, ⟨rfl, rfl⟩, by simp [World.stmt]⟩
  · rw [deleteRecordExec_no_row env recordID filepath w1 hdb hno]
    exact ⟨rfl, stmt_sameData w1 _, rfl⟩

/-- Ann deletes the record of her pet: 200, the row and the file are gone; when
the file system refuses the removal the answer is still 200, the row is gone
and the file stays. -/
theorem delete_record_row_then_file_witness :
    ((DeleteMedicalRecordHandler calmEnv (requestOf "1" "owner" "9") clinic).1.code =
        StatusOK ∧
      (DeleteMedicalRecordHandler calmEnv (requestOf "1" "owner" "9") clinic).2.db.medical_records
        = [] ∧
      (DeleteMedicalRecordHandler calmEnv (requestOf "1" "owner" "9") clinic).2.files = []) ∧
    ((DeleteMedicalRecordHandler { calmEnv with fsErr := fun _ => true }
        (requestOf "1" "owner" "9") clinic).1 =
        RespondWithJSON StatusOK (Payload.message "Medical record deleted successfully") ∧
      (DeleteMedicalRecordHandler { calmEnv with fsErr := fun _ => true }
        (requestOf "1" "owner" "9") clinic).2.files = clinic.files) :=
  ⟨by decide,
   ((delete_record_row_then_file { calmEnv with fsErr := fun _ => true }
      (requestOf "1" "owner" "9") clinic (by decide) (by decide) xray rex (by decide)
      (by decide) (by decide) (by decide) (by decide)).1 (by decide)).1,
   ((delete_record_row_then_file { calmEnv with fsErr := fun _ => true }
      (requestOf "1" "owner" "9") clinic (by decide) (by decide) xray rex (by decide)
      (by decide) (by decide) (by decide) (by decide)).1 (by decide)).2.2.2.2.2 (by decide)⟩

end PetClinic
